import Mathlib

/-!
# OXRS fan controller library: shallow embedding and verified properties

The embedding follows `src/OXRS_Fan.h` and `src/OXRS_Fan.cpp`.

* Machine integers are natural numbers, reduced explicitly (`u8`, `u32`, `sub32`).
* The private members of the class form `Core`; the I2C hardware reached through
  `Wire` and the `Adafruit_EMC2101` driver objects forms `Hardware`; what is
  printed on `Serial` is the list `State.serial`.
* The per-fan arrays `_externalTempTimeout_ms` and `_lastExternalTemp` are lists
  with checked indexing: a read or a write past the end makes the operation
  return `none`. A theorem about such an operation states what every result
  satisfies and when there is a result.
* `millis()` is a parameter `clock` of every operation that reads the clock; one
  call of an operation reads one clock value.
-/

namespace OXRSFan

/-! ## Constants (OXRS_Fan.h) -/

/-- The I2C addresses of the TCA9548 muxes. -/
def TCA_I2C_ADDRESS : List Nat := [0x70, 0x71, 0x72, 0x73, 0x74, 0x75, 0x76, 0x77]

/-- The number of mux addresses, `sizeof(TCA_I2C_ADDRESS)`. -/
def TCA_COUNT : Nat := TCA_I2C_ADDRESS.length

/-- The I2C address of every EMC2101 fan driver. -/
def EMC_I2C_ADDRESS : Nat := 0x4C

/-- The number of channels of one mux. -/
def EMC_COUNT : Nat := 8

/-- Default telemetry interval (60 s). -/
def DEFAULT_PUBLISH_TELEMETRY_MS : Nat := 60000

/-- Default external temperature timeout (90 s). -/
def DEFAULT_EXTERNAL_TEMP_TIMEOUT_MS : Nat := 90000

/-! ## Machine arithmetic -/

/-- Truncation to `uint8_t`. -/
def u8 (n : Nat) : Nat := n % 256

/-- Truncation to `uint32_t`. -/
def u32 (n : Nat) : Nat := n % 4294967296

/-- Subtraction of two `uint32_t` values, `a - b` modulo `2^32`. -/
def sub32 (a b : Nat) : Nat := (a + (4294967296 - b % 4294967296)) % 4294967296

/-- Arduino `bitRead(value, bit)`: `((value) >> (bit)) & 0x01`. -/
def bitRead (value bit : Nat) : Nat := (value >>> bit) &&& 1

/-- Arduino `bitWrite(value, bit, 1)`, that is `bitSet`: `value |= (1UL << bit)`,
stored back into a `uint8_t`. -/
def bitSet (value bit : Nat) : Nat := u8 (value ||| (1 <<< bit))

/-- The value `millis()` returns when the millisecond clock stands at `clock`. -/
def millis (clock : Nat) : Nat := u32 clock

/-- The address `TCA_I2C_ADDRESS[tca]`; every use is guarded by `tca < TCA_COUNT`. -/
def tcaAddress (tca : Nat) : Nat := TCA_I2C_ADDRESS.getD tca 0

/-- The fan index of a slot, `uint8_t fan = (tca * EMC_COUNT) + emc + 1`. -/
def fanIndex (tca emc : Nat) : Nat := u8 (tca * EMC_COUNT + emc + 1)

/-- The mux of a fan, `uint8_t tca = (fan - 1) / EMC_COUNT`; every use follows a
check that `fan` is not 0, so the subtraction does not go below 0. -/
def fanTca (fan : Nat) : Nat := u8 ((fan - 1) / EMC_COUNT)

/-- The channel of a fan, `uint8_t emc = (fan - 1) % EMC_COUNT`; every use follows
a check that `fan` is not 0. -/
def fanEmc (fan : Nat) : Nat := u8 ((fan - 1) % EMC_COUNT)

/-! ## JSON input documents

A member that is absent (`containsKey` is false) is `none`; a member that is
present carries its integer value. -/

/-- Modelled from the spec: the conversion `as<uint8_t>()` of a JSON member, done
by the ArduinoJson library, which is not part of this repository. The schema keeps
every member within the type, where the value is returned as it is; an integer
out of range and an absent member give 0, the convention of that library. -/
def asU8 (v : Option Int) : Nat :=
  match v with
  | some i => if 0 ≤ i ∧ i ≤ 255 then i.toNat else 0
  | none => 0

/-- Modelled from the spec: ArduinoJson `JsonVariant::as<uint32_t>()`, see `asU8`. -/
def asU32 (v : Option Int) : Nat :=
  match v with
  | some i => if 0 ≤ i ∧ i ≤ 4294967295 then i.toNat else 0
  | none => 0

/-- One item of `fanSpeedThresholds`. -/
structure Threshold where
  temperature : Option Int
  dutyCycle : Option Int

/-- One item of the `fans` array of a config document. -/
structure FanConfig where
  fan : Option Int
  externalTemperatureTimeoutSeconds : Option Int
  fanSpeedThresholds : Option (List Threshold)

/-- A config document. -/
structure Config where
  publishFanTelemetrySeconds : Option Int
  fans : Option (List FanConfig)

/-- One item of the `fans` array of a command document. -/
structure FanCommand where
  fan : Option Int
  dutyCycle : Option Int
  externalTemperature : Option Int

/-- A command document. -/
structure Command where
  fans : Option (List FanCommand)

/-! ## JSON output documents -/

/-- Modelled from the spec: the ArduinoJson document a schema or a telemetry
snapshot is written to. -/
inductive Json where
  | null : Json
  | bool (b : Bool) : Json
  | int (n : Int) : Json
  | float (q : ℚ) : Json
  | str (s : String) : Json
  | arr (items : List Json) : Json
  | obj (members : List (String × Json)) : Json

/-- Replace the member `key` of a member list, or add it at the end. -/
def setMember (key : String) (v : Json) : List (String × Json) → List (String × Json)
  | [] => [(key, v)]
  | (k, w) :: rest => if k = key then (key, v) :: rest else (k, w) :: setMember key v rest

/-- Modelled from the spec: `json[key] = v` and `json.createNestedObject(key)`
followed by the assignments to the new object. A null document becomes an object;
a document that is neither null nor an object is left as it is. -/
def Json.set (json : Json) (key : String) (v : Json) : Json :=
  match json with
  | Json.null => Json.obj [(key, v)]
  | Json.obj members => Json.obj (setMember key v members)
  | other => other

/-! ## Hardware: the muxes and the fan drivers -/

/-- Modelled from the spec: one EMC2101 fan controller as the driver capability
of spec section 6 shows it. The setters record the value last given; `responds`
is the answer of `begin`, and the three readings are what the getters return. -/
structure Emc2101 where
  responds : Bool
  lutEnabled : Bool
  lutHysteresis : Nat
  lut : Nat → Nat × Nat
  dutyCycle : Nat
  forcedTemperatureEnabled : Bool
  forcedTemperature : Nat
  externalTemperatureReading : ℚ
  dutyCycleReading : Nat
  fanRPMReading : Nat

/-- The I2C bus: which mux addresses acknowledge, the control register of every
mux (by address), and the fan controller behind every channel (by mux index and
channel). -/
structure Hardware where
  tcaResponds : Nat → Bool
  tcaControl : Nat → Nat
  emc : Nat → Nat → Emc2101

/-- The lowest channel enabled in a mux control register. The code writes
one-hot masks only, so this is the channel selected last. -/
def selectedChannel (control : Nat) : Option Nat :=
  (List.range EMC_COUNT).find? (fun c => bitRead control c != 0)

/-- Modelled from the spec: a setter called on the driver object `emc2101[tca]`
reaches the fan controller behind the channel selected on mux `tca`. Controllers
behind channels left enabled on the other muxes of the bus are outside the model. -/
def Hardware.onSelected (hw : Hardware) (tca : Nat) (f : Emc2101 → Emc2101) : Hardware :=
  match selectedChannel (hw.tcaControl (tcaAddress tca)) with
  | some c => { hw with emc := fun t e => if t = tca ∧ e = c then f (hw.emc t e) else hw.emc t e }
  | none => hw

/-- Modelled from the spec: the fan controller a getter called on `emc2101[tca]`
reads from. -/
def Hardware.selected (hw : Hardware) (tca : Nat) : Option Emc2101 :=
  match selectedChannel (hw.tcaControl (tcaAddress tca)) with
  | some c => some (hw.emc tca c)
  | none => none

/-- The call `emc2101[tca].begin(EMC_I2C_ADDRESS)`: whether the fan controller
behind the selected channel answers. What the driver writes to the controller
while it starts is outside the model. -/
def emcBegin (tca : Nat) (hw : Hardware) : Bool :=
  match hw.selected tca with
  | some d => d.responds
  | none => false

/-- The call `emc2101[tca].LUTEnabled(b)`. -/
def LUTEnabled (tca : Nat) (b : Bool) (hw : Hardware) : Hardware :=
  hw.onSelected tca (fun d => { d with lutEnabled := b })

/-- The call `emc2101[tca].setLUTHysteresis(h)`. -/
def setLUTHysteresis (tca : Nat) (h : Nat) (hw : Hardware) : Hardware :=
  hw.onSelected tca (fun d => { d with lutHysteresis := h })

/-- The call `emc2101[tca].setLUT(index, temperature, dutyCycle)`. -/
def setLUT (tca : Nat) (index temperature dutyCycle : Nat) (hw : Hardware) : Hardware :=
  hw.onSelected tca (fun d => { d with lut := Function.update d.lut index (temperature, dutyCycle) })

/-- The call `emc2101[tca].setDutyCycle(dutyCycle)`. -/
def setDutyCycle (tca : Nat) (dutyCycle : Nat) (hw : Hardware) : Hardware :=
  hw.onSelected tca (fun d => { d with dutyCycle := dutyCycle })

/-- The call `emc2101[tca].enableForcedTemperature(b)`. -/
def enableForcedTemperature (tca : Nat) (b : Bool) (hw : Hardware) : Hardware :=
  hw.onSelected tca (fun d => { d with forcedTemperatureEnabled := b })

/-- The call `emc2101[tca].setForcedTemperature(t)`. -/
def setForcedTemperature (tca : Nat) (t : Nat) (hw : Hardware) : Hardware :=
  hw.onSelected tca (fun d => { d with forcedTemperature := t })

/-- The call `emc2101[tca].getExternalTemperature()`. -/
def getExternalTemperature (tca : Nat) (hw : Hardware) : ℚ :=
  match hw.selected tca with
  | some d => d.externalTemperatureReading
  | none => 0

/-- The call `emc2101[tca].getDutyCycle()`. -/
def getDutyCycle (tca : Nat) (hw : Hardware) : Nat :=
  match hw.selected tca with
  | some d => u8 d.dutyCycleReading
  | none => 0

/-- The call `emc2101[tca].getFanRPM()`, a `uint16_t`. -/
def getFanRPM (tca : Nat) (hw : Hardware) : Nat :=
  match hw.selected tca with
  | some d => d.fanRPMReading % 65536
  | none => 0

/-! ## State -/

/-- What the library prints on `Serial`. -/
inductive SerialMsg where
  /-- The line `[fan ] scanning for fan controllers...`. -/
  | scanning : SerialMsg
  /-- The text ` - 0x<address>...`. -/
  | tcaProbe (address : Nat) : SerialMsg
  /-- The line `TCA9548`. -/
  | tcaFound : SerialMsg
  /-- The line `empty`. -/
  | tcaEmpty : SerialMsg
  /-- The text `   - MUX port #<emc>...`. -/
  | muxPort (emc : Nat) : SerialMsg
  /-- The line `EMC2101 (fan #<fan>)`. -/
  | emcFound (fan : Nat) : SerialMsg
  /-- The line `[fan ] missing fan`. -/
  | missingFan : SerialMsg
  /-- The line `[fan ] invalid fan`. -/
  | invalidFan : SerialMsg
  /-- The line `[fan ] invalid fan, no TCA9548 found`. -/
  | noTCA9548 : SerialMsg
  /-- The line `[fan ] invalid fan, no EMC2101 found`. -/
  | noEMC2101 : SerialMsg
  deriving DecidableEq, Repr

/-- Spec section 7, `OutOfRange`: the diagnostic `[fan ] invalid fan`. -/
abbrev OutOfRange : SerialMsg := SerialMsg.invalidFan

/-- Spec section 7, `MuxNotFound`: the diagnostic `[fan ] invalid fan, no TCA9548 found`. -/
abbrev MuxNotFound : SerialMsg := SerialMsg.noTCA9548

/-- Spec section 7, `DeviceNotFound`: the diagnostic `[fan ] invalid fan, no EMC2101 found`. -/
abbrev DeviceNotFound : SerialMsg := SerialMsg.noEMC2101

/-- The private members of class `OXRS_Fan`. The two per-fan arrays have
`TCA_COUNT * EMC_COUNT` elements each. `_emcsFound` is a function of the mux
index, which is below `TCA_COUNT` at every use. -/
structure Core where
  tcasFound : Nat
  emcsFound : Nat → Nat
  fansFound : Nat
  publishTelemetry_ms : Nat
  lastPublishTelemetry : Nat
  externalTempTimeout_ms : List Nat
  lastExternalTemp : List Nat

/-- The library object, the hardware it drives and the serial output so far. -/
structure State where
  core : Core
  hw : Hardware
  serial : List SerialMsg

/-- The declared size of the two per-fan arrays. -/
abbrev Core.WellSized (c : Core) : Prop :=
  c.externalTempTimeout_ms.length = TCA_COUNT * EMC_COUNT ∧
    c.lastExternalTemp.length = TCA_COUNT * EMC_COUNT

/-- The call `Serial.println(msg)`. -/
def State.println (s : State) (msg : SerialMsg) : State :=
  { s with serial := s.serial ++ [msg] }

/-- Checked array write `a[i] = v`. -/
def writeAt (a : List Nat) (i v : Nat) : Option (List Nat) :=
  if i < a.length then some (a.set i v) else none

/-! ## OXRS_Fan.cpp -/

/-- The method `OXRS_Fan::selectEMC`, acting on the bus. -/
def selectEMC (tca emc : Nat) (hw : Hardware) : Bool × Hardware :=
  if tca ≥ TCA_COUNT then (false, hw)
  else if emc ≥ EMC_COUNT then (false, hw)
  else (true, { hw with tcaControl := Function.update hw.tcaControl (tcaAddress tca) (u8 (1 <<< emc)) })

/-- The method `OXRS_Fan::getFan`; `fan` is the member `fan` of the JSON item. The
result is the validated fan index, or 0 after a diagnostic was printed. -/
def getFan (fan : Option Int) (s : State) : Nat × State :=
  match fan with
  | none => (0, s.println SerialMsg.missingFan)
  | some raw =>
    if asU8 (some raw) ≤ 0 ∨ asU8 (some raw) > TCA_COUNT * EMC_COUNT then
      (0, s.println SerialMsg.invalidFan)
    else if bitRead s.core.tcasFound (fanTca (asU8 (some raw))) = 0 then
      (0, s.println SerialMsg.noTCA9548)
    else if bitRead (s.core.emcsFound (fanTca (asU8 (some raw)))) (fanEmc (asU8 (some raw))) = 0 then
      (0, s.println SerialMsg.noEMC2101)
    else
      (asU8 (some raw), s)

/-- A `for` loop over the items of `l`, in order, whose body may fail. -/
def forEach {ι : Type} (l : List ι) (body : ι → State → Option State) (s : State) :
    Option State :=
  match l with
  | [] => some s
  | a :: rest =>
    match body a s with
    | some s1 => forEach rest body s1
    | none => none

/-! ### scanI2CBus and begin -/

/-- The block of `scanI2CBus` run when `emc2101[tca].begin` succeeded on channel
`emc` (lines 161 to 182). -/
def scanFound (tca emc : Nat) (s : State) : Option State :=
  match writeAt s.core.externalTempTimeout_ms (fanIndex tca emc) DEFAULT_EXTERNAL_TEMP_TIMEOUT_MS with
  | none => none
  | some timeouts =>
    match writeAt s.core.lastExternalTemp (fanIndex tca emc) 0 with
    | none => none
    | some lasts =>
      some
        { core :=
            { s.core with
              emcsFound := Function.update s.core.emcsFound tca (bitSet (s.core.emcsFound tca) emc)
              externalTempTimeout_ms := timeouts
              lastExternalTemp := lasts
              fansFound := u8 (s.core.fansFound + 1) }
          hw :=
            setLUT tca 2 50 100 (setLUT tca 1 40 50 (setLUT tca 0 30 25
              (setLUTHysteresis tca 5 (LUTEnabled tca true s.hw))))
          serial := s.serial ++ [SerialMsg.emcFound (fanIndex tca emc)] }

/-- The body of the inner loop of `scanI2CBus`, for channel `emc` of mux `tca`. -/
def scanEmc (tca emc : Nat) (s : State) : Option State :=
  match selectEMC tca emc s.hw with
  | (false, hw) => some { s with hw := hw }
  | (true, hw) =>
    if emcBegin tca hw then
      scanFound tca emc { s with hw := hw, serial := s.serial ++ [SerialMsg.muxPort emc] }
    else
      some { s with hw := hw, serial := s.serial ++ [SerialMsg.muxPort emc] }

/-- The body of the outer loop of `scanI2CBus`, for mux `tca`. -/
def scanTca (tca : Nat) (s : State) : Option State :=
  if s.hw.tcaResponds (tcaAddress tca) then
    forEach (List.range EMC_COUNT) (scanEmc tca)
      { s with
        core :=
          { s.core with
            emcsFound := Function.update s.core.emcsFound tca 0
            tcasFound := bitSet s.core.tcasFound tca }
        serial := s.serial ++ [SerialMsg.tcaProbe (tcaAddress tca), SerialMsg.tcaFound] }
  else
    some
      { s with
        core := { s.core with emcsFound := Function.update s.core.emcsFound tca 0 }
        serial := s.serial ++ [SerialMsg.tcaProbe (tcaAddress tca), SerialMsg.tcaEmpty] }

/-- The method `OXRS_Fan::scanI2CBus`. -/
def scanI2CBus (s : State) : Option State :=
  forEach (List.range TCA_COUNT) scanTca
    { s with
      core := { s.core with fansFound := 0 }
      serial := s.serial ++ [SerialMsg.scanning] }

/-- The method `OXRS_Fan::begin`. -/
def begin (s : State) : Option State := scanI2CBus s

/-! ### loop -/

/-- The revert of `loop` (lines 49 to 55), once the fan was found to have waited
too long. -/
def loopRevert (tca emc : Nat) (s : State) : Option State :=
  match selectEMC tca emc s.hw with
  | (false, hw) => some { s with hw := hw }
  | (true, hw) =>
    match writeAt s.core.lastExternalTemp (fanIndex tca emc) 0 with
    | none => none
    | some lasts =>
      some
        { s with
          core := { s.core with lastExternalTemp := lasts }
          hw := enableForcedTemperature tca false hw }

/-- The body of the inner loop of `loop`, for channel `emc` of mux `tca`. -/
def loopEmc (clock : Nat) (tca emc : Nat) (s : State) : Option State :=
  if bitRead (s.core.emcsFound tca) emc = 0 then some s
  else
    match s.core.lastExternalTemp[fanIndex tca emc]? with
    | none => none
    | some last =>
      if last = 0 then some s
      else
        match s.core.externalTempTimeout_ms[fanIndex tca emc]? with
        | none => none
        | some timeout =>
          if timeout = 0 then some s
          else if sub32 (millis clock) last > timeout then loopRevert tca emc s
          else some s

/-- The body of the outer loop of `loop`, for mux `tca`. -/
def loopTca (clock : Nat) (tca : Nat) (s : State) : Option State :=
  if bitRead s.core.tcasFound tca = 0 then some s
  else forEach (List.range EMC_COUNT) (loopEmc clock tca) s

/-- The method `OXRS_Fan::loop`, the watchdog tick. -/
def loop (clock : Nat) (s : State) : Option State :=
  if s.core.fansFound = 0 then some s
  else forEach (List.range TCA_COUNT) (loopTca clock) s

/-! ### getTelemetry -/

/-- The telemetry item of one fan (lines 100 to 105). -/
def telemetryItem (fan : Nat) (rpm dutyCycle : Nat) (temperature : ℚ) : Json :=
  Json.obj
    [ ("fan", Json.int fan),
      ("running", Json.bool (decide (rpm > 0))),
      ("rpm", Json.int rpm),
      ("dutyCycle", Json.int dutyCycle),
      ("temperature", Json.float temperature) ]

/-- The body of the inner loop of `getTelemetry`; the second component is the
array `telemetry` built so far. -/
def telemetryEmc (tca emc : Nat) (acc : State × List Json) : State × List Json :=
  if bitRead (acc.1.core.emcsFound tca) emc = 0 then acc
  else
    match selectEMC tca emc acc.1.hw with
    | (false, hw) => ({ acc.1 with hw := hw }, acc.2)
    | (true, hw) =>
      if getExternalTemperature tca hw = 127 then ({ acc.1 with hw := hw }, acc.2)
      else
        ({ acc.1 with hw := hw },
          acc.2 ++ [telemetryItem (fanIndex tca emc) (getFanRPM tca hw) (getDutyCycle tca hw)
            (getExternalTemperature tca hw)])

/-- The body of the outer loop of `getTelemetry`. -/
def telemetryTca (tca : Nat) (acc : State × List Json) : State × List Json :=
  if bitRead acc.1.core.tcasFound tca = 0 then acc
  else (List.range EMC_COUNT).foldl (fun a emc => telemetryEmc tca emc a) acc

/-- The method `OXRS_Fan::getTelemetry`; the result holds the new state and the
document `json` after the call. -/
def getTelemetry (clock : Nat) (json : Json) (s : State) : State × Json :=
  if s.core.fansFound = 0 then (s, json)
  else if s.core.publishTelemetry_ms = 0 then (s, json)
  else if sub32 (millis clock) s.core.lastPublishTelemetry > s.core.publishTelemetry_ms then
    ({ ((List.range TCA_COUNT).foldl (fun a tca => telemetryTca tca a) (s, [])).1 with
        core :=
          { ((List.range TCA_COUNT).foldl (fun a tca => telemetryTca tca a) (s, [])).1.core with
            lastPublishTelemetry := millis clock } },
      Json.arr ((List.range TCA_COUNT).foldl (fun a tca => telemetryTca tca a) (s, [])).2)
  else (s, json)

/-! ### setConfigSchema, onConfig, jsonFanConfig -/

/-- The schema of an integer member: title, type, minimum and maximum. -/
def integerSchema (title : String) (minimum maximum : Int) : Json :=
  Json.obj
    [ ("title", Json.str title),
      ("type", Json.str "integer"),
      ("minimum", Json.int minimum),
      ("maximum", Json.int maximum) ]

/-- The object `fanSpeedThresholds` of the config schema (lines 227 to 253). -/
def fanSpeedThresholdsSchema : Json :=
  Json.obj
    [ ("title", Json.str "Fan Speed Thresholds"),
      ("description", Json.str "Add a series of temperature thresholds and required fan speeds. This allows you to configure your fan to ramp up as the temperature increases."),
      ("type", Json.str "array"),
      ("minItems", Json.int 1),
      ("maxItems", Json.int 8),
      ("items", Json.obj
        [ ("type", Json.str "object"),
          ("properties", Json.obj
            [ ("temperature", integerSchema "Temperature (°C)" 0 126),
              ("dutyCycle", integerSchema "Duty Cycle (%)" 0 100) ]),
          ("required", Json.arr [Json.str "temperature", Json.str "dutyCycle"]) ]) ]

/-- The method `OXRS_Fan::setConfigSchema`; the result is the document `json`
after the call. -/
def setConfigSchema (json : Json) (s : State) : Json :=
  if s.core.fansFound = 0 then json
  else
    ((json.set "publishFanTelemetrySeconds"
        (Json.obj
          [ ("title", Json.str "Publish Fan Telemetry (seconds)"),
            ("description", Json.str "How often to publish telemetry data from the fan controllers attached to your device (defaults to 60 seconds, setting to 0 disables telemetry reports). Must be a number between 0 and 86400 (i.e. 1 day)."),
            ("type", Json.str "integer"),
            ("minimum", Json.int 0),
            ("maximum", Json.int 86400) ])).set "fans"
      (Json.obj
        [ ("title", Json.str "Fan Configuration"),
          ("description", Json.str "Add configuration for each fan attached to your device. The 1-based index specifies which fan you wish to configure. The external temperature sensor timeout defines how long after the last temperature update before reverting to the onboard temperature sensor for determining fan speed (defaults to 60 seconds, 0 means it will never revert, must be a number between 0 and 86400)."),
          ("type", Json.str "array"),
          ("items", Json.obj
            [ ("type", Json.str "object"),
              ("properties", Json.obj
                [ ("fan", integerSchema "Fan" 1 (TCA_COUNT * EMC_COUNT : Nat)),
                  ("externalTemperatureTimeoutSeconds",
                    integerSchema "External Temperature Timeout (seconds)" 0 86400),
                  ("fanSpeedThresholds", fanSpeedThresholdsSchema) ]),
              ("required", Json.arr [Json.str "fan"]) ]) ]))

/-- The loop of `jsonFanConfig` over `fanSpeedThresholds` (lines 298 to 303):
`setLUT(index++, ...)` for every item, `index` being a `uint8_t`. -/
def setThresholds (tca : Nat) : List Threshold → Nat → Hardware → Hardware
  | [], _, hw => hw
  | v :: rest, index, hw =>
    setThresholds tca rest (u8 (index + 1))
      (setLUT tca index (asU8 v.temperature) (asU8 v.dutyCycle) hw)

/-- The two `containsKey` blocks of `jsonFanConfig` (lines 290 to 304), for the
validated fan `fan` whose channel was selected. -/
def applyFanConfig (json : FanConfig) (fan : Nat) (s : State) : Option State :=
  match
    (match json.externalTemperatureTimeoutSeconds with
      | some v =>
        (writeAt s.core.externalTempTimeout_ms fan (asU8 (some v))).map
          (fun timeouts => { s with core := { s.core with externalTempTimeout_ms := timeouts } })
      | none => some s) with
  | none => none
  | some s1 =>
    match json.fanSpeedThresholds with
    | some array => some { s1 with hw := setThresholds (fanTca fan) array 0 s1.hw }
    | none => some s1

/-- The method `OXRS_Fan::jsonFanConfig`. -/
def jsonFanConfig (json : FanConfig) (s : State) : Option State :=
  if (getFan json.fan s).1 = 0 then some (getFan json.fan s).2
  else
    match selectEMC (fanTca (getFan json.fan s).1) (fanEmc (getFan json.fan s).1)
        (getFan json.fan s).2.hw with
    | (false, hw) => some { (getFan json.fan s).2 with hw := hw }
    | (true, hw) =>
      applyFanConfig json (getFan json.fan s).1 { (getFan json.fan s).2 with hw := hw }

/-- The method `OXRS_Fan::onConfig`. -/
def onConfig (json : Config) (s : State) : Option State :=
  if s.core.fansFound = 0 then some s
  else
    match json.fans with
    | some fans =>
      forEach fans jsonFanConfig
        (match json.publishFanTelemetrySeconds with
          | some v => { s with core := { s.core with publishTelemetry_ms := u32 (asU32 (some v) * 1000) } }
          | none => s)
    | none =>
      some
        (match json.publishFanTelemetrySeconds with
          | some v => { s with core := { s.core with publishTelemetry_ms := u32 (asU32 (some v) * 1000) } }
          | none => s)

/-! ### setCommandSchema, onCommand, jsonFanCommand -/

/-- The method `OXRS_Fan::setCommandSchema`; the result is the document `json`
after the call. -/
def setCommandSchema (json : Json) (s : State) : Json :=
  if s.core.fansFound = 0 then json
  else
    json.set "fans"
      (Json.obj
        [ ("title", Json.str "Fan Commands"),
          ("description", Json.str "Send commands to one or more fans attached to your device. The 1-based index specifies which fan you wish to command. The duty cycle is used to manually control the fan speed (from 0 - 100%, setting to 0 will revert to automatic control based on temperature). External temperature reports (in °C) will be used in preference to the onboard temperature sensor. If no external temperature report is received after a while (configurable period) the fan will revert to using the onboard temperature sensor."),
          ("type", Json.str "array"),
          ("items", Json.obj
            [ ("type", Json.str "object"),
              ("properties", Json.obj
                [ ("fan", integerSchema "Fan" 1 (TCA_COUNT * EMC_COUNT : Nat)),
                  ("dutyCycle", integerSchema "Duty Cycle (%)" 0 100),
                  ("externalTemperature", integerSchema "External Temperature (°C)" 0 126) ]),
              ("required", Json.arr [Json.str "fan"]) ]) ])

/-- The `dutyCycle` block of `jsonFanCommand` (lines 370 to 377). -/
def applyDutyCycle (json : FanCommand) (tca : Nat) (hw : Hardware) : Hardware :=
  match json.dutyCycle with
  | some v => setDutyCycle tca (asU8 (some v)) (LUTEnabled tca (decide (asU8 (some v) = 0)) hw)
  | none => hw

/-- The `externalTemperature` block of `jsonFanCommand` (lines 379 to 389). -/
def applyExternalTemperature (clock : Nat) (json : FanCommand) (fan : Nat) (s : State) :
    Option State :=
  match json.externalTemperature with
  | some v =>
    match writeAt s.core.lastExternalTemp fan (millis clock) with
    | none => none
    | some lasts =>
      some
        { s with
          core := { s.core with lastExternalTemp := lasts }
          hw :=
            setForcedTemperature (fanTca fan) (asU8 (some v))
              (enableForcedTemperature (fanTca fan) (decide (asU8 (some v) > 0)) s.hw) }
  | none => some s

/-- The method `OXRS_Fan::jsonFanCommand`. -/
def jsonFanCommand (clock : Nat) (json : FanCommand) (s : State) : Option State :=
  if (getFan json.fan s).1 = 0 then some (getFan json.fan s).2
  else
    match selectEMC (fanTca (getFan json.fan s).1) (fanEmc (getFan json.fan s).1)
        (getFan json.fan s).2.hw with
    | (false, hw) => some { (getFan json.fan s).2 with hw := hw }
    | (true, hw) =>
      applyExternalTemperature clock json (getFan json.fan s).1
        { (getFan json.fan s).2 with hw := applyDutyCycle json (fanTca (getFan json.fan s).1) hw }

/-- The method `OXRS_Fan::onCommand`. -/
def onCommand (clock : Nat) (json : Command) (s : State) : Option State :=
  if s.core.fansFound = 0 then some s
  else
    match json.fans with
    | some fans => forEach fans (jsonFanCommand clock) s
    | none => some s

/-! ## Vocabulary of the specification -/

/-- Mux `tca` was marked present by discovery. -/
abbrev muxPresent (s : State) (tca : Nat) : Prop := bitRead s.core.tcasFound tca ≠ 0

/-- The channel slot `(tca, emc)` was marked detected by discovery. -/
abbrev slotDetected (s : State) (tca emc : Nat) : Prop := bitRead (s.core.emcsFound tca) emc ≠ 0

/-- The raw index `i` is a valid fan: within `1 .. TCA_COUNT * EMC_COUNT`, with its
owning mux present and its channel slot detected. -/
abbrev validFan (s : State) (i : Int) : Prop :=
  1 ≤ i ∧ i ≤ 64 ∧ muxPresent s (fanTca i.toNat) ∧ slotDetected s (fanTca i.toNat) (fanEmc i.toNat)

/-- The fan controller of fan `fan`. -/
def State.fanDriver (s : State) (fan : Nat) : Emc2101 := s.hw.emc (fanTca fan) (fanEmc fan)

/-- The view `lastExternalTempAt: timestamp | none` of the specification: the
stored value 0 is what `loop` reads as "no external temperature report". -/
def State.lastExternalTempAt (s : State) (fan : Nat) : Option Nat :=
  match s.core.lastExternalTemp[fan]? with
  | some t => if t = 0 then none else some t
  | none => none

/-- The hardware after `selectEMC tca emc` succeeded. -/
def Hardware.select (hw : Hardware) (tca emc : Nat) : Hardware :=
  { hw with tcaControl := Function.update hw.tcaControl (tcaAddress tca) (u8 (1 <<< emc)) }

/-- The test of `loop` on one fan (lines 39 to 47): an external temperature report
is recorded (`last` is set and not 0), the timeout is enabled (not 0) and the
32-bit difference `millis() - last` exceeds it. -/
def expiredAt (clock : Nat) (last timeout : Option Nat) : Bool :=
  match last, timeout with
  | some t0, some T => t0 != 0 && T != 0 && decide (sub32 (millis clock) t0 > T)
  | _, _ => false

/-- The watchdog condition of fan `(tca, emc)` in state `s` at clock value `clock`:
the fan is discovered and its report has expired. -/
def watchdogFires (clock : Nat) (s : State) (tca emc : Nat) : Bool :=
  decide (muxPresent s tca) && decide (slotDetected s tca emc) &&
    expiredAt clock (s.core.lastExternalTemp[fanIndex tca emc]?)
      (s.core.externalTempTimeout_ms[fanIndex tca emc]?)

/-- What `loop` can change for the slot `(tca, emc)`: the stored timestamp of the
fan and its fan controller. -/
def slotView (s : State) (j : Nat × Nat) : Option Nat × Emc2101 :=
  (s.core.lastExternalTemp[fanIndex j.1 j.2]?, s.hw.emc j.1 j.2)

/-- The revert of `loop` seen on a slot: timestamp cleared, forced temperature
disabled. -/
def revertView (v : Option Nat × Emc2101) : Option Nat × Emc2101 :=
  (some 0, { v.2 with forcedTemperatureEnabled := false })

/-- Everything `loop` leaves as it is, relative to the state `s0` it started from. -/
def LoopFrame (s0 s : State) : Prop :=
  s.core.tcasFound = s0.core.tcasFound ∧ s.core.emcsFound = s0.core.emcsFound ∧
    s.core.fansFound = s0.core.fansFound ∧
    s.core.publishTelemetry_ms = s0.core.publishTelemetry_ms ∧
    s.core.lastPublishTelemetry = s0.core.lastPublishTelemetry ∧
    s.core.externalTempTimeout_ms = s0.core.externalTempTimeout_ms ∧
    s.core.lastExternalTemp.length = s0.core.lastExternalTemp.length ∧
    s.hw.tcaResponds = s0.hw.tcaResponds ∧ s.serial = s0.serial

/-- The effect of one iteration of the inner loop of `loop` on the view of its
slot; `s0` is the state `loop` started from. -/
def loopEmcView (clock : Nat) (s0 : State) (j : Nat × Nat) (v : Option Nat × Emc2101) :
    Option Nat × Emc2101 :=
  if decide (slotDetected s0 j.1 j.2) &&
      expiredAt clock v.1 (s0.core.externalTempTimeout_ms[fanIndex j.1 j.2]?) then revertView v
  else v

/-- The effect of one iteration of the outer loop of `loop` on the view of a slot
of its mux. -/
def loopTcaView (clock : Nat) (s0 : State) (j : Nat × Nat) (v : Option Nat × Emc2101) :
    Option Nat × Emc2101 :=
  if muxPresent s0 j.1 then loopEmcView clock s0 j v else v

/-- The core state and the driver state of a state, without the serial output. -/
def State.obs (s : State) : Core × Hardware := (s.core, s.hw)

/-- The member `fan` passes the validator `getFan` in state `s`. -/
def passes (s : State) (fan : Option Int) : Bool := (getFan fan s).1 != 0

/-- The per-fan arrays have their declared size and the last slot, fan 64, is not
discovered: every array access of the library is within bounds. -/
def InBounds (s : State) : Prop :=
  s.core.WellSized ∧ ¬ (muxPresent s 7 ∧ slotDetected s 7 7)

/-- The `fanSpeedThresholds` array of the points `points`, given as
(temperature, dutyCycle) pairs. -/
def thresholdsOf (points : List (Nat × Nat)) : List Threshold :=
  points.map (fun p => ⟨some (p.1 : Int), some (p.2 : Int)⟩)

/-- The driver calls `setLUT(index, temperature, dutyCycle)` for the points of
`points` in order, the first index being `first`. -/
def setLUTCalls (tca : Nat) (first : Nat) (points : List (Nat × Nat)) (hw : Hardware) : Hardware :=
  (List.enumFrom first points).foldl (fun h p => setLUT tca p.1 p.2.1 p.2.2 h) hw

/-- The telemetry record of the fan on slot `(tca, emc)`: its fan index and the
three readings of its fan controller. -/
def fanRecord (s : State) (tca emc : Nat) : Json :=
  telemetryItem (fanIndex tca emc) ((s.hw.emc tca emc).fanRPMReading % 65536)
    (u8 (s.hw.emc tca emc).dutyCycleReading) (s.hw.emc tca emc).externalTemperatureReading

/-- The fan on slot `(tca, emc)` is discovered and its temperature reading is not
the sentinel 127. -/
def fanReported (s : State) (tca emc : Nat) : Bool :=
  decide (muxPresent s tca) && decide (slotDetected s tca emc) &&
    decide ((s.hw.emc tca emc).externalTemperatureReading ≠ 127)

/-- The 64 slots, mux by mux and channel by channel. -/
def allSlots : List (Nat × Nat) :=
  (List.range TCA_COUNT).flatMap (fun tca => (List.range EMC_COUNT).map (fun emc => (tca, emc)))

/-- The telemetry snapshot of state `s`: one record per reported fan, in the order
of `allSlots`. -/
def snapshot (s : State) : List Json :=
  (allSlots.filter (fun j => fanReported s j.1 j.2)).map (fun j => fanRecord s j.1 j.2)

/-- The condition under which `getTelemetry` samples: fans were found, publishing
is enabled, and the 32-bit difference `millis() - _lastPublishTelemetry` exceeds
the interval. -/
abbrev telemetryFires (clock : Nat) (s : State) : Prop :=
  s.core.fansFound ≠ 0 ∧ s.core.publishTelemetry_ms ≠ 0 ∧
    sub32 (millis clock) s.core.lastPublishTelemetry > s.core.publishTelemetry_ms

/-- What the loops of `getTelemetry` leave as it is, relative to the state `s0`. -/
def TelemetryFrame (s0 s : State) : Prop :=
  s.core = s0.core ∧ s.hw.emc = s0.hw.emc ∧ s.hw.tcaResponds = s0.hw.tcaResponds ∧
    s.serial = s0.serial

/-- What discovery can change for the slot `(tca, emc)`: the presence bit of its
mux, its detection bit, the stored timeout and timestamp of its fan, and its fan
controller. -/
structure ScanView where
  mux : Bool
  slot : Bool
  timeout : Option Nat
  last : Option Nat
  driver : Emc2101

/-- The view of slot `j` in state `s`. -/
def scanView (s : State) (j : Nat × Nat) : ScanView :=
  { mux := decide (muxPresent s j.1)
    slot := decide (slotDetected s j.1 j.2)
    timeout := s.core.externalTempTimeout_ms[fanIndex j.1 j.2]?
    last := s.core.lastExternalTemp[fanIndex j.1 j.2]?
    driver := s.hw.emc j.1 j.2 }

/-- A fan controller after the five driver calls of discovery (lines 176 to 182):
curve mode enabled, hysteresis 5, and the three default curve points. -/
def defaultCurve (d : Emc2101) : Emc2101 :=
  { d with
    lutEnabled := true
    lutHysteresis := 5
    lut := Function.update (Function.update (Function.update d.lut 0 (30, 25)) 1 (40, 50)) 2
      (50, 100) }

/-- The view of a slot after a fan controller was found on it. -/
def foundView (v : ScanView) : ScanView :=
  { v with
    slot := true
    timeout := some DEFAULT_EXTERNAL_TEMP_TIMEOUT_MS
    last := some 0
    driver := defaultCurve v.driver }

/-- The effect of one iteration of the inner loop of `scanI2CBus` on the view of
its slot, on the bus `hw0`. -/
def scanEmcView (hw0 : Hardware) (j : Nat × Nat) (v : ScanView) : ScanView :=
  if (hw0.emc j.1 j.2).responds then foundView v else v

/-- The effect of one iteration of the outer loop of `scanI2CBus` on the view of a
slot of its mux, on the bus `hw0`. -/
def scanTcaView (hw0 : Hardware) (j : Nat × Nat) (v : ScanView) : ScanView :=
  if hw0.tcaResponds (tcaAddress j.1) then scanEmcView hw0 j { v with mux := true, slot := false }
  else { v with slot := false }

/-- What discovery leaves as it is, relative to the state `s0` it started from,
with the bounds it keeps. -/
def ScanFrame (s0 s : State) : Prop :=
  s.core.WellSized ∧ s.hw.tcaResponds = s0.hw.tcaResponds ∧
    (∀ t e, (s.hw.emc t e).responds = (s0.hw.emc t e).responds) ∧
    s.core.fansFound < 256 ∧
    s.core.publishTelemetry_ms = s0.core.publishTelemetry_ms ∧
    s.core.lastPublishTelemetry = s0.core.lastPublishTelemetry

/-- The number of fan controllers that answer on the channels `l` of mux `tca`. -/
def respondingOn (hw0 : Hardware) (tca : Nat) (l : List Nat) : Nat :=
  (l.map (fun emc => if (hw0.emc tca emc).responds then 1 else 0)).sum

/-- The number of fans discovery finds on mux `tca`. -/
def foundOn (hw0 : Hardware) (tca : Nat) : Nat :=
  if hw0.tcaResponds (tcaAddress tca) then respondingOn hw0 tca (List.range EMC_COUNT) else 0

/-- A fan controller answers on channel `emc` of a mux that answers at the address
of index `tca`. -/
def deviceAt (hw0 : Hardware) (tca emc : Nat) : Bool :=
  hw0.tcaResponds (tcaAddress tca) && (hw0.emc tca emc).responds

/-- What discovery establishes and the later operations keep: the two presence
masks and the found-count. -/
def State.found (s : State) : Nat × (Nat → Nat) × Nat :=
  (s.core.tcasFound, s.core.emcsFound, s.core.fansFound)

/-! ## Sample states -/

/-- A fan controller with nothing set. -/
def idleDriver : Emc2101 :=
  { responds := false
    lutEnabled := false
    lutHysteresis := 0
    lut := fun _ => (0, 0)
    dutyCycle := 0
    forcedTemperatureEnabled := false
    forcedTemperature := 0
    externalTemperatureReading := 0
    dutyCycleReading := 0
    fanRPMReading := 0 }

/-- The state after discovery found mux `0x70` with devices on channels 0 and 2
only: fans 1 and 3 exist, with the default timeout and no external temperature
report. -/
def sampleState : State :=
  { core :=
      { tcasFound := 1
        emcsFound := fun tca => if tca = 0 then 5 else 0
        fansFound := 2
        publishTelemetry_ms := DEFAULT_PUBLISH_TELEMETRY_MS
        lastPublishTelemetry := 0
        externalTempTimeout_ms :=
          ((List.replicate 64 0).set 1 DEFAULT_EXTERNAL_TEMP_TIMEOUT_MS).set 3
            DEFAULT_EXTERNAL_TEMP_TIMEOUT_MS
        lastExternalTemp := List.replicate 64 0 }
    hw :=
      { tcaResponds := fun address => address == 0x70
        tcaControl := fun address => if address = 0x70 then 4 else 0
        emc := fun tca emc =>
          { idleDriver with
            responds := tca == 0 && (emc == 0 || emc == 2)
            lutEnabled := true
            lutHysteresis := 5 } }
    serial := [] }

/-- A state in which the only fan is the last one, fan 64 on channel 7 of the mux
at `0x77`. -/
def lastFanState : State :=
  { core :=
      { tcasFound := 128
        emcsFound := fun tca => if tca = 7 then 128 else 0
        fansFound := 1
        publishTelemetry_ms := DEFAULT_PUBLISH_TELEMETRY_MS
        lastPublishTelemetry := 0
        externalTempTimeout_ms := List.replicate 64 0
        lastExternalTemp := List.replicate 64 0 }
    hw :=
      { tcaResponds := fun address => address == 0x77
        tcaControl := fun address => if address = 0x77 then 128 else 0
        emc := fun tca emc =>
          { idleDriver with
            responds := tca == 7 && emc == 7
            lutEnabled := true
            lutHysteresis := 5 } }
    serial := [] }

/-- A state in which discovery found no fan. -/
def emptyState : State :=
  { core :=
      { tcasFound := 0
        emcsFound := fun _ => 0
        fansFound := 0
        publishTelemetry_ms := DEFAULT_PUBLISH_TELEMETRY_MS
        lastPublishTelemetry := 0
        externalTempTimeout_ms := List.replicate 64 0
        lastExternalTemp := List.replicate 64 0 }
    hw :=
      { tcaResponds := fun _ => false
        tcaControl := fun _ => 0
        emc := fun _ _ => idleDriver }
    serial := [] }

/-- A state after discovery found mux `0x70` with devices on channels 0 and 2, the
last telemetry 60001 ms before clock value 60001: fan 1 reads 126 degrees at
1200 rpm, fan 3 reads the sentinel 127. -/
def telemetryState : State :=
  { sampleState with
    hw :=
      { sampleState.hw with
        emc := fun tca emc =>
          { idleDriver with
            responds := tca == 0 && (emc == 0 || emc == 2)
            externalTemperatureReading := if emc = 0 then 126 else 127
            dutyCycleReading := 50
            fanRPMReading := if emc = 0 then 1200 else 0 } } }

/-- The initial state on a bus whose only fan controller is on the last slot,
channel 7 of the mux at `0x77`. -/
def lastFanBus : State :=
  { core :=
      { tcasFound := 0
        emcsFound := fun _ => 0
        fansFound := 0
        publishTelemetry_ms := DEFAULT_PUBLISH_TELEMETRY_MS
        lastPublishTelemetry := 0
        externalTempTimeout_ms := List.replicate 64 0
        lastExternalTemp := List.replicate 64 0 }
    hw :=
      { tcaResponds := fun address => address == 0x77
        tcaControl := fun _ => 0
        emc := fun tca emc => { idleDriver with responds := tca == 7 && emc == 7 } }
    serial := [] }

/-- The initial state on a bus with the mux at `0x70` and fan controllers on its
channels 0 and 2. -/
def sampleBus : State :=
  { lastFanBus with
    hw :=
      { tcaResponds := fun address => address == 0x70
        tcaControl := fun _ => 0
        emc := fun tca emc => { idleDriver with responds := tca == 0 && (emc == 0 || emc == 2) } } }

/-- The state `telemetryState` with telemetry disabled: the interval is 0. -/
def telemetryOffState : State :=
  { telemetryState with core := { telemetryState.core with publishTelemetry_ms := 0 } }

theorem TCA_COUNT_eq : TCA_COUNT = 8 := rfl

theorem EMC_COUNT_eq : EMC_COUNT = 8 := rfl

/-- C1: address round trip. For every mux below `TCA_COUNT` and channel below
`EMC_COUNT` the fan index is `mux * 8 + channel + 1` without 8-bit wrap, lies in
1..64, and is mapped back to the same mux and channel; and every fan index in
1..64 is rebuilt from its mux and channel. -/
theorem address_round_trip (tca emc fan : Nat) (htca : tca < TCA_COUNT) (hemc : emc < EMC_COUNT)
    (hlo : 1 ≤ fan) (hhi : fan ≤ TCA_COUNT * EMC_COUNT) :
    (fanIndex tca emc = tca * 8 + emc + 1 ∧ 1 ≤ fanIndex tca emc ∧ fanIndex tca emc ≤ 64 ∧
        fanTca (fanIndex tca emc) = tca ∧ fanEmc (fanIndex tca emc) = emc) ∧
      fanIndex (fanTca fan) (fanEmc fan) = fan := by
  have h8 := TCA_COUNT_eq
  have e8 := EMC_COUNT_eq
  simp only [fanIndex, fanTca, fanEmc, u8, e8] at *
  omega

theorem address_round_trip_witness :
    (fanIndex 7 7 = 7 * 8 + 7 + 1 ∧ 1 ≤ fanIndex 7 7 ∧ fanIndex 7 7 ≤ 64 ∧
        fanTca (fanIndex 7 7) = 7 ∧ fanEmc (fanIndex 7 7) = 7) ∧
      fanIndex (fanTca 64) (fanEmc 64) = 64 :=
  address_round_trip 7 7 64 (by decide) (by decide) (by decide) (by decide)

/-- C2: the validator `getFan` on a raw index `i`, in any discovery state. It
succeeds (a result other than 0) iff `i` is in 1..64, the owning mux is marked
present and the owning channel slot is marked detected, and then it returns `i`
itself and prints nothing. Otherwise it returns 0 and prints exactly one
diagnostic, the first that applies: `OutOfRange` iff `i` is outside 1..64,
`MuxNotFound` iff `i` is in range and the owning mux is not present,
`DeviceNotFound` iff `i` is in range, the mux is present and the slot is not
detected. -/
theorem getFan_validates (i : Int) (s : State) :
    ((getFan (some i) s).1 ≠ 0 ↔ validFan s i) ∧
      (validFan s i → getFan (some i) s = (i.toNat, s) ∧ (i.toNat : Int) = i) ∧
      (getFan (some i) s = (0, s.println OutOfRange) ↔ (i ≤ 0 ∨ i > 64)) ∧
      (getFan (some i) s = (0, s.println MuxNotFound) ↔
        (1 ≤ i ∧ i ≤ 64 ∧ ¬ muxPresent s (fanTca i.toNat))) ∧
      (getFan (some i) s = (0, s.println DeviceNotFound) ↔
        (1 ≤ i ∧ i ≤ 64 ∧ muxPresent s (fanTca i.toNat) ∧
          ¬ slotDetected s (fanTca i.toNat) (fanEmc i.toNat))) ∧
      (¬ validFan s i → (getFan (some i) s).1 = 0 ∧
        ((getFan (some i) s).2 = s.println OutOfRange ∨
          (getFan (some i) s).2 = s.println MuxNotFound ∨
          (getFan (some i) s).2 = s.println DeviceNotFound)) := by
  have hne : ∀ a b : SerialMsg, s.println a = s.println b ↔ a = b := by
    intro a b
    constructor
    · intro h
      have h2 := congrArg State.serial h
      simpa [State.println] using h2
    · intro h
      rw [h]
  by_cases hr : 1 ≤ i ∧ i ≤ 64
  · obtain ⟨h1, h2⟩ := hr
    have hu : asU8 (some i) = i.toNat := by simp [asU8]; omega
    have hn1 : 1 ≤ i.toNat := by omega
    have hn2 : i.toNat ≤ 64 := by omega
    have hcast : (i.toNat : Int) = i := by omega
    have hrange : ¬ (i.toNat ≤ 0 ∨ i.toNat > TCA_COUNT * EMC_COUNT) := by
      rw [TCA_COUNT_eq, EMC_COUNT_eq]; omega
    by_cases hm : bitRead s.core.tcasFound (fanTca i.toNat) = 0
    · have hg : getFan (some i) s = (0, s.println SerialMsg.noTCA9548) := by
        simp only [getFan, hu, hrange, hm, if_true, if_false]
      simp only [hg, validFan, muxPresent, slotDetected, hm, hne, Prod.mk.injEq]
      simp
      omega
    · by_cases he : bitRead (s.core.emcsFound (fanTca i.toNat)) (fanEmc i.toNat) = 0
      · have hg : getFan (some i) s = (0, s.println SerialMsg.noEMC2101) := by
          simp only [getFan, hu, hrange, hm, he, if_true, if_false]
        simp only [hg, validFan, muxPresent, slotDetected, hm, he, hne, Prod.mk.injEq]
        simp
        omega
      · have hg : getFan (some i) s = (i.toNat, s) := by
          simp only [getFan, hu, hrange, hm, he, if_false]
        simp only [hg, validFan, muxPresent, slotDetected, Prod.mk.injEq]
        simp [hm, he, hcast]
        omega
  · have hu : asU8 (some i) ≤ 0 ∨ asU8 (some i) > TCA_COUNT * EMC_COUNT := by
      rw [TCA_COUNT_eq, EMC_COUNT_eq]
      simp only [asU8]
      split_ifs <;> omega
    have hg : getFan (some i) s = (0, s.println SerialMsg.invalidFan) := by
      simp only [getFan, hu, if_true]
    simp only [hg, validFan, hne, Prod.mk.injEq]
    simp
    omega

/-! ### Channel selection and the driver -/

theorem selectedChannel_onehot (emc : Nat) (h : emc < 8) :
    selectedChannel (u8 (1 <<< emc)) = some emc := by
  interval_cases emc <;> decide

theorem tcaAddress_eq (tca : Nat) (h : tca < 8) : tcaAddress tca = 0x70 + tca := by
  interval_cases tca <;> rfl

theorem selectEMC_ok (tca emc : Nat) (hw : Hardware) (ht : tca < 8) (he : emc < 8) :
    selectEMC tca emc hw =
      (true, { hw with
        tcaControl := Function.update hw.tcaControl (tcaAddress tca) (u8 (1 <<< emc)) }) := by
  have h1 : ¬ tca ≥ TCA_COUNT := by rw [TCA_COUNT_eq]; omega
  have h2 : ¬ emc ≥ EMC_COUNT := by rw [EMC_COUNT_eq]; omega
  simp only [selectEMC, h1, h2, if_false]

theorem onSelected_tcaControl (hw : Hardware) (tca : Nat) (f : Emc2101 → Emc2101) :
    (hw.onSelected tca f).tcaControl = hw.tcaControl := by
  unfold Hardware.onSelected
  split <;> rfl

theorem onSelected_tcaResponds (hw : Hardware) (tca : Nat) (f : Emc2101 → Emc2101) :
    (hw.onSelected tca f).tcaResponds = hw.tcaResponds := by
  unfold Hardware.onSelected
  split <;> rfl

theorem onSelected_emc (hw : Hardware) (tca c : Nat) (f : Emc2101 → Emc2101)
    (h : selectedChannel (hw.tcaControl (tcaAddress tca)) = some c) (t e : Nat) :
    (hw.onSelected tca f).emc t e = if t = tca ∧ e = c then f (hw.emc t e) else hw.emc t e := by
  unfold Hardware.onSelected
  rw [h]

theorem fanIndex_of_fan (fan : Nat) (h1 : 1 ≤ fan) (h2 : fan ≤ 64) :
    fanIndex (fanTca fan) (fanEmc fan) = fan := by
  simp only [fanIndex, fanTca, fanEmc, u8, EMC_COUNT_eq]
  omega

theorem fanTca_lt (fan : Nat) (h : fan ≤ 64) : fanTca fan < 8 := by
  simp only [fanTca, u8, EMC_COUNT_eq]
  omega

theorem fanEmc_lt (fan : Nat) : fanEmc fan < 8 := by
  simp only [fanEmc, u8, EMC_COUNT_eq]
  omega

theorem getFan_ne_zero_iff (i : Int) (s : State) :
    (getFan (some i) s).1 ≠ 0 ↔ validFan s i := by
  have h8 : TCA_COUNT * EMC_COUNT = 64 := by rw [TCA_COUNT_eq, EMC_COUNT_eq]
  by_cases hr : 1 ≤ i ∧ i ≤ 64
  · have hu : asU8 (some i) = i.toNat := by simp [asU8]; omega
    have hrange : ¬ (i.toNat ≤ 0 ∨ i.toNat > 64) := by omega
    simp only [getFan, hu, h8, hrange, if_false, validFan, muxPresent, slotDetected]
    by_cases hm : bitRead s.core.tcasFound (fanTca i.toNat) = 0
    · simp [hm]
    · by_cases he : bitRead (s.core.emcsFound (fanTca i.toNat)) (fanEmc i.toNat) = 0
      · simp [hm, he]
      · simp [hm, he]
        omega
  · have hu : asU8 (some i) ≤ 0 ∨ asU8 (some i) > 64 := by
      simp only [asU8]
      split_ifs <;> omega
    simp only [getFan, h8, hu, if_true, validFan]
    simp
    omega

theorem getFan_valid (i : Int) (s : State) (hv : validFan s i) :
    getFan (some i) s = (i.toNat, s) ∧ 1 ≤ i.toNat ∧ i.toNat ≤ 64 := by
  obtain ⟨h1, h2, hm, he⟩ := hv
  have hu : asU8 (some i) = i.toNat := by simp [asU8]; omega
  have hrange : ¬ (i.toNat ≤ 0 ∨ i.toNat > TCA_COUNT * EMC_COUNT) := by
    rw [TCA_COUNT_eq, EMC_COUNT_eq]; omega
  refine ⟨?_, by omega, by omega⟩
  simp only [getFan, hu, hrange, if_false]
  simp only [muxPresent, slotDetected] at hm he
  simp only [hm, he, if_false]

theorem select_selected (hw : Hardware) (tca emc : Nat) (he : emc < 8) :
    selectedChannel ((hw.select tca emc).tcaControl (tcaAddress tca)) = some emc := by
  simp only [Hardware.select, Function.update_same]
  exact selectedChannel_onehot emc he

theorem jsonFanCommand_valid (clock : Nat) (json : FanCommand) (i : Int) (s : State)
    (hfan : json.fan = some i) (hv : validFan s i) :
    jsonFanCommand clock json s =
      applyExternalTemperature clock json i.toNat
        { s with
          hw := (applyDutyCycle json (fanTca i.toNat)
            (s.hw.select (fanTca i.toNat) (fanEmc i.toNat))) } := by
  obtain ⟨hg, h1, h2⟩ := getFan_valid i s hv
  have hne : ¬ i.toNat = 0 := by omega
  simp only [jsonFanCommand, hfan, hg, hne, if_false,
    selectEMC_ok _ _ _ (fanTca_lt _ h2) (fanEmc_lt _), Hardware.select]

theorem externalTemperature_command (clock : Nat) (json : FanCommand) (i v : Int) (s : State)
    (hsz : s.core.WellSized) (hfan : json.fan = some i) (hext : json.externalTemperature = some v)
    (hv : validFan s i) (h64 : i ≠ 64) (hv0 : 0 ≤ v) (hv1 : v ≤ 126) :
    ∃ s1, jsonFanCommand clock json s = some s1 ∧
      ((s1.fanDriver i.toNat).forcedTemperatureEnabled = true ↔ 0 < v) ∧
      ((s1.fanDriver i.toNat).forcedTemperature : Int) = v ∧
      s1.core.lastExternalTemp[i.toNat]? = some (millis clock) ∧
      s1.core = { s.core with
        lastExternalTemp := s.core.lastExternalTemp.set i.toNat (millis clock) } := by
  have h2 := (getFan_valid i s hv).2.2
  have hsel := select_selected s.hw (fanTca i.toNat) (fanEmc i.toNat) (fanEmc_lt _)
  have hu : asU8 (some v) = v.toNat := by simp [asU8]; omega
  have hlen : i.toNat < s.core.lastExternalTemp.length := by
    rw [hsz.2, TCA_COUNT_eq, EMC_COUNT_eq]; omega
  have hduty : (applyDutyCycle json (fanTca i.toNat)
      (s.hw.select (fanTca i.toNat) (fanEmc i.toNat))).tcaControl =
      (s.hw.select (fanTca i.toNat) (fanEmc i.toNat)).tcaControl := by
    unfold applyDutyCycle
    split
    · simp only [setDutyCycle, LUTEnabled, onSelected_tcaControl]
    · rfl
  rw [jsonFanCommand_valid clock json i s hfan hv]
  simp only [applyExternalTemperature, hext, writeAt, hlen, if_true, hu]
  refine ⟨_, rfl, ?_, ?_, ?_, rfl⟩
  · simp only [State.fanDriver, setForcedTemperature, enableForcedTemperature]
    rw [onSelected_emc _ _ _ _ (by rw [onSelected_tcaControl, hduty]; exact hsel),
      onSelected_emc _ _ _ _ (by rw [hduty]; exact hsel)]
    simp
  · simp only [State.fanDriver, setForcedTemperature, enableForcedTemperature]
    rw [onSelected_emc _ _ _ _ (by rw [onSelected_tcaControl, hduty]; exact hsel),
      onSelected_emc _ _ _ _ (by rw [hduty]; exact hsel)]
    simp
    omega
  · simp [hlen]

/-- C3 (code bug): the config entry `{fan: 1, externalTemperatureTimeoutSeconds: 30}`
on the sample state stores 30 as the timeout of fan 1, not 30 * 1000: the value is
read as a `uint8_t` and is not converted to milliseconds. An entry with 300
seconds, out of the range of `uint8_t`, stores 0. -/
theorem jsonFanConfig_timeout_not_milliseconds :
    (jsonFanConfig ⟨some 1, some 30, none⟩ sampleState).map
        (fun s => s.core.externalTempTimeout_ms[1]?) = some (some 30) ∧
      (30 : Nat) ≠ 30 * 1000 ∧
      (jsonFanConfig ⟨some 1, some 300, none⟩ sampleState).map
        (fun s => s.core.externalTempTimeout_ms[1]?) = some (some 0) := by
  decide

/-- C6 (counterexample): on the sample state, `{fan: 1, externalTemperature: 45}`
at clock 5 stores the timestamp 5; `{fan: 1, externalTemperature: 0}` at clock 100
then disables forced temperature and stores the timestamp 100, so the timestamp
is not the one the fan had before the call. -/
theorem externalTemperature_zero_refreshes :
    (jsonFanCommand 5 ⟨some 1, none, some 45⟩ sampleState).map
        (fun s => s.core.lastExternalTemp[1]?) = some (some 5) ∧
      ((jsonFanCommand 5 ⟨some 1, none, some 45⟩ sampleState).bind
        (jsonFanCommand 100 ⟨some 1, none, some 0⟩)).map
        (fun s => (s.core.lastExternalTemp[1]?, (s.fanDriver 1).forcedTemperatureEnabled)) =
        some (some 100, false) ∧
      (100 : Nat) ≠ 5 := by
  decide

/-- C6 (amended): for every valid fan other than fan 64, in a state whose per-fan
arrays have their declared size, an external-temperature command with value 0
disables forced temperature on that fan, gives 0 to the forced-temperature
register, and stores the clock value of the call as the timestamp of the fan: the
timestamp is refreshed as for a value above 0. -/
theorem externalTemperature_zero_command (clock : Nat) (json : FanCommand) (i : Int) (s : State)
    (hsz : s.core.WellSized) (hfan : json.fan = some i)
    (hext : json.externalTemperature = some 0) (hv : validFan s i) (h64 : i ≠ 64) :
    ∃ s1, jsonFanCommand clock json s = some s1 ∧
      (s1.fanDriver i.toNat).forcedTemperatureEnabled = false ∧
      (s1.fanDriver i.toNat).forcedTemperature = 0 ∧
      s1.core.lastExternalTemp[i.toNat]? = some (millis clock) := by
  obtain ⟨s1, h1, h2, h3, h4, _⟩ :=
    externalTemperature_command clock json i 0 s hsz hfan hext hv h64 (by decide) (by decide)
  refine ⟨s1, h1, ?_, ?_, h4⟩
  · cases hb : (s1.fanDriver i.toNat).forcedTemperatureEnabled
    · rfl
    · exact absurd (h2.mp hb) (by decide)
  · exact_mod_cast h3

theorem externalTemperature_zero_command_witness :
    ∃ s1, jsonFanCommand 100 ⟨some 1, none, some 0⟩ sampleState = some s1 ∧
      (s1.fanDriver (1 : Int).toNat).forcedTemperatureEnabled = false ∧
      (s1.fanDriver (1 : Int).toNat).forcedTemperature = 0 ∧
      s1.core.lastExternalTemp[(1 : Int).toNat]? = some (millis 100) :=
  externalTemperature_zero_command 100 ⟨some 1, none, some 0⟩ 1 sampleState
    (by decide) rfl rfl (by decide) (by decide)

/-- C7 (code bug): on the sample state, `{fan: 1, externalTemperature: 45}`
applied when `millis()` reads 0 enables forced temperature but stores the
timestamp 0, which is the value `loop` reads as "no external temperature report":
`lastExternalTempAt` of fan 1 is not set to the time of the command and no
override is recorded for the watchdog. -/
theorem externalTemperature_at_clock_zero :
    (jsonFanCommand 0 ⟨some 1, none, some 45⟩ sampleState).map
        (fun s => ((s.fanDriver 1).forcedTemperatureEnabled, s.core.lastExternalTemp[1]?,
          s.lastExternalTempAt 1)) = some (true, some 0, none) := by
  decide

/-- The external-temperature command away from the clock reading 0: for every
valid fan other than fan 64, every value `v` in 1..126 and every clock value whose
`millis()` reading is not 0, in a state whose per-fan arrays have their declared
size, the command `{fan: f, externalTemperature: v}`
enables forced temperature on that fan, gives `v` to the forced-temperature
register and sets `lastExternalTempAt` of the fan to the clock reading, so an
override is recorded for the watchdog. -/
theorem externalTemperature_positive_command (clock : Nat) (json : FanCommand) (i v : Int)
    (s : State) (hsz : s.core.WellSized) (hfan : json.fan = some i)
    (hext : json.externalTemperature = some v) (hv : validFan s i) (h64 : i ≠ 64)
    (hv0 : 1 ≤ v) (hv1 : v ≤ 126) (hclock : millis clock ≠ 0) :
    ∃ s1, jsonFanCommand clock json s = some s1 ∧
      (s1.fanDriver i.toNat).forcedTemperatureEnabled = true ∧
      ((s1.fanDriver i.toNat).forcedTemperature : Int) = v ∧
      s1.lastExternalTempAt i.toNat = some (millis clock) := by
  obtain ⟨s1, h1, h2, h3, h4, _⟩ :=
    externalTemperature_command clock json i v s hsz hfan hext hv h64 (by omega) hv1
  refine ⟨s1, h1, h2.mpr (by omega), h3, ?_⟩
  simp only [State.lastExternalTempAt, h4, hclock, if_false]

theorem externalTemperature_positive_command_witness :
    ∃ s1, jsonFanCommand 7 ⟨some 1, none, some 45⟩ sampleState = some s1 ∧
      (s1.fanDriver (1 : Int).toNat).forcedTemperatureEnabled = true ∧
      ((s1.fanDriver (1 : Int).toNat).forcedTemperature : Int) = 45 ∧
      s1.lastExternalTempAt (1 : Int).toNat = some (millis 7) :=
  externalTemperature_positive_command 7 ⟨some 1, none, some 45⟩ 1 45 sampleState
    (by decide) rfl rfl (by decide) (by decide) (by decide) (by decide) (by decide)

/-- C10: when no fan was discovered (`_fansFound` is 0), `loop`, `getTelemetry`,
`onConfig`, `onCommand`, `setConfigSchema` and `setCommandSchema` change nothing,
for every clock value and every document: the state (members, hardware and serial
output) and the output document are returned as they were. -/
theorem no_fans_noop (s : State) (h : s.core.fansFound = 0) (clock : Nat) (json : Json)
    (config : Config) (command : Command) :
    loop clock s = some s ∧ getTelemetry clock json s = (s, json) ∧
      onConfig config s = some s ∧ onCommand clock command s = some s ∧
      setConfigSchema json s = json ∧ setCommandSchema json s = json := by
  simp only [loop, getTelemetry, onConfig, onCommand, setConfigSchema, setCommandSchema, h,
    if_true, and_self]

theorem no_fans_noop_witness :
    loop 5 emptyState = some emptyState ∧
      getTelemetry 5 Json.null emptyState = (emptyState, Json.null) ∧
      onConfig ⟨some 30, some [⟨some 1, some 30, none⟩]⟩ emptyState = some emptyState ∧
      onCommand 5 ⟨some [⟨some 1, some 50, some 45⟩]⟩ emptyState = some emptyState ∧
      setConfigSchema Json.null emptyState = Json.null ∧
      setCommandSchema Json.null emptyState = Json.null :=
  no_fans_noop emptyState rfl 5 Json.null ⟨some 30, some [⟨some 1, some 30, none⟩]⟩
    ⟨some [⟨some 1, some 50, some 45⟩]⟩

/-! ### Loops whose iterations act on separate slots -/

theorem forEach_map {α ι : Type} (f : α → ι) (body : ι → State → Option State) (l : List α)
    (s : State) : forEach (l.map f) body s = forEach l (fun a => body (f a)) s := by
  induction l generalizing s with
  | nil => rfl
  | cons a l ih =>
    simp only [List.map_cons, forEach]
    cases body (f a) s with
    | none => rfl
    | some s1 => exact ih s1

theorem forEach_owned {α ι β : Type} (body : α → State → Option State) (view : State → ι → β)
    (g : ι → β → β) (I : State → Prop) (D : ι → Prop) (own : α → ι → Prop)
    (hown : ∀ a b j, own a j → own b j → a = b) :
    ∀ l : List α, l.Nodup →
      (∀ a ∈ l, ∀ s, I s → ∃ s1, body a s = some s1 ∧ I s1 ∧
        ∀ j, D j → (own a j → view s1 j = g j (view s j)) ∧
          (¬ own a j → view s1 j = view s j)) →
      ∀ s, I s → ∃ s1, forEach l body s = some s1 ∧ I s1 ∧
        ∀ j, D j → ((∃ a ∈ l, own a j) → view s1 j = g j (view s j)) ∧
          ((¬ ∃ a ∈ l, own a j) → view s1 j = view s j) := by
  intro l
  induction l with
  | nil =>
    intro _ _ s hI
    exact ⟨s, rfl, hI, fun j _ => ⟨fun h => by simp at h, fun _ => rfl⟩⟩
  | cons a l ih =>
    intro hnd hstep s hI
    obtain ⟨hal, hnd1⟩ := List.nodup_cons.mp hnd
    obtain ⟨s1, hb, hI1, hv1⟩ := hstep a (List.mem_cons_self a l) s hI
    obtain ⟨s2, hf, hI2, hv2⟩ :=
      ih hnd1 (fun b hb1 => hstep b (List.mem_cons_of_mem a hb1)) s1 hI1
    refine ⟨s2, by simp only [forEach, hb, hf], hI2, fun j hD => ⟨?_, ?_⟩⟩
    · rintro ⟨b, hbl, hbj⟩
      rcases List.mem_cons.mp hbl with rfl | hbl1
      · have hno : ¬ ∃ c ∈ l, own c j := by
          rintro ⟨c, hc, hcj⟩
          exact hal (hown b c j hbj hcj ▸ hc)
        rw [(hv2 j hD).2 hno, (hv1 j hD).1 hbj]
      · have hna : ¬ own a j := by
          intro haj
          exact hal (hown a b j haj hbj ▸ hbl1)
        rw [(hv2 j hD).1 ⟨b, hbl1, hbj⟩, (hv1 j hD).2 hna]
    · intro hno
      have hna : ¬ own a j := fun haj => hno ⟨a, List.mem_cons_self a l, haj⟩
      have hnl : ¬ ∃ c ∈ l, own c j := by
        rintro ⟨c, hc, hcj⟩
        exact hno ⟨c, List.mem_cons_of_mem a hc, hcj⟩
      rw [(hv2 j hD).2 hnl, (hv1 j hD).2 hna]

/-! ### The watchdog tick -/

theorem fanIndex_eq (tca emc : Nat) (ht : tca < 8) (he : emc < 8) :
    fanIndex tca emc = tca * 8 + emc + 1 := by
  simp only [fanIndex, u8, EMC_COUNT_eq]
  omega

theorem LoopFrame.refl (s : State) : LoopFrame s s :=
  ⟨rfl, rfl, rfl, rfl, rfl, rfl, rfl, rfl, rfl⟩

theorem loopEmc_step (clock : Nat) (s0 : State) (hsz : s0.core.WellSized) (tca emc : Nat)
    (ht : tca < 8) (he : emc < 8) (h64 : ¬ (tca = 7 ∧ emc = 7 ∧ slotDetected s0 7 7))
    (s : State) (hI : LoopFrame s0 s) :
    ∃ s1, loopEmc clock tca emc s = some s1 ∧ LoopFrame s0 s1 ∧
      ∀ j : Nat × Nat, (j.1 < 8 ∧ j.2 < 8) →
        (j = (tca, emc) → slotView s1 j = loopEmcView clock s0 j (slotView s j)) ∧
        (¬ j = (tca, emc) → slotView s1 j = slotView s j) := by
  obtain ⟨hI1, hI2, hI3, hI4, hI5, hI6, hI7, hI8, hI9⟩ := hI
  have hfr : LoopFrame s0 s := ⟨hI1, hI2, hI3, hI4, hI5, hI6, hI7, hI8, hI9⟩
  by_cases hbit : bitRead (s0.core.emcsFound tca) emc = 0
  · refine ⟨s, ?_, hfr, ?_⟩
    · simp only [loopEmc, hI2, hbit, if_true]
    · rintro ⟨t, e⟩ _
      refine ⟨?_, fun _ => rfl⟩
      intro hj
      obtain ⟨rfl, rfl⟩ := Prod.mk.inj hj
      simp [loopEmcView, slotDetected, hbit]
  · have hidx : fanIndex tca emc = tca * 8 + emc + 1 := fanIndex_eq tca emc ht he
    have hlt : fanIndex tca emc < 64 := by
      rw [hidx]
      by_contra hge
      have h7 : tca = 7 ∧ emc = 7 := by omega
      exact h64 ⟨h7.1, h7.2, by rw [h7.1, h7.2] at hbit; exact hbit⟩
    have hlen1 : fanIndex tca emc < s.core.lastExternalTemp.length := by
      rw [hI7, hsz.2, TCA_COUNT_eq, EMC_COUNT_eq]; exact hlt
    have hlen2 : fanIndex tca emc < s0.core.externalTempTimeout_ms.length := by
      rw [hsz.1, TCA_COUNT_eq, EMC_COUNT_eq]; exact hlt
    have hr1 := List.getElem?_eq_getElem hlen1
    have hr2 := List.getElem?_eq_getElem hlen2
    generalize s.core.lastExternalTemp[fanIndex tca emc] = last at hr1
    generalize s0.core.externalTempTimeout_ms[fanIndex tca emc] = timeout at hr2
    have hkeep : ∀ (hk : expiredAt clock (some last) (some timeout) = false),
        ∀ j : Nat × Nat, (j.1 < 8 ∧ j.2 < 8) →
        (j = (tca, emc) → slotView s j = loopEmcView clock s0 j (slotView s j)) ∧
        (¬ j = (tca, emc) → slotView s j = slotView s j) := by
      intro hk
      rintro ⟨t, e⟩ _
      refine ⟨?_, fun _ => rfl⟩
      intro hj
      obtain ⟨rfl, rfl⟩ := Prod.mk.inj hj
      simp [loopEmcView, slotView, hr1, hr2, hk]
    by_cases hl0 : last = 0
    · refine ⟨s, ?_, hfr, hkeep (by simp [expiredAt, hl0])⟩
      simp only [loopEmc, hI2, hbit, if_false, hr1, hI6, hr2, hl0, if_true]
    · by_cases ht0 : timeout = 0
      · refine ⟨s, ?_, hfr, hkeep (by simp [expiredAt, ht0])⟩
        simp only [loopEmc, hI2, hbit, if_false, hr1, hI6, hr2, hl0, ht0, if_true]
      · by_cases hex : sub32 (millis clock) last > timeout
        · have hsel := select_selected s.hw tca emc he
          refine ⟨{ s with
              core := { s.core with
                lastExternalTemp := s.core.lastExternalTemp.set (fanIndex tca emc) 0 }
              hw := enableForcedTemperature tca false (s.hw.select tca emc) }, ?_, ?_, ?_⟩
          · simp only [loopEmc, hI2, hbit, if_false, hr1, hI6, hr2, hl0, ht0, hex, if_true,
              loopRevert, selectEMC_ok _ _ _ ht he, writeAt, hlen1, Hardware.select]
          · exact ⟨hI1, hI2, hI3, hI4, hI5, hI6, by simp [hI7],
              by simp only [enableForcedTemperature, onSelected_tcaResponds]; exact hI8, hI9⟩
          · rintro ⟨t, e⟩ ⟨hjt, hje⟩
            have hjdx : fanIndex t e = t * 8 + e + 1 := fanIndex_eq t e hjt hje
            simp only at hjt hje
            constructor
            · intro hj
              obtain ⟨rfl, rfl⟩ := Prod.mk.inj hj
              have hexp : expiredAt clock (some last) (some timeout) = true := by
                simp [expiredAt, hl0, ht0, hex]
              simp only [loopEmcView, slotView, hr1, hr2, hexp, slotDetected, revertView,
                enableForcedTemperature]
              rw [onSelected_emc _ _ _ _ hsel]
              simp [hbit, hlen1, Hardware.select]
            · intro hj
              have hne : ¬ (t = tca ∧ e = emc) := fun h => hj (by rw [h.1, h.2])
              have hne2 : fanIndex tca emc ≠ fanIndex t e := by
                rw [hidx, hjdx]; omega
              simp only [slotView, enableForcedTemperature]
              rw [onSelected_emc _ _ _ _ hsel]
              simp [hne, hne2, Hardware.select]
        · refine ⟨s, ?_, hfr, hkeep (by simp [expiredAt, hex])⟩
          simp only [loopEmc, hI2, hbit, if_false, hr1, hI6, hr2, hl0, ht0, hex]

theorem loopTca_step (clock : Nat) (s0 : State) (hsz : s0.core.WellSized) (tca : Nat)
    (ht : tca < 8) (h64 : ¬ (muxPresent s0 7 ∧ slotDetected s0 7 7))
    (s : State) (hI : LoopFrame s0 s) :
    ∃ s1, loopTca clock tca s = some s1 ∧ LoopFrame s0 s1 ∧
      ∀ j : Nat × Nat, (j.1 < 8 ∧ j.2 < 8) →
        (j.1 = tca → slotView s1 j = loopTcaView clock s0 j (slotView s j)) ∧
        (¬ j.1 = tca → slotView s1 j = slotView s j) := by
  by_cases hbit : bitRead s0.core.tcasFound tca = 0
  · refine ⟨s, ?_, hI, ?_⟩
    · simp only [loopTca, hI.1, hbit, if_true]
    · rintro ⟨t, e⟩ _
      refine ⟨?_, fun _ => rfl⟩
      intro hj
      simp only at hj
      subst hj
      simp [loopTcaView, muxPresent, hbit]
  · have hstep : ∀ a ∈ List.range EMC_COUNT, ∀ s, LoopFrame s0 s →
        ∃ s1, loopEmc clock tca a s = some s1 ∧ LoopFrame s0 s1 ∧
          ∀ j : Nat × Nat, (j.1 < 8 ∧ j.2 < 8) →
            (j = (tca, a) → slotView s1 j = loopEmcView clock s0 j (slotView s j)) ∧
            (¬ j = (tca, a) → slotView s1 j = slotView s j) := by
      intro a ha s hs
      have ha8 : a < 8 := by rw [EMC_COUNT_eq] at ha; exact List.mem_range.mp ha
      refine loopEmc_step clock s0 hsz tca a ht ha8 ?_ s hs
      rintro ⟨h7, _, hd⟩
      exact h64 ⟨by rw [h7] at hbit; exact hbit, hd⟩
    obtain ⟨s1, hf, hI1, hv⟩ :=
      forEach_owned (loopEmc clock tca) slotView (loopEmcView clock s0) (LoopFrame s0)
        (fun j => j.1 < 8 ∧ j.2 < 8) (fun a j => j = (tca, a))
        (fun a b j ha hb => by rw [ha] at hb; exact (Prod.mk.inj hb).2)
        (List.range EMC_COUNT) (List.nodup_range _) hstep s hI
    refine ⟨s1, ?_, hI1, ?_⟩
    · simp only [loopTca, hI.1, hbit, if_false, hf]
    · rintro ⟨t, e⟩ ⟨hjt, hje⟩
      simp only at hjt hje
      constructor
      · intro hj
        simp only at hj
        subst hj
        have hmem : ∃ a ∈ List.range EMC_COUNT, (t, e) = (t, a) :=
          ⟨e, by rw [EMC_COUNT_eq]; exact List.mem_range.mpr hje, rfl⟩
        rw [(hv (t, e) ⟨hjt, hje⟩).1 hmem]
        simp [loopTcaView, muxPresent, hbit]
      · intro hj
        have hno : ¬ ∃ a ∈ List.range EMC_COUNT, (t, e) = (tca, a) := by
          rintro ⟨a, _, ha⟩
          exact hj (Prod.mk.inj ha).1
        exact (hv (t, e) ⟨hjt, hje⟩).2 hno

theorem loopTcaView_eq (clock : Nat) (s : State) (tca emc : Nat) :
    loopTcaView clock s (tca, emc) (slotView s (tca, emc)) =
      if watchdogFires clock s tca emc then revertView (slotView s (tca, emc))
      else slotView s (tca, emc) := by
  simp only [loopTcaView, loopEmcView, watchdogFires, slotView]
  by_cases hm : muxPresent s tca <;> by_cases hd : slotDetected s tca emc <;> simp [hm, hd]

/-- The watchdog tick on a state in which the last slot, fan 64, is not
discovered: `loop` returns, leaves the presence masks, the found-count, the
telemetry timer, the timeouts, the serial output and the size of the timestamp
array as they were, and for every slot `(tca, emc)` reverts the fan (timestamp
cleared, forced temperature disabled, nothing else changed on its controller) if
the watchdog condition holds for it and leaves its timestamp and controller
unchanged otherwise. -/
theorem loop_watchdog (clock : Nat) (s : State) (hsz : s.core.WellSized)
    (hfans : s.core.fansFound ≠ 0) (h64 : ¬ (muxPresent s 7 ∧ slotDetected s 7 7)) :
    ∃ s1, loop clock s = some s1 ∧ LoopFrame s s1 ∧
      ∀ tca emc, tca < 8 → emc < 8 →
        slotView s1 (tca, emc) =
          if watchdogFires clock s tca emc then revertView (slotView s (tca, emc))
          else slotView s (tca, emc) := by
  have hstep : ∀ a ∈ List.range TCA_COUNT, ∀ s2, LoopFrame s s2 →
      ∃ s1, loopTca clock a s2 = some s1 ∧ LoopFrame s s1 ∧
        ∀ j : Nat × Nat, (j.1 < 8 ∧ j.2 < 8) →
          (j.1 = a → slotView s1 j = loopTcaView clock s j (slotView s2 j)) ∧
          (¬ j.1 = a → slotView s1 j = slotView s2 j) := by
    intro a ha s2 hs2
    have ha8 : a < 8 := by rw [TCA_COUNT_eq] at ha; exact List.mem_range.mp ha
    exact loopTca_step clock s hsz a ha8 h64 s2 hs2
  obtain ⟨s1, hf, hI1, hv⟩ :=
    forEach_owned (loopTca clock) slotView (loopTcaView clock s) (LoopFrame s)
      (fun j => j.1 < 8 ∧ j.2 < 8) (fun a j => j.1 = a)
      (fun a b j ha hb => by rw [← ha, ← hb])
      (List.range TCA_COUNT) (List.nodup_range _) hstep s (LoopFrame.refl s)
  refine ⟨s1, ?_, hI1, ?_⟩
  · simp only [loop, hfans, if_false, hf]
  · intro tca emc ht he
    have hmem : ∃ a ∈ List.range TCA_COUNT, (tca, emc).1 = a :=
      ⟨tca, by rw [TCA_COUNT_eq]; exact List.mem_range.mpr ht, rfl⟩
    rw [(hv (tca, emc) ⟨ht, he⟩).1 hmem, loopTcaView_eq]

theorem sub32_elapsed (t d : Nat) (hd : d < 4294967296) :
    sub32 (millis (t + d)) (millis t) = d := by
  simp only [sub32, millis, u32]
  omega

/-- C5 (code bug): on the sample state, with fan 1 at the default timeout of
90000 ms, `{fan: 1, externalTemperature: 45}` applied when `millis()` reads 0,
followed by a watchdog tick at 90001, leaves forced temperature enabled on fan 1:
the timestamp the command stored is 0, which `loop` reads as "no report", so the
override does not expire. -/
theorem override_at_clock_zero_stays :
    ((jsonFanCommand 0 ⟨some 1, none, some 45⟩ sampleState).bind (loop (0 + 90001))).map
        (fun s => (s.fanDriver 1).forcedTemperatureEnabled) = some true ∧
      sampleState.core.externalTempTimeout_ms[1]? = some 90000 := by
  decide

/-- The override expiry away from the clock reading 0: in a state whose per-fan
arrays have their declared size, with a found-count other than 0 and fan 64 not
discovered, for every valid fan `f` still at the default timeout of 90000 ms,
every value `v` in 1..126 and every clock value `t` whose `millis()` reading is
not 0: the command
`{fan: f, externalTemperature: v}` applied at `t` enables forced temperature, and
a watchdog tick at `t + 90001` then reverts the fan: forced temperature is
disabled and `lastExternalTempAt` is cleared. -/
theorem override_expires (t : Nat) (json : FanCommand) (i v : Int) (s : State)
    (hsz : s.core.WellSized) (hfans : s.core.fansFound ≠ 0)
    (h64 : ¬ (muxPresent s 7 ∧ slotDetected s 7 7)) (hfan : json.fan = some i)
    (hext : json.externalTemperature = some v) (hv : validFan s i)
    (hT : s.core.externalTempTimeout_ms[i.toNat]? = some DEFAULT_EXTERNAL_TEMP_TIMEOUT_MS)
    (hv0 : 1 ≤ v) (hv1 : v ≤ 126) (hclock : millis t ≠ 0) :
    ∃ s1 s2, jsonFanCommand t json s = some s1 ∧ loop (t + 90001) s1 = some s2 ∧
      (s1.fanDriver i.toNat).forcedTemperatureEnabled = true ∧
      (s2.fanDriver i.toNat).forcedTemperatureEnabled = false ∧
      s2.lastExternalTempAt i.toNat = none := by
  obtain ⟨hi1, hi2, hm, hd⟩ := hv
  have hv : validFan s i := ⟨hi1, hi2, hm, hd⟩
  have hidx : fanIndex (fanTca i.toNat) (fanEmc i.toNat) = i.toNat :=
    fanIndex_of_fan i.toNat (by omega) (by omega)
  have hne : i ≠ 64 := by
    rintro rfl
    exact h64 ⟨hm, hd⟩
  obtain ⟨s1, hc, hf1, _, hl1, hcore⟩ :=
    externalTemperature_command t json i v s hsz hfan hext hv hne (by omega) hv1
  have hsz1 : s1.core.WellSized := by
    rw [hcore]
    exact ⟨hsz.1, by simp [hsz.2]⟩
  have hfans1 : s1.core.fansFound ≠ 0 := by rw [hcore]; exact hfans
  have h641 : ¬ (muxPresent s1 7 ∧ slotDetected s1 7 7) := by
    simp only [muxPresent, slotDetected, hcore]; exact h64
  obtain ⟨s2, hl, _, hview⟩ := loop_watchdog (t + 90001) s1 hsz1 hfans1 h641
  have hfire : watchdogFires (t + 90001) s1 (fanTca i.toNat) (fanEmc i.toNat) = true := by
    have hm1 : muxPresent s1 (fanTca i.toNat) := by
      simp only [muxPresent, hcore]; exact hm
    have hd1 : slotDetected s1 (fanTca i.toNat) (fanEmc i.toNat) := by
      simp only [slotDetected, hcore]; exact hd
    have hT1 : s1.core.externalTempTimeout_ms[i.toNat]? = some 90000 := by
      rw [hcore]; exact hT
    have hclock2 : ¬ millis t = 0 := hclock
    simp only [watchdogFires, hidx, hl1, hT1, expiredAt, sub32_elapsed t 90001 (by decide)]
    simp [hm1, hd1, hclock2]
  have h := hview (fanTca i.toNat) (fanEmc i.toNat) (fanTca_lt _ (by omega)) (fanEmc_lt _)
  rw [hfire] at h
  simp only [if_true, slotView, revertView, hidx, Prod.mk.injEq] at h
  refine ⟨s1, s2, hc, hl, hf1.mpr (by omega), ?_, ?_⟩
  · simp only [State.fanDriver, h.2]
  · simp only [State.lastExternalTempAt, h.1, if_true]

theorem override_expires_witness :
    ∃ s1 s2, jsonFanCommand 7 ⟨some 1, none, some 45⟩ sampleState = some s1 ∧
      loop (7 + 90001) s1 = some s2 ∧
      (s1.fanDriver (1 : Int).toNat).forcedTemperatureEnabled = true ∧
      (s2.fanDriver (1 : Int).toNat).forcedTemperatureEnabled = false ∧
      s2.lastExternalTempAt (1 : Int).toNat = none :=
  override_expires 7 ⟨some 1, none, some 45⟩ 1 45 sampleState (by decide) (by decide)
    (by decide) rfl rfl (by decide) (by decide) (by decide) (by decide) (by decide)

/-! ### Batches -/

theorem getFan_obs (fan : Option Int) (s : State) : (getFan fan s).2.obs = s.obs := by
  unfold getFan
  split
  · rfl
  · split_ifs <;> rfl

theorem getFan_fst_congr (fan : Option Int) (s s1 : State) (h1 : s.core.tcasFound = s1.core.tcasFound)
    (h2 : s.core.emcsFound = s1.core.emcsFound) : (getFan fan s).1 = (getFan fan s1).1 := by
  unfold getFan
  cases fan with
  | none => rfl
  | some raw =>
    simp only [h1, h2]
    split_ifs <;> rfl

theorem obs_eq_iff (s s1 : State) : s.obs = s1.obs ↔ s.core = s1.core ∧ s.hw = s1.hw := by
  simp only [State.obs, Prod.mk.injEq]

theorem applyFanConfig_obs (json : FanConfig) (fan : Nat) (s s1 : State) (h : s.obs = s1.obs) :
    (applyFanConfig json fan s).map State.obs = (applyFanConfig json fan s1).map State.obs := by
  obtain ⟨c, hw, sr⟩ := s
  obtain ⟨c1, hw1, sr1⟩ := s1
  obtain ⟨hc, hh⟩ := (obs_eq_iff _ _).mp h
  simp only at hc hh
  subst hc hh
  unfold applyFanConfig
  cases json.externalTemperatureTimeoutSeconds <;> cases json.fanSpeedThresholds <;>
    simp only [writeAt] <;> first | rfl | (split_ifs <;> rfl)

theorem jsonFanConfig_obs (json : FanConfig) (s s1 : State) (h : s.obs = s1.obs) :
    (jsonFanConfig json s).map State.obs = (jsonFanConfig json s1).map State.obs := by
  obtain ⟨hc, hh⟩ := (obs_eq_iff _ _).mp h
  have hfst : (getFan json.fan s).1 = (getFan json.fan s1).1 :=
    getFan_fst_congr _ _ _ (by rw [hc]) (by rw [hc])
  have ho : (getFan json.fan s).2.obs = (getFan json.fan s1).2.obs := by
    rw [getFan_obs, getFan_obs, h]
  obtain ⟨hc2, hh2⟩ := (obs_eq_iff _ _).mp ho
  unfold jsonFanConfig
  rw [← hfst, ← hh2]
  split_ifs
  · simp only [Option.map_some', ho]
  · cases hsel : selectEMC (fanTca (getFan json.fan s).1) (fanEmc (getFan json.fan s).1)
        (getFan json.fan s).2.hw with
    | mk ok hw =>
      cases ok with
      | false => simp only [Option.map_some', State.obs, hc2]
      | true =>
        exact applyFanConfig_obs _ _ _ _ (by simp only [State.obs, hc2])

theorem applyExternalTemperature_obs (clock : Nat) (json : FanCommand) (fan : Nat) (s s1 : State)
    (h : s.obs = s1.obs) :
    (applyExternalTemperature clock json fan s).map State.obs =
      (applyExternalTemperature clock json fan s1).map State.obs := by
  obtain ⟨c, hw, sr⟩ := s
  obtain ⟨c1, hw1, sr1⟩ := s1
  obtain ⟨hc, hh⟩ := (obs_eq_iff _ _).mp h
  simp only at hc hh
  subst hc hh
  unfold applyExternalTemperature
  cases json.externalTemperature <;> simp only [writeAt] <;> first | rfl | (split_ifs <;> rfl)

theorem jsonFanCommand_obs (clock : Nat) (json : FanCommand) (s s1 : State) (h : s.obs = s1.obs) :
    (jsonFanCommand clock json s).map State.obs = (jsonFanCommand clock json s1).map State.obs := by
  obtain ⟨hc, hh⟩ := (obs_eq_iff _ _).mp h
  have hfst : (getFan json.fan s).1 = (getFan json.fan s1).1 :=
    getFan_fst_congr _ _ _ (by rw [hc]) (by rw [hc])
  have ho : (getFan json.fan s).2.obs = (getFan json.fan s1).2.obs := by
    rw [getFan_obs, getFan_obs, h]
  obtain ⟨hc2, hh2⟩ := (obs_eq_iff _ _).mp ho
  unfold jsonFanCommand
  rw [← hfst, ← hh2]
  split_ifs
  · simp only [Option.map_some', ho]
  · cases hsel : selectEMC (fanTca (getFan json.fan s).1) (fanEmc (getFan json.fan s).1)
        (getFan json.fan s).2.hw with
    | mk ok hw =>
      cases ok with
      | false => simp only [Option.map_some', State.obs, hc2]
      | true =>
        exact applyExternalTemperature_obs _ _ _ _ _ (by simp only [State.obs, hc2])

theorem forEach_filter {E : Type} (body : E → State → Option State) (fanOf : E → Option Int)
    (hobs : ∀ e s s1, s.obs = s1.obs → (body e s).map State.obs = (body e s1).map State.obs)
    (hskip : ∀ e s, (getFan (fanOf e) s).1 = 0 → ∃ s1, body e s = some s1 ∧ s1.obs = s.obs)
    (hmask : ∀ e s s1, body e s = some s1 →
      s1.core.tcasFound = s.core.tcasFound ∧ s1.core.emcsFound = s.core.emcsFound)
    (s0 : State) :
    ∀ (l : List E) (s s1 : State), s.obs = s1.obs → s.core.tcasFound = s0.core.tcasFound →
      s.core.emcsFound = s0.core.emcsFound →
      (forEach l body s).map State.obs =
        (forEach (l.filter (fun e => passes s0 (fanOf e))) body s1).map State.obs := by
  intro l
  induction l with
  | nil =>
    intro s s1 h _ _
    simp only [List.filter_nil, forEach, Option.map_some', h]
  | cons e l ih =>
    intro s s1 h hm1 hm2
    by_cases hp : passes s0 (fanOf e) = true
    · simp only [List.filter_cons, hp, if_true]
      have hb := hobs e s s1 h
      simp only [forEach]
      cases hbs : body e s with
      | none =>
        cases hbs1 : body e s1 with
        | none => rfl
        | some s3 => rw [hbs, hbs1] at hb; simp at hb
      | some s2 =>
        cases hbs1 : body e s1 with
        | none => rw [hbs, hbs1] at hb; simp at hb
        | some s3 =>
          rw [hbs, hbs1] at hb
          simp only [Option.map_some', Option.some.injEq] at hb
          obtain ⟨hk1, hk2⟩ := hmask e s s2 hbs
          exact ih s2 s3 hb (by rw [hk1, hm1]) (by rw [hk2, hm2])
    · have hpf : passes s0 (fanOf e) = false := by simpa using hp
      simp only [List.filter_cons, hpf, Bool.false_eq_true, if_false]
      have h0 : (getFan (fanOf e) s).1 = 0 := by
        rw [getFan_fst_congr (fanOf e) s s0 hm1 hm2]
        simpa [passes] using hp
      obtain ⟨s2, hbs, ho2⟩ := hskip e s h0
      obtain ⟨hc, _⟩ := (obs_eq_iff _ _).mp ho2
      simp only [forEach, hbs]
      exact ih s2 s1 (by rw [ho2, h]) (by rw [hc, hm1]) (by rw [hc, hm2])

theorem jsonFanConfig_skip (json : FanConfig) (s : State) (h : (getFan json.fan s).1 = 0) :
    ∃ s1, jsonFanConfig json s = some s1 ∧ s1.obs = s.obs :=
  ⟨(getFan json.fan s).2, by simp only [jsonFanConfig, h, if_true], getFan_obs _ _⟩

theorem jsonFanCommand_skip (clock : Nat) (json : FanCommand) (s : State)
    (h : (getFan json.fan s).1 = 0) :
    ∃ s1, jsonFanCommand clock json s = some s1 ∧ s1.obs = s.obs :=
  ⟨(getFan json.fan s).2, by simp only [jsonFanCommand, h, if_true], getFan_obs _ _⟩

theorem applyFanConfig_masks (json : FanConfig) (fan : Nat) (s s1 : State)
    (h : applyFanConfig json fan s = some s1) :
    s1.core.tcasFound = s.core.tcasFound ∧ s1.core.emcsFound = s.core.emcsFound := by
  unfold applyFanConfig at h
  by_cases hlen : fan < s.core.externalTempTimeout_ms.length <;>
    cases ht : json.externalTemperatureTimeoutSeconds <;>
    cases hl : json.fanSpeedThresholds <;>
    simp only [ht, hl, writeAt, hlen, if_true, if_false, Option.map_some', Option.map_none',
      Option.some.injEq] at h <;>
    first
      | (rw [← h]; exact ⟨rfl, rfl⟩)
      | exact absurd h (by simp)

theorem applyExternalTemperature_masks (clock : Nat) (json : FanCommand) (fan : Nat) (s s1 : State)
    (h : applyExternalTemperature clock json fan s = some s1) :
    s1.core.tcasFound = s.core.tcasFound ∧ s1.core.emcsFound = s.core.emcsFound := by
  unfold applyExternalTemperature at h
  by_cases hlen : fan < s.core.lastExternalTemp.length <;>
    cases ht : json.externalTemperature <;>
    simp only [ht, writeAt, hlen, if_true, if_false, Option.some.injEq] at h <;>
    first
      | (rw [← h]; exact ⟨rfl, rfl⟩)
      | exact absurd h (by simp)

theorem jsonFanConfig_masks (json : FanConfig) (s s1 : State) (h : jsonFanConfig json s = some s1) :
    s1.core.tcasFound = s.core.tcasFound ∧ s1.core.emcsFound = s.core.emcsFound := by
  have hc : (getFan json.fan s).2.core = s.core := ((obs_eq_iff _ _).mp (getFan_obs _ _)).1
  unfold jsonFanConfig at h
  split_ifs at h
  · rw [← Option.some.inj h, hc]; exact ⟨rfl, rfl⟩
  · cases hsel : selectEMC (fanTca (getFan json.fan s).1) (fanEmc (getFan json.fan s).1)
        (getFan json.fan s).2.hw with
    | mk ok hw =>
      rw [hsel] at h
      cases ok with
      | false =>
        simp only [Option.some.injEq] at h
        rw [← h]; simp only [hc, and_self]
      | true =>
        have hm := applyFanConfig_masks _ _ _ _ h
        simp only [hc] at hm
        exact hm

theorem jsonFanCommand_masks (clock : Nat) (json : FanCommand) (s s1 : State)
    (h : jsonFanCommand clock json s = some s1) :
    s1.core.tcasFound = s.core.tcasFound ∧ s1.core.emcsFound = s.core.emcsFound := by
  have hc : (getFan json.fan s).2.core = s.core := ((obs_eq_iff _ _).mp (getFan_obs _ _)).1
  unfold jsonFanCommand at h
  split_ifs at h
  · rw [← Option.some.inj h, hc]; exact ⟨rfl, rfl⟩
  · cases hsel : selectEMC (fanTca (getFan json.fan s).1) (fanEmc (getFan json.fan s).1)
        (getFan json.fan s).2.hw with
    | mk ok hw =>
      rw [hsel] at h
      cases ok with
      | false =>
        simp only [Option.some.injEq] at h
        rw [← h]; simp only [hc, and_self]
      | true =>
        have hm := applyExternalTemperature_masks _ _ _ _ _ h
        simp only [hc] at hm
        exact hm

theorem passes_iff (s : State) (fan : Option Int) :
    passes s fan = true ↔ ∃ i, fan = some i ∧ validFan s i := by
  cases fan with
  | none => simp [passes, getFan]
  | some i =>
    have h := getFan_ne_zero_iff i s
    simp only [passes, bne_iff_ne, ne_eq, Option.some.injEq, exists_eq_left']
    exact h

theorem validFan_lt (s : State) (i : Int) (hb : InBounds s) (hv : validFan s i) :
    i.toNat < 64 := by
  obtain ⟨h1, h2, hm, hd⟩ := hv
  by_contra hge
  have h64 : i = 64 := by omega
  subst h64
  exact hb.2 ⟨hm, hd⟩

theorem jsonFanConfig_valid (json : FanConfig) (i : Int) (s : State)
    (hfan : json.fan = some i) (hv : validFan s i) :
    jsonFanConfig json s =
      applyFanConfig json i.toNat
        { s with hw := (s.hw.select (fanTca i.toNat) (fanEmc i.toNat)) } := by
  obtain ⟨hg, h1, h2⟩ := getFan_valid i s hv
  have hne : ¬ i.toNat = 0 := by omega
  simp only [jsonFanConfig, hfan, hg, hne, if_false,
    selectEMC_ok _ _ _ (fanTca_lt _ h2) (fanEmc_lt _), Hardware.select]

theorem jsonFanConfig_returns (json : FanConfig) (s : State) (hb : InBounds s) :
    ∃ s1, jsonFanConfig json s = some s1 ∧ InBounds s1 := by
  by_cases hp : passes s json.fan = true
  · obtain ⟨i, hfan, hv⟩ := (passes_iff s json.fan).mp hp
    have hlt := validFan_lt s i hb hv
    have hlen : i.toNat < s.core.externalTempTimeout_ms.length := by
      rw [hb.1.1, TCA_COUNT_eq, EMC_COUNT_eq]; exact hlt
    rw [jsonFanConfig_valid json i s hfan hv]
    unfold applyFanConfig
    cases ht : json.externalTemperatureTimeoutSeconds <;>
      cases hl : json.fanSpeedThresholds <;>
      simp only [writeAt, hlen, if_true, Option.map_some'] <;>
      refine ⟨_, rfl, ⟨?_, ?_⟩, hb.2⟩ <;>
      first
        | exact hb.1.1
        | exact hb.1.2
        | (simp only [List.length_set]; exact hb.1.1)
  · have h0 : (getFan json.fan s).1 = 0 := by simpa [passes] using hp
    obtain ⟨s1, h1, h2⟩ := jsonFanConfig_skip json s h0
    obtain ⟨hc, _⟩ := (obs_eq_iff _ _).mp h2
    exact ⟨s1, h1, by simp only [InBounds, muxPresent, slotDetected, hc]; exact hb⟩

theorem jsonFanCommand_returns (clock : Nat) (json : FanCommand) (s : State) (hb : InBounds s) :
    ∃ s1, jsonFanCommand clock json s = some s1 ∧ InBounds s1 := by
  by_cases hp : passes s json.fan = true
  · obtain ⟨i, hfan, hv⟩ := (passes_iff s json.fan).mp hp
    have hlt := validFan_lt s i hb hv
    have hlen : i.toNat < s.core.lastExternalTemp.length := by
      rw [hb.1.2, TCA_COUNT_eq, EMC_COUNT_eq]; exact hlt
    rw [jsonFanCommand_valid clock json i s hfan hv]
    unfold applyExternalTemperature
    cases ht : json.externalTemperature <;>
      simp only [writeAt, hlen, if_true] <;>
      refine ⟨_, rfl, ⟨?_, ?_⟩, hb.2⟩ <;>
      first
        | exact hb.1.1
        | exact hb.1.2
        | (simp only [List.length_set]; exact hb.1.2)
  · have h0 : (getFan json.fan s).1 = 0 := by simpa [passes] using hp
    obtain ⟨s1, h1, h2⟩ := jsonFanCommand_skip clock json s h0
    obtain ⟨hc, _⟩ := (obs_eq_iff _ _).mp h2
    exact ⟨s1, h1, by simp only [InBounds, muxPresent, slotDetected, hc]; exact hb⟩

theorem forEach_returns {E : Type} (body : E → State → Option State) (I : State → Prop)
    (hbody : ∀ e s, I s → ∃ s1, body e s = some s1 ∧ I s1) :
    ∀ (l : List E) (s : State), I s → ∃ s1, forEach l body s = some s1 ∧ I s1 := by
  intro l
  induction l with
  | nil => exact fun s hs => ⟨s, rfl, hs⟩
  | cons e l ih =>
    intro s hs
    obtain ⟨s1, h1, hs1⟩ := hbody e s hs
    obtain ⟨s2, h2, hs2⟩ := ih s1 hs1
    exact ⟨s2, by simp only [forEach, h1, h2], hs2⟩

/-! ### Further consequences -/

/-- The watchdog tick on one discovered fan, in a state in which every array
access is within bounds: with the stored timestamp `t0` and timeout `T` of the
fan, the fan is reverted (timestamp cleared, forced temperature disabled) if `t0`
is set, `T` is not 0 and the 32-bit difference `millis() - t0` exceeds `T`;
otherwise its timestamp and its controller are unchanged. The timeouts are
unchanged in both cases. -/
theorem watchdog_tick (clock : Nat) (s : State) (hb : InBounds s) (hfans : s.core.fansFound ≠ 0)
    (tca emc t0 T : Nat) (ht : tca < 8) (he : emc < 8) (hm : muxPresent s tca)
    (hd : slotDetected s tca emc) (hl : s.core.lastExternalTemp[fanIndex tca emc]? = some t0)
    (hT : s.core.externalTempTimeout_ms[fanIndex tca emc]? = some T) :
    ∃ s1, loop clock s = some s1 ∧
      s1.core.externalTempTimeout_ms = s.core.externalTempTimeout_ms ∧
      ((t0 ≠ 0 ∧ T ≠ 0 ∧ sub32 (millis clock) t0 > T) →
        s1.core.lastExternalTemp[fanIndex tca emc]? = some 0 ∧
          (s1.hw.emc tca emc).forcedTemperatureEnabled = false) ∧
      (¬ (t0 ≠ 0 ∧ T ≠ 0 ∧ sub32 (millis clock) t0 > T) →
        s1.core.lastExternalTemp[fanIndex tca emc]? = some t0 ∧
          s1.hw.emc tca emc = s.hw.emc tca emc) := by
  obtain ⟨s1, hloop, hframe, hview⟩ := loop_watchdog clock s hb.1 hfans hb.2
  have h := hview tca emc ht he
  have hfire : watchdogFires clock s tca emc = true ↔
      (t0 ≠ 0 ∧ T ≠ 0 ∧ sub32 (millis clock) t0 > T) := by
    simp only [watchdogFires, hl, hT, expiredAt]
    simp [hm, hd, and_assoc]
  refine ⟨s1, hloop, hframe.2.2.2.2.2.1, ?_, ?_⟩
  · intro hc
    rw [if_pos (hfire.mpr hc)] at h
    simp only [slotView, revertView, Prod.mk.injEq] at h
    exact ⟨h.1, by rw [h.2]⟩
  · intro hc
    rw [if_neg (fun hf => hc (hfire.mp hf))] at h
    simp only [slotView, Prod.mk.injEq] at h
    exact ⟨by rw [h.1, hl], h.2⟩

theorem sub32_after (t0 d : Nat) (hd : d < 4294967296) :
    sub32 (millis (t0 + d)) t0 = d := by
  simp only [sub32, millis, u32]
  omega

/-- The boundary of the watchdog, in a state in which every array access is within
bounds, for a discovered fan with a recorded timestamp `t0` and timeout `T`: a
tick at `t0 + T - 1` leaves the timestamp and the controller of the fan as they
are, a tick at `t0 + T + 1` clears the timestamp and disables forced temperature,
and with `T = 0` a tick at any clock value leaves them as they are. -/
theorem watchdog_boundary (s : State) (hb : InBounds s) (hfans : s.core.fansFound ≠ 0)
    (tca emc t0 T : Nat) (ht : tca < 8) (he : emc < 8) (hm : muxPresent s tca)
    (hd : slotDetected s tca emc) (hl : s.core.lastExternalTemp[fanIndex tca emc]? = some t0)
    (hT : s.core.externalTempTimeout_ms[fanIndex tca emc]? = some T)
    (ht0 : t0 ≠ 0) (hT32 : T + 1 < 4294967296) :
    (T ≠ 0 → ∃ s1, loop (t0 + T - 1) s = some s1 ∧
      s1.core.lastExternalTemp[fanIndex tca emc]? = some t0 ∧
      s1.hw.emc tca emc = s.hw.emc tca emc) ∧
    (T ≠ 0 → ∃ s1, loop (t0 + T + 1) s = some s1 ∧
      s1.core.lastExternalTemp[fanIndex tca emc]? = some 0 ∧
      (s1.hw.emc tca emc).forcedTemperatureEnabled = false) ∧
    (T = 0 → ∀ clock, ∃ s1, loop clock s = some s1 ∧
      s1.core.lastExternalTemp[fanIndex tca emc]? = some t0 ∧
      s1.hw.emc tca emc = s.hw.emc tca emc) := by
  refine ⟨?_, ?_, ?_⟩
  · intro hT0
    obtain ⟨s1, h1, _, _, h3⟩ :=
      watchdog_tick (t0 + T - 1) s hb hfans tca emc t0 T ht he hm hd hl hT
    have hsub : sub32 (millis (t0 + T - 1)) t0 = T - 1 := by
      have := sub32_after t0 (T - 1) (by omega)
      rwa [show t0 + (T - 1) = t0 + T - 1 by omega] at this
    exact ⟨s1, h1, h3 (by rw [hsub]; omega)⟩
  · intro hT0
    obtain ⟨s1, h1, _, h2, _⟩ :=
      watchdog_tick (t0 + T + 1) s hb hfans tca emc t0 T ht he hm hd hl hT
    have hsub : sub32 (millis (t0 + T + 1)) t0 = T + 1 := by
      have := sub32_after t0 (T + 1) hT32
      rwa [show t0 + (T + 1) = t0 + T + 1 by omega] at this
    exact ⟨s1, h1, h2 ⟨ht0, hT0, by rw [hsub]; omega⟩⟩
  · intro hT0 clock
    obtain ⟨s1, h1, _, _, h3⟩ :=
      watchdog_tick clock s hb hfans tca emc t0 T ht he hm hd hl hT
    exact ⟨s1, h1, h3 (by omega)⟩

/-- What `jsonFanConfig` stores for `externalTemperatureTimeoutSeconds` on a valid
fan, in a state in which every array access is within bounds: the value read as a
`uint8_t`, not multiplied by 1000. -/
theorem jsonFanConfig_timeout_stored (json : FanConfig) (i v : Int) (s : State) (hb : InBounds s)
    (hfan : json.fan = some i) (ht : json.externalTemperatureTimeoutSeconds = some v)
    (hv : validFan s i) :
    ∃ s1, jsonFanConfig json s = some s1 ∧
      s1.core.externalTempTimeout_ms[i.toNat]? = some (asU8 (some v)) := by
  have hlt := validFan_lt s i hb hv
  have hlen : i.toNat < s.core.externalTempTimeout_ms.length := by
    rw [hb.1.1, TCA_COUNT_eq, EMC_COUNT_eq]; exact hlt
  rw [jsonFanConfig_valid json i s hfan hv]
  unfold applyFanConfig
  cases hl : json.fanSpeedThresholds <;>
    simp only [ht, writeAt, hlen, if_true, Option.map_some'] <;>
    exact ⟨_, rfl, by simp [hlen]⟩

theorem getFan_validates_witness :
    validFan sampleState 1 ∧ getFan (some 1) sampleState = ((1 : Int).toNat, sampleState) ∧
      getFan (some 5) sampleState = (0, sampleState.println DeviceNotFound) ∧
      getFan (some 9) sampleState = (0, sampleState.println MuxNotFound) ∧
      getFan (some 65) sampleState = (0, sampleState.println OutOfRange) :=
  ⟨by decide, ((getFan_validates 1 sampleState).2.1 (by decide)).1,
    (getFan_validates 5 sampleState).2.2.2.2.1.mpr (by decide),
    (getFan_validates 9 sampleState).2.2.2.1.mpr (by decide),
    (getFan_validates 65 sampleState).2.2.1.mpr (by decide)⟩

/-! ### Selection, commands without a temperature, the publish interval, curve points -/

theorem u8_onehot (emc : Nat) (h : emc < 8) : u8 (1 <<< emc) = 2 ^ emc := by
  interval_cases emc <;> rfl

theorem tcaAddress_injective (a b : Nat) (ha : a < 8) (hb : b < 8)
    (h : tcaAddress a = tcaAddress b) : a = b := by
  rw [tcaAddress_eq a ha, tcaAddress_eq b hb] at h
  omega

/-- C20: `selectEMC tca emc` returns true iff `tca < 8` and `emc < 8`; when it
returns true it has written the one-hot mask `2 ^ emc` to the control register
of the mux at address `0x70 + tca` and nothing else, and when it returns false it
has written nothing. So the selection succeeds for the mux and channel of every
fan index the validator accepts, where `jsonFanConfig` and `jsonFanCommand` go on
to apply the entry, and for every slot the loops of `loop` and `getTelemetry`
visit. -/
theorem selectEMC_succeeds (tca emc : Nat) (hw : Hardware) (s : State) (i : Int) (clock : Nat)
    (config : FanConfig) (command : FanCommand) :
    ((selectEMC tca emc hw).1 = true ↔ tca < 8 ∧ emc < 8) ∧
      ((selectEMC tca emc hw).1 = true →
        (selectEMC tca emc hw).2.tcaControl (0x70 + tca) = 2 ^ emc ∧
        (∀ a, a ≠ 0x70 + tca → (selectEMC tca emc hw).2.tcaControl a = hw.tcaControl a) ∧
        (selectEMC tca emc hw).2.emc = hw.emc ∧
        (selectEMC tca emc hw).2.tcaResponds = hw.tcaResponds) ∧
      ((selectEMC tca emc hw).1 = false → (selectEMC tca emc hw).2 = hw) ∧
      (validFan s i → (selectEMC (fanTca i.toNat) (fanEmc i.toNat) hw).1 = true) ∧
      (validFan s i → config.fan = some i →
        jsonFanConfig config s = applyFanConfig config i.toNat
          { s with hw := (selectEMC (fanTca i.toNat) (fanEmc i.toNat) s.hw).2 }) ∧
      (validFan s i → command.fan = some i →
        jsonFanCommand clock command s = applyExternalTemperature clock command i.toNat
          { s with
            hw := (applyDutyCycle command (fanTca i.toNat)
              (selectEMC (fanTca i.toNat) (fanEmc i.toNat) s.hw).2) }) ∧
      (tca ∈ List.range TCA_COUNT → emc ∈ List.range EMC_COUNT →
        (selectEMC tca emc hw).1 = true) := by
  have hiff : (selectEMC tca emc hw).1 = true ↔ tca < 8 ∧ emc < 8 := by
    unfold selectEMC
    rw [TCA_COUNT_eq, EMC_COUNT_eq]
    split_ifs <;> simp <;> omega
  refine ⟨hiff, ?_, ?_, ?_, ?_, ?_, ?_⟩
  · intro h
    obtain ⟨ht, he⟩ := hiff.mp h
    have hadr : tcaAddress tca = 0x70 + tca := tcaAddress_eq tca ht
    rw [selectEMC_ok tca emc hw ht he, hadr]
    refine ⟨?_, ?_, rfl, rfl⟩
    · simp only [Function.update_same, u8_onehot emc he]
    · intro a ha
      exact Function.update_noteq ha _ _
  · intro h
    unfold selectEMC at h ⊢
    split_ifs at h ⊢ <;> rfl
  · intro hv
    have h2 := (getFan_valid i s hv).2.2
    rw [selectEMC_ok _ _ _ (fanTca_lt _ h2) (fanEmc_lt _)]
  · intro hv hfan
    have h2 := (getFan_valid i s hv).2.2
    rw [jsonFanConfig_valid config i s hfan hv, selectEMC_ok _ _ _ (fanTca_lt _ h2) (fanEmc_lt _)]
    rfl
  · intro hv hfan
    have h2 := (getFan_valid i s hv).2.2
    rw [jsonFanCommand_valid clock command i s hfan hv,
      selectEMC_ok _ _ _ (fanTca_lt _ h2) (fanEmc_lt _)]
    rfl
  · intro ht he
    rw [TCA_COUNT_eq] at ht
    rw [EMC_COUNT_eq] at he
    exact hiff.mpr ⟨List.mem_range.mp ht, List.mem_range.mp he⟩

theorem selectEMC_succeeds_witness :
    validFan sampleState 3 ∧ (selectEMC (fanTca 3) (fanEmc 3) sampleState.hw).1 = true ∧
      (selectEMC 0 2 sampleState.hw).2.tcaControl (0x70 + 0) = 2 ^ 2 ∧
      ((selectEMC 8 0 sampleState.hw).1 = true ↔ 8 < 8 ∧ 0 < 8) :=
  ⟨by decide,
    (selectEMC_succeeds 0 2 sampleState.hw sampleState 3 0 ⟨none, none, none⟩
      ⟨none, none, none⟩).2.2.2.1 (by decide),
    ((selectEMC_succeeds 0 2 sampleState.hw sampleState 3 0 ⟨none, none, none⟩
      ⟨none, none, none⟩).2.1 (by decide)).1,
    (selectEMC_succeeds 8 0 sampleState.hw sampleState 3 0 ⟨none, none, none⟩
      ⟨none, none, none⟩).1⟩

/-- C15: a command entry on a valid fan that carries no `externalTemperature`
member (with or without `dutyCycle`) returns a state with the same members, so
every timestamp and timeout is unchanged, and with the forced-temperature flag and
register of every fan controller unchanged. -/
theorem dutyCycle_only_frame (clock : Nat) (json : FanCommand) (i : Int) (s : State)
    (hfan : json.fan = some i) (hext : json.externalTemperature = none) (hv : validFan s i) :
    ∃ s1, jsonFanCommand clock json s = some s1 ∧ s1.core = s.core ∧
      ∀ tca emc,
        (s1.hw.emc tca emc).forcedTemperatureEnabled = (s.hw.emc tca emc).forcedTemperatureEnabled ∧
        (s1.hw.emc tca emc).forcedTemperature = (s.hw.emc tca emc).forcedTemperature := by
  have hsel := select_selected s.hw (fanTca i.toNat) (fanEmc i.toNat) (fanEmc_lt _)
  rw [jsonFanCommand_valid clock json i s hfan hv]
  simp only [applyExternalTemperature, hext]
  refine ⟨_, rfl, rfl, ?_⟩
  intro tca emc
  simp only [applyDutyCycle]
  cases json.dutyCycle with
  | none => exact ⟨rfl, rfl⟩
  | some d =>
    simp only [setDutyCycle, LUTEnabled]
    rw [onSelected_emc _ _ _ _ (by rw [onSelected_tcaControl]; exact hsel),
      onSelected_emc _ _ _ _ hsel]
    split_ifs <;> exact ⟨rfl, rfl⟩

theorem dutyCycle_only_frame_witness :
    ∃ s1, jsonFanCommand 9 ⟨some 3, some 40, none⟩ sampleState = some s1 ∧
      s1.core = sampleState.core ∧
      ∀ tca emc,
        (s1.hw.emc tca emc).forcedTemperatureEnabled =
          (sampleState.hw.emc tca emc).forcedTemperatureEnabled ∧
        (s1.hw.emc tca emc).forcedTemperature = (sampleState.hw.emc tca emc).forcedTemperature :=
  dutyCycle_only_frame 9 ⟨some 3, some 40, none⟩ 3 sampleState rfl rfl (by decide)

theorem forEach_preserves {E : Type} (body : E → State → Option State) (P : State → Prop)
    (hbody : ∀ e s s1, body e s = some s1 → P s → P s1) :
    ∀ (l : List E) (s s1 : State), forEach l body s = some s1 → P s → P s1 := by
  intro l
  induction l with
  | nil =>
    intro s s1 h hP
    simp only [forEach, Option.some.injEq] at h
    exact h ▸ hP
  | cons e l ih =>
    intro s s1 h hP
    simp only [forEach] at h
    cases hb : body e s with
    | none => rw [hb] at h; simp at h
    | some s2 =>
      rw [hb] at h
      exact ih s2 s1 h (hbody e s s2 hb hP)

theorem applyFanConfig_publish (json : FanConfig) (fan : Nat) (s s1 : State)
    (h : applyFanConfig json fan s = some s1) :
    s1.core.publishTelemetry_ms = s.core.publishTelemetry_ms := by
  unfold applyFanConfig at h
  by_cases hlen : fan < s.core.externalTempTimeout_ms.length <;>
    cases ht : json.externalTemperatureTimeoutSeconds <;>
    cases hl : json.fanSpeedThresholds <;>
    simp only [ht, hl, writeAt, hlen, if_true, if_false, Option.map_some', Option.map_none',
      Option.some.injEq] at h <;>
    first
      | (rw [← h])
      | exact absurd h (by simp)

theorem jsonFanConfig_publish (json : FanConfig) (s s1 : State)
    (h : jsonFanConfig json s = some s1) :
    s1.core.publishTelemetry_ms = s.core.publishTelemetry_ms := by
  have hc : (getFan json.fan s).2.core = s.core := ((obs_eq_iff _ _).mp (getFan_obs _ _)).1
  unfold jsonFanConfig at h
  split_ifs at h
  · rw [← Option.some.inj h, hc]
  · cases hsel : selectEMC (fanTca (getFan json.fan s).1) (fanEmc (getFan json.fan s).1)
        (getFan json.fan s).2.hw with
    | mk ok hw =>
      rw [hsel] at h
      cases ok with
      | false =>
        simp only [Option.some.injEq] at h
        rw [← h]; simp only [hc]
      | true =>
        have hm := applyFanConfig_publish _ _ _ _ h
        simp only [hc] at hm
        exact hm

/-- C16: with a found-count other than 0, a config document whose
`publishFanTelemetrySeconds` is `v` in 0..86400 sets `_publishTelemetry_ms` to
exactly `v * 1000`, without 32-bit wrap: for a document without `fans`, and for a
document with any `fans` array when every array access is within bounds. With
`v = 0` every later `getTelemetry` on the resulting state does nothing. -/
theorem publish_interval (v : Int) (fans : Option (List FanConfig)) (s : State)
    (h0 : 0 ≤ v) (h1 : v ≤ 86400) (hfans : s.core.fansFound ≠ 0)
    (hb : fans = none ∨ InBounds s) :
    ∃ s1, onConfig ⟨some v, fans⟩ s = some s1 ∧
      (s1.core.publishTelemetry_ms : Int) = v * 1000 ∧
      (v = 0 → ∀ clock json, getTelemetry clock json s1 = (s1, json)) := by
  have hms : u32 (asU32 (some v) * 1000) = v.toNat * 1000 := by
    have hu : asU32 (some v) = v.toNat := by simp [asU32]; omega
    rw [hu, u32]
    omega
  have hex : ∃ s1, onConfig ⟨some v, fans⟩ s = some s1 ∧
      s1.core.publishTelemetry_ms = v.toNat * 1000 := by
    simp only [onConfig, hfans, if_false, hms]
    cases fans with
    | none => exact ⟨_, rfl, rfl⟩
    | some l =>
      have hin : InBounds s := by
        rcases hb with hb | hb
        · simp at hb
        · exact hb
      obtain ⟨s1, hs1, _⟩ := forEach_returns jsonFanConfig InBounds jsonFanConfig_returns l
        { s with core := { s.core with publishTelemetry_ms := v.toNat * 1000 } } hin
      refine ⟨s1, hs1, ?_⟩
      exact forEach_preserves jsonFanConfig (fun t => t.core.publishTelemetry_ms = v.toNat * 1000)
        (fun e t t1 ht hP => (jsonFanConfig_publish e t t1 ht).trans hP) l _ s1 hs1 rfl
  obtain ⟨s1, hs1, hp⟩ := hex
  refine ⟨s1, hs1, by rw [hp]; push_cast; omega, ?_⟩
  intro hv clock json
  have hp0 : s1.core.publishTelemetry_ms = 0 := by rw [hp, hv]; rfl
  simp only [getTelemetry, hp0, if_true, ite_self]

theorem publish_interval_witness :
    ∃ s1, onConfig ⟨some 86400, some [⟨some 1, some 30, none⟩]⟩ sampleState = some s1 ∧
      (s1.core.publishTelemetry_ms : Int) = 86400 * 1000 ∧
      ((86400 : Int) = 0 → ∀ clock json, getTelemetry clock json s1 = (s1, json)) :=
  publish_interval 86400 (some [⟨some 1, some 30, none⟩]) sampleState (by decide) (by decide)
    (by decide) (Or.inr ⟨by decide, by decide⟩)

theorem asU8_natCast (n : Nat) (h : n ≤ 255) : asU8 (some (n : Int)) = n := by
  simp only [asU8]
  split_ifs <;> omega

theorem setThresholds_eq_calls (tca : Nat) (points : List (Nat × Nat)) :
    ∀ (first : Nat) (hw : Hardware), first + points.length ≤ 255 →
      (∀ p ∈ points, p.1 ≤ 255 ∧ p.2 ≤ 255) →
      setThresholds tca (thresholdsOf points) first hw = setLUTCalls tca first points hw := by
  induction points with
  | nil => intro first hw _ _; rfl
  | cons p ps ih =>
    intro first hw hlen hr
    have hp := hr p (List.mem_cons_self p ps)
    have hu : u8 (first + 1) = first + 1 := by
      simp only [List.length_cons] at hlen
      simp only [u8]; omega
    simp only [thresholdsOf, List.map_cons, setThresholds, hu, asU8_natCast p.1 hp.1,
      asU8_natCast p.2 hp.2, setLUTCalls, List.enumFrom_cons, List.foldl_cons]
    exact ih (first + 1) _ (by simp only [List.length_cons] at hlen; omega)
      (fun q hq => hr q (List.mem_cons_of_mem p hq))

theorem setLUTCalls_lut (tca emc : Nat) (points : List (Nat × Nat)) :
    ∀ (first : Nat) (hw : Hardware),
      selectedChannel (hw.tcaControl (tcaAddress tca)) = some emc →
      (∀ j p, first ≤ j → points[j - first]? = some p →
        ((setLUTCalls tca first points hw).emc tca emc).lut j = p) ∧
      (∀ j, (j < first ∨ first + points.length ≤ j) →
        ((setLUTCalls tca first points hw).emc tca emc).lut j = (hw.emc tca emc).lut j) := by
  induction points with
  | nil =>
    intro first hw _
    exact ⟨fun j p _ h => by simp at h, fun j _ => rfl⟩
  | cons q qs ih =>
    intro first hw hsel
    have hsel1 : selectedChannel ((setLUT tca first q.1 q.2 hw).tcaControl (tcaAddress tca)) =
        some emc := by
      simp only [setLUT, onSelected_tcaControl]; exact hsel
    have hlut : ∀ j, ((setLUT tca first q.1 q.2 hw).emc tca emc).lut j =
        if j = first then (q.1, q.2) else (hw.emc tca emc).lut j := by
      intro j
      simp only [setLUT]
      rw [onSelected_emc _ _ _ _ hsel]
      simp only [and_self, if_true, Function.update_apply]
    obtain ⟨ih1, ih2⟩ := ih (first + 1) (setLUT tca first q.1 q.2 hw) hsel1
    have hunf : setLUTCalls tca first (q :: qs) hw =
        setLUTCalls tca (first + 1) qs (setLUT tca first q.1 q.2 hw) := by
      simp only [setLUTCalls, List.enumFrom_cons, List.foldl_cons]
    rw [hunf]
    constructor
    · intro j p hj hp
      by_cases hjf : j = first
      · subst hjf
        simp only [Nat.sub_self, List.getElem?_cons_zero, Option.some.injEq] at hp
        rw [ih2 j (Or.inl (by omega)), hlut j, if_pos rfl, ← hp]
      · have hsub : j - first = (j - (first + 1)) + 1 := by omega
        rw [hsub, List.getElem?_cons_succ] at hp
        exact ih1 j p (by omega) hp
    · intro j hj
      simp only [List.length_cons] at hj
      rw [ih2 j (by omega), hlut j, if_neg (by omega)]

theorem getExternalTemperature_select (hw : Hardware) (tca emc : Nat) (he : emc < 8) :
    getExternalTemperature tca (hw.select tca emc) = (hw.emc tca emc).externalTemperatureReading ∧
    getDutyCycle tca (hw.select tca emc) = u8 (hw.emc tca emc).dutyCycleReading ∧
    getFanRPM tca (hw.select tca emc) = (hw.emc tca emc).fanRPMReading % 65536 := by
  have hsel := select_selected hw tca emc he
  simp only [getExternalTemperature, getDutyCycle, getFanRPM, Hardware.selected, hsel]
  exact ⟨rfl, rfl, rfl⟩

theorem telemetryEmc_step (s0 : State) (tca emc : Nat) (ht : tca < 8) (he : emc < 8)
    (acc : State × List Json) (hfr : TelemetryFrame s0 acc.1) :
    TelemetryFrame s0 (telemetryEmc tca emc acc).1 ∧
      (telemetryEmc tca emc acc).2 = acc.2 ++
        (if decide (slotDetected s0 tca emc) &&
            decide ((s0.hw.emc tca emc).externalTemperatureReading ≠ 127) then
          [fanRecord s0 tca emc] else []) := by
  obtain ⟨⟨c, ⟨resp, ctl, ef⟩, ser⟩, items⟩ := acc
  obtain ⟨hc, hemc, hresp, hser⟩ := hfr
  simp only at hc hemc hresp hser
  subst hc hemc hresp hser
  obtain ⟨hT, hD, hR⟩ := getExternalTemperature_select
    ⟨s0.hw.tcaResponds, ctl, s0.hw.emc⟩ tca emc he
  simp only [Hardware.select] at hT hD hR
  unfold telemetryEmc
  by_cases hbit : bitRead (s0.core.emcsFound tca) emc = 0
  · simp only [hbit, if_true, slotDetected]
    exact ⟨⟨rfl, rfl, rfl, rfl⟩, by simp⟩
  · simp only [hbit, if_false, selectEMC_ok _ _ _ ht he, hT, hD, hR]
    by_cases h127 : (s0.hw.emc tca emc).externalTemperatureReading = 127
    · simp only [h127, if_true, slotDetected]
      exact ⟨⟨rfl, rfl, rfl, rfl⟩, by simp⟩
    · simp only [h127, if_false, slotDetected]
      exact ⟨⟨rfl, rfl, rfl, rfl⟩, by simp [hbit, h127, fanRecord]⟩

theorem telemetryEmc_fold (s0 : State) (tca : Nat) (ht : tca < 8) :
    ∀ (l : List Nat), (∀ e ∈ l, e < 8) → ∀ (acc : State × List Json), TelemetryFrame s0 acc.1 →
      TelemetryFrame s0 (l.foldl (fun a emc => telemetryEmc tca emc a) acc).1 ∧
      (l.foldl (fun a emc => telemetryEmc tca emc a) acc).2 = acc.2 ++
        (l.filter (fun emc => decide (slotDetected s0 tca emc) &&
          decide ((s0.hw.emc tca emc).externalTemperatureReading ≠ 127))).map
          (fun emc => fanRecord s0 tca emc) := by
  intro l
  induction l with
  | nil => intro _ acc hfr; exact ⟨hfr, by simp⟩
  | cons e l ih =>
    intro hl acc hfr
    obtain ⟨h1, h2⟩ := telemetryEmc_step s0 tca e ht (hl e (List.mem_cons_self e l)) acc hfr
    obtain ⟨h3, h4⟩ := ih (fun x hx => hl x (List.mem_cons_of_mem e hx)) _ h1
    refine ⟨h3, ?_⟩
    rw [List.foldl_cons, h4, h2, List.filter_cons]
    split_ifs <;> simp

theorem telemetryTca_step (s0 : State) (tca : Nat) (ht : tca < 8) (acc : State × List Json)
    (hfr : TelemetryFrame s0 acc.1) :
    TelemetryFrame s0 (telemetryTca tca acc).1 ∧
      (telemetryTca tca acc).2 = acc.2 ++
        (((List.range EMC_COUNT).map (fun emc => (tca, emc))).filter
          (fun j => fanReported s0 j.1 j.2)).map (fun j => fanRecord s0 j.1 j.2) := by
  unfold telemetryTca
  rw [hfr.1]
  by_cases hbit : bitRead s0.core.tcasFound tca = 0
  · simp only [hbit, if_true]
    refine ⟨hfr, ?_⟩
    have hnil : ((List.range EMC_COUNT).map (fun emc => (tca, emc))).filter
        (fun j => fanReported s0 j.1 j.2) = [] := by
      rw [List.filter_eq_nil_iff]
      intro a ha
      obtain ⟨e, _, rfl⟩ := List.mem_map.mp ha
      simp [fanReported, muxPresent, hbit]
    rw [hnil]; simp
  · simp only [hbit, if_false]
    obtain ⟨h1, h2⟩ := telemetryEmc_fold s0 tca ht (List.range EMC_COUNT)
      (fun e he => by rw [EMC_COUNT_eq] at he; exact List.mem_range.mp he) acc hfr
    refine ⟨h1, ?_⟩
    rw [h2, List.filter_map, List.map_map]
    congr 2
    apply List.filter_congr
    intro e _
    simp [fanReported, muxPresent, hbit]

theorem telemetryTca_fold (s0 : State) :
    ∀ (l : List Nat), (∀ t ∈ l, t < 8) → ∀ (acc : State × List Json), TelemetryFrame s0 acc.1 →
      TelemetryFrame s0 (l.foldl (fun a tca => telemetryTca tca a) acc).1 ∧
      (l.foldl (fun a tca => telemetryTca tca a) acc).2 = acc.2 ++
        ((l.flatMap (fun tca => (List.range EMC_COUNT).map (fun emc => (tca, emc)))).filter
          (fun j => fanReported s0 j.1 j.2)).map (fun j => fanRecord s0 j.1 j.2) := by
  intro l
  induction l with
  | nil => intro _ acc hfr; exact ⟨hfr, by simp⟩
  | cons t l ih =>
    intro hl acc hfr
    obtain ⟨h1, h2⟩ := telemetryTca_step s0 t (hl t (List.mem_cons_self t l)) acc hfr
    obtain ⟨h3, h4⟩ := ih (fun x hx => hl x (List.mem_cons_of_mem t hx)) _ h1
    refine ⟨h3, ?_⟩
    rw [List.foldl_cons, h4, h2, List.flatMap_cons, List.filter_append, List.map_append,
      List.append_assoc]

theorem telemetry_sample (s : State) :
    TelemetryFrame s ((List.range TCA_COUNT).foldl (fun a tca => telemetryTca tca a) (s, [])).1 ∧
      ((List.range TCA_COUNT).foldl (fun a tca => telemetryTca tca a) (s, [])).2 = snapshot s := by
  obtain ⟨h1, h2⟩ := telemetryTca_fold s (List.range TCA_COUNT)
    (fun t ht => by rw [TCA_COUNT_eq] at ht; exact List.mem_range.mp ht) (s, [])
    ⟨rfl, rfl, rfl, rfl⟩
  exact ⟨h1, by rw [h2]; rfl⟩

theorem getTelemetry_fires (clock : Nat) (json : Json) (s : State) (h : telemetryFires clock s) :
    (getTelemetry clock json s).2 = Json.arr (snapshot s) ∧
      (getTelemetry clock json s).1.core =
        { s.core with lastPublishTelemetry := millis clock } ∧
      (getTelemetry clock json s).1.hw.emc = s.hw.emc ∧
      (getTelemetry clock json s).1.serial = s.serial := by
  obtain ⟨hf, hp, hd⟩ := h
  obtain ⟨⟨hc, hemc, _, hser⟩, hsnap⟩ := telemetry_sample s
  simp only [getTelemetry, hf, hp, hd, if_false, if_true, hsnap, hc]
  exact ⟨trivial, trivial, hemc, hser⟩

theorem getTelemetry_skips (clock : Nat) (json : Json) (s : State) (h : ¬ telemetryFires clock s) :
    getTelemetry clock json s = (s, json) := by
  unfold getTelemetry
  split_ifs with h1 h2 h3
  · rfl
  · rfl
  · exact absurd ⟨h1, h2, h3⟩ h
  · rfl

theorem allSlots_fanIndex :
    allSlots.map (fun j => fanIndex j.1 j.2) = (List.range 64).map (fun k => k + 1) := by
  decide

/-! ### Telemetry -/

/-- C11: when a telemetry sample fires, the document written is the array
`snapshot s`: the slots are taken mux by mux and channel by channel, which is the
ascending order of the fan indices 1..64; a slot contributes a record iff its fan
is discovered (mux present, slot detected) and its temperature reading is not 127,
so a fan reading exactly 127 has no record and a discovered fan with any other
reading has one; the record carries the fan index, `running = (rpm > 0)`, the
rpm, the duty cycle and the temperature, in this order. -/
theorem telemetry_snapshot (clock : Nat) (json : Json) (s : State) (h : telemetryFires clock s) :
    (getTelemetry clock json s).2 =
        Json.arr ((allSlots.filter (fun j => fanReported s j.1 j.2)).map
          (fun j => fanRecord s j.1 j.2)) ∧
      allSlots.map (fun j => fanIndex j.1 j.2) = (List.range 64).map (fun k => k + 1) ∧
      (∀ tca emc, fanReported s tca emc = true ↔
        (muxPresent s tca ∧ slotDetected s tca emc ∧
          (s.hw.emc tca emc).externalTemperatureReading ≠ 127)) ∧
      (∀ tca emc, fanRecord s tca emc =
        Json.obj
          [ ("fan", Json.int (fanIndex tca emc)),
            ("running", Json.bool (decide ((s.hw.emc tca emc).fanRPMReading % 65536 > 0))),
            ("rpm", Json.int ((s.hw.emc tca emc).fanRPMReading % 65536 : Nat)),
            ("dutyCycle", Json.int (u8 (s.hw.emc tca emc).dutyCycleReading : Nat)),
            ("temperature", Json.float (s.hw.emc tca emc).externalTemperatureReading) ]) := by
  refine ⟨(getTelemetry_fires clock json s h).1, allSlots_fanIndex, ?_, fun _ _ => rfl⟩
  intro tca emc
  simp only [fanReported, Bool.and_eq_true, decide_eq_true_eq, and_assoc]

theorem telemetry_snapshot_witness :
    (getTelemetry 60001 Json.null telemetryState).2 =
        Json.arr ((allSlots.filter (fun j => fanReported telemetryState j.1 j.2)).map
          (fun j => fanRecord telemetryState j.1 j.2)) ∧
      fanReported telemetryState 0 0 = true ∧ fanReported telemetryState 0 2 = false :=
  ⟨(telemetry_snapshot 60001 Json.null telemetryState (by decide)).1, by decide, by decide⟩

/-! ### Discovery -/

theorem bitRead_ne_zero_iff (v b : Nat) : bitRead v b ≠ 0 ↔ v.testBit b = true := by
  simp only [bitRead, Nat.testBit, Nat.and_comm (v >>> b) 1]
  simp

theorem bitRead_zero (b : Nat) : bitRead 0 b = 0 := by
  simp [bitRead]

theorem bitRead_bitSet (v e b : Nat) (hb : b < 8) :
    bitRead (bitSet v e) b ≠ 0 ↔ (b = e ∨ bitRead v b ≠ 0) := by
  rw [bitRead_ne_zero_iff, bitRead_ne_zero_iff, bitSet, u8,
    show (256 : Nat) = 2 ^ 8 by norm_num, Nat.testBit_mod_two_pow, Nat.testBit_or,
    Nat.one_shiftLeft, Nat.testBit_two_pow]
  simp [hb]
  constructor
  · rintro (h | h)
    · exact Or.inr h
    · exact Or.inl h.symm
  · rintro (h | h)
    · exact Or.inr h.symm
    · exact Or.inl h

theorem onSelected_comp (hw : Hardware) (tca : Nat) (f g : Emc2101 → Emc2101) :
    (hw.onSelected tca f).onSelected tca g = hw.onSelected tca (fun d => g (f d)) := by
  unfold Hardware.onSelected
  cases h : selectedChannel (hw.tcaControl (tcaAddress tca)) with
  | none => simp only [h]
  | some c =>
    simp only [h]
    congr 1
    funext t e
    split_ifs <;> rfl

theorem scan_defaults (hw : Hardware) (tca : Nat) :
    setLUT tca 2 50 100 (setLUT tca 1 40 50 (setLUT tca 0 30 25
      (setLUTHysteresis tca 5 (LUTEnabled tca true hw)))) = hw.onSelected tca defaultCurve := by
  simp only [setLUT, setLUTHysteresis, LUTEnabled, onSelected_comp]
  rfl

theorem emcBegin_select (hw : Hardware) (tca emc : Nat) (he : emc < 8) :
    emcBegin tca (hw.select tca emc) = (hw.emc tca emc).responds := by
  have hsel := select_selected hw tca emc he
  simp only [emcBegin, Hardware.selected, hsel]
  rfl

theorem scanView_ext (s s1 : State) (j : Nat × Nat)
    (h1 : s1.core.tcasFound = s.core.tcasFound)
    (h2 : s1.core.emcsFound j.1 = s.core.emcsFound j.1)
    (h3 : s1.core.externalTempTimeout_ms = s.core.externalTempTimeout_ms)
    (h4 : s1.core.lastExternalTemp = s.core.lastExternalTemp)
    (h5 : s1.hw.emc j.1 j.2 = s.hw.emc j.1 j.2) : scanView s1 j = scanView s j := by
  simp only [scanView, muxPresent, slotDetected, h1, h2, h3, h4, h5]

theorem scanEmc_step (s0 : State) (tca emc : Nat) (ht : tca < 8) (he : emc < 8)
    (h64 : ¬ (tca = 7 ∧ emc = 7 ∧ (s0.hw.emc 7 7).responds = true))
    (s : State) (hI : ScanFrame s0 s) :
    ∃ s1, scanEmc tca emc s = some s1 ∧ ScanFrame s0 s1 ∧
      (∀ j : Nat × Nat, (j.1 < 8 ∧ j.2 < 8) →
        (j = (tca, emc) → scanView s1 j = scanEmcView s0.hw j (scanView s j)) ∧
        (¬ j = (tca, emc) → scanView s1 j = scanView s j)) ∧
      s1.core.fansFound % 256 = (s.core.fansFound + respondingOn s0.hw tca [emc]) % 256 := by
  obtain ⟨hsz, hresp, hchip, hcnt, hpub, hlastp⟩ := hI
  have hbeg : emcBegin tca (s.hw.select tca emc) = (s0.hw.emc tca emc).responds := by
    rw [emcBegin_select s.hw tca emc he, hchip]
  by_cases hr : (s0.hw.emc tca emc).responds = true
  · have hidx : fanIndex tca emc = tca * 8 + emc + 1 := fanIndex_eq tca emc ht he
    have hlt : fanIndex tca emc < 64 := by
      rw [hidx]
      by_contra hge
      have h7 : tca = 7 ∧ emc = 7 := by omega
      exact h64 ⟨h7.1, h7.2, by rw [h7.1, h7.2] at hr; exact hr⟩
    have hlen1 : fanIndex tca emc < s.core.externalTempTimeout_ms.length := by
      rw [hsz.1, TCA_COUNT_eq, EMC_COUNT_eq]; exact hlt
    have hlen2 : fanIndex tca emc < s.core.lastExternalTemp.length := by
      rw [hsz.2, TCA_COUNT_eq, EMC_COUNT_eq]; exact hlt
    have hsel := select_selected s.hw tca emc he
    refine ⟨
      { core :=
          { s.core with
            emcsFound := Function.update s.core.emcsFound tca (bitSet (s.core.emcsFound tca) emc)
            externalTempTimeout_ms :=
              (s.core.externalTempTimeout_ms.set (fanIndex tca emc)
                DEFAULT_EXTERNAL_TEMP_TIMEOUT_MS)
            lastExternalTemp := s.core.lastExternalTemp.set (fanIndex tca emc) 0
            fansFound := u8 (s.core.fansFound + 1) }
        hw := (s.hw.select tca emc).onSelected tca defaultCurve
        serial := s.serial ++ [SerialMsg.muxPort emc] ++ [SerialMsg.emcFound (fanIndex tca emc)] },
      ?_, ?_, ?_, ?_⟩
    · simp only [scanEmc, selectEMC_ok _ _ _ ht he]
      have hbeg2 := hbeg
      simp only [Hardware.select] at hbeg2
      simp only [hbeg2, hr, if_true, scanFound, writeAt, hlen1, hlen2, scan_defaults,
        Hardware.select]
    · refine ⟨⟨by simp [hsz.1], by simp [hsz.2]⟩, ?_, ?_, ?_, hpub, hlastp⟩
      · simp only [onSelected_tcaResponds]; exact hresp
      · intro t e
        simp only
        rw [onSelected_emc _ _ _ _ hsel]
        split_ifs
        · simp only [defaultCurve, Hardware.select]; exact hchip t e
        · simp only [Hardware.select]; exact hchip t e
      · simp only [u8]; omega
    · rintro ⟨t, e⟩ ⟨hjt, hje⟩
      simp only at hjt hje
      have hjdx : fanIndex t e = t * 8 + e + 1 := fanIndex_eq t e hjt hje
      constructor
      · intro hj
        obtain ⟨rfl, rfl⟩ := Prod.mk.inj hj
        simp only [scanEmcView, hr, if_true, foundView, scanView, muxPresent, slotDetected,
          Function.update_same]
        rw [onSelected_emc _ _ _ _ hsel]
        have hb : bitRead (bitSet (s.core.emcsFound t) e) e ≠ 0 :=
          (bitRead_bitSet _ e e he).mpr (Or.inl rfl)
        simp [hb, hlen1, hlen2, Hardware.select]
      · intro hj
        have hne : ¬ (t = tca ∧ e = emc) := fun h => hj (by rw [h.1, h.2])
        have hne2 : fanIndex tca emc ≠ fanIndex t e := by
          rw [hidx, hjdx]; omega
        have hslot : (bitRead (Function.update s.core.emcsFound tca
            (bitSet (s.core.emcsFound tca) emc) t) e ≠ 0) ↔
            (bitRead (s.core.emcsFound t) e ≠ 0) := by
          by_cases htt : t = tca
          · subst htt
            rw [Function.update_same, bitRead_bitSet _ emc e hje]
            constructor
            · rintro (h | h)
              · exact absurd ⟨rfl, h⟩ hne
              · exact h
            · exact fun h => Or.inr h
          · rw [Function.update_noteq htt]
        simp only [scanView, muxPresent, slotDetected]
        rw [onSelected_emc _ _ _ _ hsel]
        simp only [hne, if_false, List.getElem?_set_ne hne2, decide_eq_decide.mpr hslot,
          Hardware.select]
    · simp only [respondingOn, List.map_cons, List.map_nil, hr, if_true, List.sum_cons,
        List.sum_nil, u8]
      omega
  · have hr2 : (s0.hw.emc tca emc).responds = false := by simpa using hr
    refine ⟨{ s with hw := s.hw.select tca emc, serial := s.serial ++ [SerialMsg.muxPort emc] },
      ?_, ?_, ?_, ?_⟩
    · simp only [scanEmc, selectEMC_ok _ _ _ ht he]
      have hbeg2 := hbeg
      simp only [Hardware.select] at hbeg2
      simp only [hbeg2, hr2, Bool.false_eq_true, if_false, Hardware.select]
    · exact ⟨hsz, hresp, hchip, hcnt, hpub, hlastp⟩
    · rintro ⟨t, e⟩ _
      refine ⟨?_, fun _ => rfl⟩
      intro hj
      obtain ⟨rfl, rfl⟩ := Prod.mk.inj hj
      simp only [scanEmcView, hr2, Bool.false_eq_true, if_false]
      rfl
    · simp only [respondingOn, List.map_cons, List.map_nil, hr2, Bool.false_eq_true, if_false,
        List.sum_cons, List.sum_nil]
      omega

theorem forEach_count {α : Type} (body : α → State → Option State) (I : State → Prop)
    (w : α → Nat) :
    ∀ l : List α,
      (∀ a ∈ l, ∀ s, I s → ∃ s1, body a s = some s1 ∧ I s1 ∧
        s1.core.fansFound % 256 = (s.core.fansFound + w a) % 256) →
      ∀ s, I s → ∃ s1, forEach l body s = some s1 ∧ I s1 ∧
        s1.core.fansFound % 256 = (s.core.fansFound + (l.map w).sum) % 256 := by
  intro l
  induction l with
  | nil =>
    intro _ s hI
    exact ⟨s, rfl, hI, by simp⟩
  | cons a l ih =>
    intro hstep s hI
    obtain ⟨s1, hb, hI1, hc1⟩ := hstep a (List.mem_cons_self a l) s hI
    obtain ⟨s2, hf, hI2, hc2⟩ := ih (fun b hb1 => hstep b (List.mem_cons_of_mem a hb1)) s1 hI1
    refine ⟨s2, by simp only [forEach, hb, hf], hI2, ?_⟩
    simp only [List.map_cons, List.sum_cons]
    omega

theorem scanTca_step (s0 : State) (tca : Nat) (ht : tca < 8)
    (h64 : ¬ (s0.hw.tcaResponds (tcaAddress 7) = true ∧ (s0.hw.emc 7 7).responds = true))
    (s : State) (hI : ScanFrame s0 s) :
    ∃ s1, scanTca tca s = some s1 ∧ ScanFrame s0 s1 ∧
      (∀ j : Nat × Nat, (j.1 < 8 ∧ j.2 < 8) →
        (j.1 = tca → scanView s1 j = scanTcaView s0.hw j (scanView s j)) ∧
        (¬ j.1 = tca → scanView s1 j = scanView s j)) ∧
      s1.core.fansFound % 256 = (s.core.fansFound + foundOn s0.hw tca) % 256 := by
  obtain ⟨hsz, hresp, hchip, hcnt, hpub, hlastp⟩ := hI
  by_cases hr : s0.hw.tcaResponds (tcaAddress tca) = true
  · have hI0 : ScanFrame s0
        { s with
          core :=
            { s.core with
              emcsFound := Function.update s.core.emcsFound tca 0
              tcasFound := bitSet s.core.tcasFound tca }
          serial := s.serial ++ [SerialMsg.tcaProbe (tcaAddress tca), SerialMsg.tcaFound] } :=
      ⟨hsz, hresp, hchip, hcnt, hpub, hlastp⟩
    have hstep : ∀ a ∈ List.range EMC_COUNT, ∀ s2, ScanFrame s0 s2 →
        ∃ s1, scanEmc tca a s2 = some s1 ∧ ScanFrame s0 s1 ∧
          (∀ j : Nat × Nat, (j.1 < 8 ∧ j.2 < 8) →
            (j = (tca, a) → scanView s1 j = scanEmcView s0.hw j (scanView s2 j)) ∧
            (¬ j = (tca, a) → scanView s1 j = scanView s2 j)) ∧
          s1.core.fansFound % 256 = (s2.core.fansFound + respondingOn s0.hw tca [a]) % 256 := by
      intro a ha s2 hs2
      have ha8 : a < 8 := by rw [EMC_COUNT_eq] at ha; exact List.mem_range.mp ha
      refine scanEmc_step s0 tca a ht ha8 ?_ s2 hs2
      rintro ⟨h7, _, hd⟩
      exact h64 ⟨by rw [h7] at hr; exact hr, hd⟩
    obtain ⟨s1, hf, hI1, hv⟩ :=
      forEach_owned (scanEmc tca) scanView (scanEmcView s0.hw) (ScanFrame s0)
        (fun j => j.1 < 8 ∧ j.2 < 8) (fun a j => j = (tca, a))
        (fun a b j ha hb => by rw [ha] at hb; exact (Prod.mk.inj hb).2)
        (List.range EMC_COUNT) (List.nodup_range _)
        (fun a ha s2 hs2 => by
          obtain ⟨s3, h1, h2, h3, _⟩ := hstep a ha s2 hs2
          exact ⟨s3, h1, h2, h3⟩) _ hI0
    obtain ⟨s1', hf', _, hc⟩ :=
      forEach_count (scanEmc tca) (ScanFrame s0) (fun a => respondingOn s0.hw tca [a])
        (List.range EMC_COUNT)
        (fun a ha s2 hs2 => by
          obtain ⟨s3, h1, h2, _, h4⟩ := hstep a ha s2 hs2
          exact ⟨s3, h1, h2, h4⟩) _ hI0
    have heq : s1' = s1 := Option.some.inj (hf'.symm.trans hf)
    subst heq
    refine ⟨s1', ?_, hI1, ?_, ?_⟩
    · simp only [scanTca, hresp, hr, if_true, hf]
    · rintro ⟨t, e⟩ ⟨hjt, hje⟩
      simp only at hjt hje
      constructor
      · intro hj
        simp only at hj
        subst hj
        have hmem : ∃ a ∈ List.range EMC_COUNT, (t, e) = (t, a) :=
          ⟨e, by rw [EMC_COUNT_eq]; exact List.mem_range.mpr hje, rfl⟩
        rw [(hv (t, e) ⟨hjt, hje⟩).1 hmem]
        have hmux : bitRead (bitSet s.core.tcasFound t) t ≠ 0 :=
          (bitRead_bitSet _ t t hjt).mpr (Or.inl rfl)
        simp [scanTcaView, hr, scanView, muxPresent, slotDetected, hmux, bitRead_zero]
      · intro hj
        have hno : ¬ ∃ a ∈ List.range EMC_COUNT, (t, e) = (tca, a) := by
          rintro ⟨a, _, ha⟩
          exact hj (Prod.mk.inj ha).1
        rw [(hv (t, e) ⟨hjt, hje⟩).2 hno]
        have hmux : (bitRead (bitSet s.core.tcasFound tca) t ≠ 0) ↔
            (bitRead s.core.tcasFound t ≠ 0) := by
          rw [bitRead_bitSet _ tca t hjt]
          constructor
          · rintro (h | h)
            · exact absurd h hj
            · exact h
          · exact fun h => Or.inr h
        simp only [scanView, muxPresent, slotDetected, Function.update_noteq hj,
          decide_eq_decide.mpr hmux]
    · rw [hc]
      simp only [foundOn, hr, if_true, respondingOn, List.map_cons, List.map_nil, List.sum_cons,
        List.sum_nil, Nat.add_zero]
  · have hr2 : s0.hw.tcaResponds (tcaAddress tca) = false := by simpa using hr
    refine ⟨{ s with
        core := { s.core with emcsFound := Function.update s.core.emcsFound tca 0 }
        serial := s.serial ++ [SerialMsg.tcaProbe (tcaAddress tca), SerialMsg.tcaEmpty] },
      ?_, ⟨hsz, hresp, hchip, hcnt, hpub, hlastp⟩, ?_, ?_⟩
    · simp only [scanTca, hresp, hr2, Bool.false_eq_true, if_false]
    · rintro ⟨t, e⟩ ⟨hjt, hje⟩
      constructor
      · intro hj
        simp only at hj
        subst hj
        simp [scanTcaView, hr2, scanView, muxPresent, slotDetected, bitRead_zero]
      · intro hj
        simp only [scanView, muxPresent, slotDetected, Function.update_noteq hj]
    · simp only [foundOn, hr2, Bool.false_eq_true, if_false, Nat.add_zero]

theorem length_filter_eq_sum {α : Type} (p : α → Bool) (l : List α) :
    (l.filter p).length = (l.map (fun a => if p a then 1 else 0)).sum := by
  induction l with
  | nil => rfl
  | cons a l ih =>
    rw [List.filter_cons]
    split_ifs with h <;> simp [h, ih]
    omega

theorem length_filter_flatMap {α β : Type} (p : β → Bool) (f : α → List β) (l : List α) :
    ((l.flatMap f).filter p).length = (l.map (fun a => ((f a).filter p).length)).sum := by
  induction l with
  | nil => rfl
  | cons a l ih =>
    simp only [List.flatMap_cons, List.filter_append, List.length_append, List.map_cons,
      List.sum_cons, ih]

theorem foundOn_eq (hw0 : Hardware) (tca : Nat) :
    foundOn hw0 tca =
      (((List.range EMC_COUNT).map (fun emc => (tca, emc))).filter
        (fun j => deviceAt hw0 j.1 j.2)).length := by
  rw [List.filter_map, List.length_map, length_filter_eq_sum]
  simp only [foundOn, respondingOn, deviceAt, Function.comp]
  by_cases hr : hw0.tcaResponds (tcaAddress tca) = true
  · simp only [hr, if_true, Bool.true_and]
  · have hr2 : hw0.tcaResponds (tcaAddress tca) = false := by simpa using hr
    simp only [hr2, Bool.false_eq_true, if_false, Bool.false_and]
    simp

theorem sum_foundOn (hw0 : Hardware) :
    ((List.range TCA_COUNT).map (foundOn hw0)).sum =
      (allSlots.filter (fun j => deviceAt hw0 j.1 j.2)).length := by
  rw [allSlots, length_filter_flatMap]
  congr 1
  apply List.map_congr_left
  intro t _
  exact foundOn_eq hw0 t

theorem allSlots_length : allSlots.length = 64 := by decide

theorem mem_allSlots (j : Nat × Nat) : j ∈ allSlots ↔ j.1 < 8 ∧ j.2 < 8 := by
  obtain ⟨t, e⟩ := j
  simp only [allSlots, List.mem_flatMap, List.mem_map, List.mem_range, Prod.mk.injEq,
    TCA_COUNT_eq, EMC_COUNT_eq]
  constructor
  · rintro ⟨a, ha, b, hb, rfl, rfl⟩
    exact ⟨ha, hb⟩
  · rintro ⟨ha, hb⟩
    exact ⟨t, ha, e, hb, rfl, rfl⟩

/-- Discovery on a bus on which the last slot (channel 7 of the mux at `0x77`)
holds no fan controller, from a state with `_tcasFound = 0` and per-fan arrays of
the declared size: `scanI2CBus` returns; the view of every slot is the one of
`scanTcaView`; and the found-count is the number of slots with a device. -/
theorem scan_views (s : State) (hsz : s.core.WellSized)
    (h64 : ¬ (s.hw.tcaResponds (tcaAddress 7) = true ∧ (s.hw.emc 7 7).responds = true)) :
    ∃ s1, scanI2CBus s = some s1 ∧ ScanFrame s s1 ∧
      (∀ tca emc, tca < 8 → emc < 8 →
        scanView s1 (tca, emc) = scanTcaView s.hw (tca, emc) (scanView s (tca, emc))) ∧
      s1.core.fansFound = (allSlots.filter (fun j => deviceAt s.hw j.1 j.2)).length := by
  have hI0 : ScanFrame s
      { s with
        core := { s.core with fansFound := 0 }
        serial := s.serial ++ [SerialMsg.scanning] } :=
    ⟨hsz, rfl, fun _ _ => rfl, Nat.zero_lt_succ 255, rfl, rfl⟩
  have hstep : ∀ a ∈ List.range TCA_COUNT, ∀ s2, ScanFrame s s2 →
      ∃ s1, scanTca a s2 = some s1 ∧ ScanFrame s s1 ∧
        (∀ j : Nat × Nat, (j.1 < 8 ∧ j.2 < 8) →
          (j.1 = a → scanView s1 j = scanTcaView s.hw j (scanView s2 j)) ∧
          (¬ j.1 = a → scanView s1 j = scanView s2 j)) ∧
        s1.core.fansFound % 256 = (s2.core.fansFound + foundOn s.hw a) % 256 := by
    intro a ha s2 hs2
    have ha8 : a < 8 := by rw [TCA_COUNT_eq] at ha; exact List.mem_range.mp ha
    exact scanTca_step s a ha8 h64 s2 hs2
  obtain ⟨s1, hf, hI1, hv⟩ :=
    forEach_owned scanTca scanView (scanTcaView s.hw) (ScanFrame s)
      (fun j => j.1 < 8 ∧ j.2 < 8) (fun a j => j.1 = a)
      (fun a b j ha hb => by rw [← ha, ← hb])
      (List.range TCA_COUNT) (List.nodup_range _)
      (fun a ha s2 hs2 => by
        obtain ⟨s3, h1, h2, h3, _⟩ := hstep a ha s2 hs2
        exact ⟨s3, h1, h2, h3⟩) _ hI0
  obtain ⟨s1', hf', _, hc⟩ :=
    forEach_count scanTca (ScanFrame s) (foundOn s.hw) (List.range TCA_COUNT)
      (fun a ha s2 hs2 => by
        obtain ⟨s3, h1, h2, _, h4⟩ := hstep a ha s2 hs2
        exact ⟨s3, h1, h2, h4⟩) _ hI0
  have heq : s1' = s1 := Option.some.inj (hf'.symm.trans hf)
  subst heq
  refine ⟨s1', hf, hI1, ?_, ?_⟩
  · intro tca emc ht he
    have hmem : ∃ a ∈ List.range TCA_COUNT, (tca, emc).1 = a :=
      ⟨tca, by rw [TCA_COUNT_eq]; exact List.mem_range.mpr ht, rfl⟩
    rw [(hv (tca, emc) ⟨ht, he⟩).1 hmem]
    rfl
  · have hle : (allSlots.filter (fun j => deviceAt s.hw j.1 j.2)).length ≤ 64 := by
      rw [← allSlots_length]; exact List.length_filter_le _ _
    have hlt := hI1.2.2.2.1
    rw [sum_foundOn] at hc
    simp only [Nat.zero_add] at hc
    omega

theorem scanTcaView_fields (hw0 : Hardware) (j : Nat × Nat) (v : ScanView) :
    ((scanTcaView hw0 j v).mux = (hw0.tcaResponds (tcaAddress j.1) || v.mux)) ∧
      ((scanTcaView hw0 j v).slot = deviceAt hw0 j.1 j.2) ∧
      ((scanTcaView hw0 j v).timeout =
        if deviceAt hw0 j.1 j.2 then some DEFAULT_EXTERNAL_TEMP_TIMEOUT_MS else v.timeout) ∧
      ((scanTcaView hw0 j v).last = if deviceAt hw0 j.1 j.2 then some 0 else v.last) ∧
      ((scanTcaView hw0 j v).driver =
        if deviceAt hw0 j.1 j.2 then defaultCurve v.driver else v.driver) := by
  unfold scanTcaView scanEmcView foundView deviceAt
  cases hw0.tcaResponds (tcaAddress j.1) <;> cases (hw0.emc j.1 j.2).responds <;> simp

/-- Discovery on a bus on which the last slot (channel 7 of the mux at `0x77`)
holds no fan controller, run from the initial state (`_tcasFound = 0`, per-fan
arrays of the declared size): `begin` returns; mux `m` is marked present iff its
address answers; slot `(m, c)` is marked detected iff the mux answers and the fan
controller on the channel answers; a detected fan has the default timeout, no
timestamp, and its controller was given curve mode, hysteresis 5 and the three
default points; the array slots and the controller of an undetected slot are
unchanged; and the found-count is the number of detected slots. -/
theorem discovery_result (s : State) (hsz : s.core.WellSized) (hinit : s.core.tcasFound = 0)
    (h64 : ¬ (s.hw.tcaResponds (tcaAddress 7) = true ∧ (s.hw.emc 7 7).responds = true)) :
    ∃ s1, begin s = some s1 ∧ s1.core.WellSized ∧ s1.hw.tcaResponds = s.hw.tcaResponds ∧
      (∀ m, m < 8 → (muxPresent s1 m ↔ s.hw.tcaResponds (tcaAddress m) = true)) ∧
      (∀ m c, m < 8 → c < 8 → (slotDetected s1 m c ↔
        (s.hw.tcaResponds (tcaAddress m) = true ∧ (s.hw.emc m c).responds = true))) ∧
      (∀ m c, m < 8 → c < 8 → slotDetected s1 m c →
        s1.core.externalTempTimeout_ms[fanIndex m c]? = some DEFAULT_EXTERNAL_TEMP_TIMEOUT_MS ∧
        s1.core.lastExternalTemp[fanIndex m c]? = some 0 ∧
        s1.hw.emc m c = defaultCurve (s.hw.emc m c)) ∧
      (∀ m c, m < 8 → c < 8 → ¬ slotDetected s1 m c →
        s1.core.externalTempTimeout_ms[fanIndex m c]? =
          s.core.externalTempTimeout_ms[fanIndex m c]? ∧
        s1.core.lastExternalTemp[fanIndex m c]? = s.core.lastExternalTemp[fanIndex m c]? ∧
        s1.hw.emc m c = s.hw.emc m c) ∧
      s1.core.fansFound = (allSlots.filter (fun j => decide (slotDetected s1 j.1 j.2))).length ∧
      s1.core.fansFound ≤ 64 := by
  obtain ⟨s1, hscan, hfr, hview, hcount⟩ := scan_views s hsz h64
  have hslot : ∀ m c, m < 8 → c < 8 → (slotDetected s1 m c ↔ deviceAt s.hw m c = true) := by
    intro m c hm hc
    have h := congrArg ScanView.slot (hview m c hm hc)
    rw [(scanTcaView_fields s.hw (m, c) _).2.1] at h
    simp only [scanView] at h
    rw [← h]
    simp
  refine ⟨s1, hscan, hfr.1, hfr.2.1, ?_, ?_, ?_, ?_, ?_, ?_⟩
  · intro m hm
    have h := congrArg ScanView.mux (hview m 0 hm (by decide))
    rw [(scanTcaView_fields s.hw (m, 0) _).1] at h
    simp only [scanView, muxPresent, hinit, bitRead_zero] at h
    simp only [muxPresent]
    constructor
    · intro hp
      simpa [hp] using h
    · intro hr
      simpa [hr] using h
  · intro m c hm hc
    rw [hslot m c hm hc]
    simp [deviceAt]
  · intro m c hm hc hd
    have hdev := (hslot m c hm hc).mp hd
    have h := hview m c hm hc
    have ht := congrArg ScanView.timeout h
    have hl := congrArg ScanView.last h
    have hdr := congrArg ScanView.driver h
    rw [(scanTcaView_fields s.hw (m, c) _).2.2.1] at ht
    rw [(scanTcaView_fields s.hw (m, c) _).2.2.2.1] at hl
    rw [(scanTcaView_fields s.hw (m, c) _).2.2.2.2] at hdr
    simp only [scanView, hdev, if_true] at ht hl hdr
    exact ⟨ht, hl, hdr⟩
  · intro m c hm hc hd
    have hdev : deviceAt s.hw m c = false := by
      cases hx : deviceAt s.hw m c
      · rfl
      · exact absurd ((hslot m c hm hc).mpr hx) hd
    have h := hview m c hm hc
    have ht := congrArg ScanView.timeout h
    have hl := congrArg ScanView.last h
    have hdr := congrArg ScanView.driver h
    rw [(scanTcaView_fields s.hw (m, c) _).2.2.1] at ht
    rw [(scanTcaView_fields s.hw (m, c) _).2.2.2.1] at hl
    rw [(scanTcaView_fields s.hw (m, c) _).2.2.2.2] at hdr
    simp only [scanView, hdev, Bool.false_eq_true, if_false] at ht hl hdr
    exact ⟨ht, hl, hdr⟩
  · rw [hcount]
    congr 1
    apply List.filter_congr
    intro j hj
    obtain ⟨h1, h2⟩ := (mem_allSlots j).mp hj
    have := hslot j.1 j.2 h1 h2
    cases hx : deviceAt s.hw j.1 j.2
    · have hn : ¬ slotDetected s1 j.1 j.2 := fun hd => by
        rw [this.mp hd] at hx; exact Bool.noConfusion hx
      simp [hn]
    · have hy : slotDetected s1 j.1 j.2 := this.mpr hx
      simp [hy]
  · rw [hcount, ← allSlots_length]
    exact List.length_filter_le _ _

theorem found_count_zero_iff (s : State)
    (hmux : ∀ m c, m < 8 → c < 8 → slotDetected s m c → muxPresent s m)
    (hcount : s.core.fansFound =
      (allSlots.filter (fun j => decide (slotDetected s j.1 j.2))).length) :
    s.core.fansFound = 0 ↔ ∀ i : Int, ¬ validFan s i := by
  rw [hcount, List.length_eq_zero, List.filter_eq_nil_iff]
  constructor
  · intro h i hv
    obtain ⟨h1, h2, _, hd⟩ := hv
    have hlt : fanTca i.toNat < 8 := fanTca_lt _ (by omega)
    have := h (fanTca i.toNat, fanEmc i.toNat) ((mem_allSlots _).mpr ⟨hlt, fanEmc_lt _⟩)
    simp only [decide_eq_true_eq] at this
    exact this hd
  · intro h j hj
    obtain ⟨h1, h2⟩ := (mem_allSlots j).mp hj
    simp only [decide_eq_true_eq]
    intro hd
    have hidx : fanIndex j.1 j.2 = j.1 * 8 + j.2 + 1 := fanIndex_eq j.1 j.2 h1 h2
    have htca : fanTca (j.1 * 8 + j.2 + 1) = j.1 := by
      simp only [fanTca, u8, EMC_COUNT_eq]; omega
    have hemc : fanEmc (j.1 * 8 + j.2 + 1) = j.2 := by
      simp only [fanEmc, u8, EMC_COUNT_eq]; omega
    refine h ((j.1 * 8 + j.2 + 1 : Nat) : Int) ⟨by omega, by omega, ?_, ?_⟩
    · simp only [Int.toNat_ofNat, htca]
      exact hmux j.1 j.2 h1 h2 hd
    · simp only [Int.toNat_ofNat, htca, hemc]
      exact hd

theorem applyFanConfig_found (json : FanConfig) (fan : Nat) (s s1 : State)
    (h : applyFanConfig json fan s = some s1) : s1.core.fansFound = s.core.fansFound := by
  unfold applyFanConfig at h
  by_cases hlen : fan < s.core.externalTempTimeout_ms.length <;>
    cases ht : json.externalTemperatureTimeoutSeconds <;>
    cases hl : json.fanSpeedThresholds <;>
    simp only [ht, hl, writeAt, hlen, if_true, if_false, Option.map_some', Option.map_none',
      Option.some.injEq] at h <;>
    first
      | (rw [← h])
      | exact absurd h (by simp)

theorem applyExternalTemperature_found (clock : Nat) (json : FanCommand) (fan : Nat)
    (s s1 : State) (h : applyExternalTemperature clock json fan s = some s1) :
    s1.core.fansFound = s.core.fansFound := by
  unfold applyExternalTemperature at h
  by_cases hlen : fan < s.core.lastExternalTemp.length <;>
    cases ht : json.externalTemperature <;>
    simp only [ht, writeAt, hlen, if_true, if_false, Option.some.injEq] at h <;>
    first
      | (rw [← h])
      | exact absurd h (by simp)

theorem jsonFanConfig_found (json : FanConfig) (s s1 : State)
    (h : jsonFanConfig json s = some s1) : s1.found = s.found := by
  obtain ⟨hm1, hm2⟩ := jsonFanConfig_masks json s s1 h
  have hc : (getFan json.fan s).2.core = s.core := ((obs_eq_iff _ _).mp (getFan_obs _ _)).1
  have hf : s1.core.fansFound = s.core.fansFound := by
    unfold jsonFanConfig at h
    split_ifs at h
    · rw [← Option.some.inj h, hc]
    · cases hsel : selectEMC (fanTca (getFan json.fan s).1) (fanEmc (getFan json.fan s).1)
          (getFan json.fan s).2.hw with
      | mk ok hw =>
        rw [hsel] at h
        cases ok with
        | false =>
          simp only [Option.some.injEq] at h
          rw [← h]; simp only [hc]
        | true =>
          have hm := applyFanConfig_found _ _ _ _ h
          simp only [hc] at hm
          exact hm
  simp only [State.found, hm1, hm2, hf]

theorem jsonFanCommand_found (clock : Nat) (json : FanCommand) (s s1 : State)
    (h : jsonFanCommand clock json s = some s1) : s1.found = s.found := by
  obtain ⟨hm1, hm2⟩ := jsonFanCommand_masks clock json s s1 h
  have hc : (getFan json.fan s).2.core = s.core := ((obs_eq_iff _ _).mp (getFan_obs _ _)).1
  have hf : s1.core.fansFound = s.core.fansFound := by
    unfold jsonFanCommand at h
    split_ifs at h
    · rw [← Option.some.inj h, hc]
    · cases hsel : selectEMC (fanTca (getFan json.fan s).1) (fanEmc (getFan json.fan s).1)
          (getFan json.fan s).2.hw with
      | mk ok hw =>
        rw [hsel] at h
        cases ok with
        | false =>
          simp only [Option.some.injEq] at h
          rw [← h]; simp only [hc]
        | true =>
          have hm := applyExternalTemperature_found _ _ _ _ _ h
          simp only [hc] at hm
          exact hm
  simp only [State.found, hm1, hm2, hf]

/-- C14 (code bug): the block of discovery that gives a found fan its defaults, run
for the last slot `(7, 7)`, computes fan 64 and writes `_externalTempTimeout_ms[64]`
and `_lastExternalTemp[64]` in arrays of 64 elements: neither write is within
bounds, and the block has no result. -/
theorem scanFound_last_fan_out_of_bounds :
    fanIndex 7 7 = 64 ∧ lastFanBus.core.externalTempTimeout_ms.length = 64 ∧
      (writeAt lastFanBus.core.externalTempTimeout_ms (fanIndex 7 7)
        DEFAULT_EXTERNAL_TEMP_TIMEOUT_MS).isNone = true ∧
      (writeAt lastFanBus.core.lastExternalTemp (fanIndex 7 7) 0).isNone = true ∧
      (scanFound 7 7 lastFanBus).isNone = true := by
  decide

/-- C18 (code bug): fan 64 is produced by the address mapping (slot `(7, 7)`) and
accepted by the validator, and the library uses the fan number itself as the
index into the two arrays of 64 elements: index 64 is not below 64, and a config
entry with a timeout and a command entry with an external temperature for fan 64
have no result. -/
theorem fan_index_out_of_bounds :
    fanIndex 7 7 = 64 ∧ (getFan (some 64) lastFanState).1 = 64 ∧
      lastFanState.core.externalTempTimeout_ms.length = 64 ∧
      lastFanState.core.lastExternalTemp.length = 64 ∧
      lastFanState.core.externalTempTimeout_ms[(getFan (some 64) lastFanState).1]? = none ∧
      (jsonFanConfig ⟨some 64, some 30, none⟩ lastFanState).isNone = true ∧
      (jsonFanCommand 5 ⟨some 64, none, some 45⟩ lastFanState).isNone = true := by
  decide

theorem discovery_sample :
    (begin sampleBus).map (fun s => (s.core.tcasFound, s.core.emcsFound 0, s.core.fansFound)) =
        some (1, 5, 2) ∧
      (begin sampleBus).map (fun s => (s.core.externalTempTimeout_ms[1]?,
        s.core.externalTempTimeout_ms[3]?, (s.hw.emc 0 2).lut 2)) =
        some (some 90000, some 90000, (50, 100)) := by
  decide

theorem discovery_result_witness :
    ∃ s1, begin sampleBus = some s1 ∧ s1.core.WellSized ∧
      s1.hw.tcaResponds = sampleBus.hw.tcaResponds ∧
      (∀ m, m < 8 → (muxPresent s1 m ↔ sampleBus.hw.tcaResponds (tcaAddress m) = true)) ∧
      (∀ m c, m < 8 → c < 8 → (slotDetected s1 m c ↔
        (sampleBus.hw.tcaResponds (tcaAddress m) = true ∧
          (sampleBus.hw.emc m c).responds = true))) ∧
      (∀ m c, m < 8 → c < 8 → slotDetected s1 m c →
        s1.core.externalTempTimeout_ms[fanIndex m c]? = some DEFAULT_EXTERNAL_TEMP_TIMEOUT_MS ∧
        s1.core.lastExternalTemp[fanIndex m c]? = some 0 ∧
        s1.hw.emc m c = defaultCurve (sampleBus.hw.emc m c)) ∧
      (∀ m c, m < 8 → c < 8 → ¬ slotDetected s1 m c →
        s1.core.externalTempTimeout_ms[fanIndex m c]? =
          sampleBus.core.externalTempTimeout_ms[fanIndex m c]? ∧
        s1.core.lastExternalTemp[fanIndex m c]? =
          sampleBus.core.lastExternalTemp[fanIndex m c]? ∧
        s1.hw.emc m c = sampleBus.hw.emc m c) ∧
      s1.core.fansFound = (allSlots.filter (fun j => decide (slotDetected s1 j.1 j.2))).length ∧
      s1.core.fansFound ≤ 64 :=
  discovery_result sampleBus (by decide) (by decide) (by decide)

/-- The index the library uses for fan `fan` is the fan number itself: for a fan
in 1..64 it is within the 64-element arrays iff the fan is not fan 64. -/
theorem fan_index_in_bounds_iff (s : State) (hsz : s.core.WellSized) (fan : Nat)
    (h2 : fan ≤ 64) :
    (fan < s.core.externalTempTimeout_ms.length ∧ fan < s.core.lastExternalTemp.length) ↔
      fan ≠ 64 := by
  rw [hsz.1, hsz.2, TCA_COUNT_eq, EMC_COUNT_eq]
  omega

/-- The found-count after discovery on a bus on which the last slot holds no fan
controller, from the initial state: it is the number of detected slots, at most
64; every detected slot belongs to a mux marked present; and it is 0 iff no fan
index passes the validator. -/
theorem found_count_after_discovery (s : State) (hsz : s.core.WellSized)
    (hinit : s.core.tcasFound = 0)
    (h64 : ¬ (s.hw.tcaResponds (tcaAddress 7) = true ∧ (s.hw.emc 7 7).responds = true)) :
    ∃ s1, begin s = some s1 ∧
      s1.core.fansFound = (allSlots.filter (fun j => decide (slotDetected s1 j.1 j.2))).length ∧
      s1.core.fansFound ≤ 64 ∧
      (∀ m c, m < 8 → c < 8 → slotDetected s1 m c → muxPresent s1 m) ∧
      (s1.core.fansFound = 0 ↔ ∀ i : Int, ¬ validFan s1 i) ∧
      InBounds s1 := by
  obtain ⟨s1, hb, hsz1, _, hmux, hslot, _, _, hcount, hle⟩ := discovery_result s hsz hinit h64
  have hdm : ∀ m c, m < 8 → c < 8 → slotDetected s1 m c → muxPresent s1 m :=
    fun m c hm hc hd => (hmux m hm).mpr ((hslot m c hm hc).mp hd).1
  refine ⟨s1, hb, hcount, hle, hdm, found_count_zero_iff s1 hdm hcount, hsz1, ?_⟩
  rintro ⟨_, hd⟩
  exact h64 ((hslot 7 7 (by decide) (by decide)).mp hd)

theorem found_count_after_discovery_witness :
    ∃ s1, begin sampleBus = some s1 ∧
      s1.core.fansFound = (allSlots.filter (fun j => decide (slotDetected s1 j.1 j.2))).length ∧
      s1.core.fansFound ≤ 64 ∧
      (∀ m c, m < 8 → c < 8 → slotDetected s1 m c → muxPresent s1 m) ∧
      (s1.core.fansFound = 0 ↔ ∀ i : Int, ¬ validFan s1 i) ∧
      InBounds s1 :=
  found_count_after_discovery sampleBus (by decide) (by decide) (by decide)

/-! ### Operations that can fail: every result, and when there is one -/

theorem forEach_append {ι : Type} (body : ι → State → Option State) (l1 l2 : List ι) (s : State) :
    forEach (l1 ++ l2) body s = (forEach l1 body s).bind (forEach l2 body) := by
  induction l1 generalizing s with
  | nil => rfl
  | cons a l ih =>
    simp only [List.cons_append, forEach]
    cases body a s with
    | none => rfl
    | some s1 => exact ih s1

theorem applyDutyCycle_tcaControl (json : FanCommand) (tca : Nat) (hw : Hardware) :
    (applyDutyCycle json tca hw).tcaControl = hw.tcaControl := by
  unfold applyDutyCycle
  split
  · simp only [setDutyCycle, LUTEnabled, onSelected_tcaControl]
  · rfl

theorem applyDutyCycle_driver (json : FanCommand) (d : Int) (hw : Hardware) (tca emc : Nat)
    (he : emc < 8) (hduty : json.dutyCycle = some d) (hd0 : 0 ≤ d) (hd1 : d ≤ 100) :
    (applyDutyCycle json tca (hw.select tca emc)).emc tca emc =
      { hw.emc tca emc with lutEnabled := decide (d = 0), dutyCycle := d.toNat } := by
  have hsel := select_selected hw tca emc he
  have hu : asU8 (some d) = d.toNat := by simp [asU8]; omega
  have hz : (d.toNat = 0) ↔ d = 0 := by omega
  simp only [applyDutyCycle, hduty, setDutyCycle, LUTEnabled, hu]
  rw [onSelected_emc _ _ _ _ (by rw [onSelected_tcaControl]; exact hsel),
    onSelected_emc _ _ _ _ hsel]
  simp only [and_self, if_true, decide_eq_decide.mpr hz]
  rfl

/-- What a command entry with a `dutyCycle` member in 0..100 leaves on the
controller of its fan, whenever `jsonFanCommand` returns: curve mode enabled iff
the value is 0, and the duty cycle given. -/
theorem jsonFanCommand_dutyCycle (clock : Nat) (json : FanCommand) (i d : Int) (s : State)
    (hfan : json.fan = some i) (hduty : json.dutyCycle = some d) (hv : validFan s i)
    (hd0 : 0 ≤ d) (hd1 : d ≤ 100) (s1 : State) (h : jsonFanCommand clock json s = some s1) :
    ((s1.fanDriver i.toNat).lutEnabled = true ↔ d = 0) ∧
      ((s1.fanDriver i.toNat).dutyCycle : Int) = d := by
  have hsel := select_selected s.hw (fanTca i.toNat) (fanEmc i.toNat) (fanEmc_lt _)
  have hdrv := applyDutyCycle_driver json d s.hw (fanTca i.toNat) (fanEmc i.toNat) (fanEmc_lt _)
    hduty hd0 hd1
  have hctl := applyDutyCycle_tcaControl json (fanTca i.toNat)
    (s.hw.select (fanTca i.toNat) (fanEmc i.toNat))
  rw [jsonFanCommand_valid clock json i s hfan hv] at h
  unfold applyExternalTemperature at h
  cases hext : json.externalTemperature with
  | none =>
    rw [hext] at h
    simp only [Option.some.injEq] at h
    rw [← h]
    simp only [State.fanDriver, hdrv, decide_eq_true_eq]
    exact ⟨trivial, by omega⟩
  | some v =>
    rw [hext] at h
    simp only [writeAt] at h
    split_ifs at h with hlen
    simp only [Option.some.injEq] at h
    rw [← h]
    simp only [State.fanDriver, setForcedTemperature, enableForcedTemperature]
    rw [onSelected_emc _ _ _ _ (by rw [onSelected_tcaControl, hctl]; exact hsel),
      onSelected_emc _ _ _ _ (by rw [hctl]; exact hsel)]
    simp only [and_self, if_true, hdrv, decide_eq_true_eq]
    exact ⟨trivial, by omega⟩

theorem jsonFanCommand_safe (clock : Nat) (json : FanCommand) (i : Int) (s : State)
    (hfan : json.fan = some i) (hv : validFan s i)
    (hb : json.externalTemperature = none ∨ (s.core.WellSized ∧ i ≠ 64)) :
    ∃ s1, jsonFanCommand clock json s = some s1 := by
  rw [jsonFanCommand_valid clock json i s hfan hv]
  unfold applyExternalTemperature
  cases hext : json.externalTemperature with
  | none => exact ⟨_, rfl⟩
  | some v =>
    rcases hb with hb | ⟨hsz, h64⟩
    · rw [hext] at hb; simp at hb
    · have h2 := (getFan_valid i s hv).2.2
      have hlen : i.toNat < s.core.lastExternalTemp.length := by
        rw [hsz.2, TCA_COUNT_eq, EMC_COUNT_eq]; omega
      simp only [writeAt, hlen, if_true]
      exact ⟨_, rfl⟩

/-- C8: a command entry on a valid fan that carries `dutyCycle = d`, with `d` in
0..100, with or without an `externalTemperature` member. In every result of
`jsonFanCommand` the curve mode of that fan is enabled iff `d = 0` and the duty
cycle given to its driver is `d`: `d = 0` leaves curve mode enabled, `d` in 1..100
(100 included) leaves it disabled with duty `d`. The entry has a result when it
carries no `externalTemperature`, on every valid fan; and, with that member, on
every valid fan other than fan 64, whose timestamp slot is past the end of the
array. -/
theorem dutyCycle_command (clock : Nat) (json : FanCommand) (i d : Int) (s : State)
    (hfan : json.fan = some i) (hduty : json.dutyCycle = some d) (hv : validFan s i)
    (hd0 : 0 ≤ d) (hd1 : d ≤ 100) :
    ((json.externalTemperature = none ∨ (s.core.WellSized ∧ i ≠ 64)) →
        ∃ s1, jsonFanCommand clock json s = some s1) ∧
      ∀ s1, jsonFanCommand clock json s = some s1 →
        ((s1.fanDriver i.toNat).lutEnabled = true ↔ d = 0) ∧
        ((s1.fanDriver i.toNat).dutyCycle : Int) = d :=
  ⟨jsonFanCommand_safe clock json i s hfan hv,
    jsonFanCommand_dutyCycle clock json i d s hfan hduty hv hd0 hd1⟩

theorem dutyCycle_command_witness :
    (∃ s1, jsonFanCommand 7 ⟨some 1, some 100, some 45⟩ sampleState = some s1 ∧
        ((s1.fanDriver (1 : Int).toNat).lutEnabled = true ↔ (100 : Int) = 0) ∧
        ((s1.fanDriver (1 : Int).toNat).dutyCycle : Int) = 100) ∧
      (∃ s1, jsonFanCommand 7 ⟨some 64, some 0, none⟩ lastFanState = some s1 ∧
        ((s1.fanDriver (64 : Int).toNat).lutEnabled = true ↔ (0 : Int) = 0) ∧
        ((s1.fanDriver (64 : Int).toNat).dutyCycle : Int) = 0) := by
  have h := dutyCycle_command 7 ⟨some 1, some 100, some 45⟩ 1 100 sampleState rfl rfl (by decide)
    (by decide) (by decide)
  have k := dutyCycle_command 7 ⟨some 64, some 0, none⟩ 64 0 lastFanState rfl rfl (by decide)
    (by decide) (by decide)
  obtain ⟨s1, h1⟩ := h.1 (Or.inr ⟨by decide, by decide⟩)
  obtain ⟨s2, k1⟩ := k.1 (Or.inl rfl)
  exact ⟨⟨s1, h1, h.2 s1 h1⟩, ⟨s2, k1, k.2 s2 k1⟩⟩

theorem jsonFanConfig_safe (json : FanConfig) (i : Int) (s : State)
    (hfan : json.fan = some i) (hv : validFan s i)
    (hb : json.externalTemperatureTimeoutSeconds = none ∨ (s.core.WellSized ∧ i ≠ 64)) :
    ∃ s1, jsonFanConfig json s = some s1 := by
  rw [jsonFanConfig_valid json i s hfan hv]
  unfold applyFanConfig
  cases hto : json.externalTemperatureTimeoutSeconds with
  | none => cases json.fanSpeedThresholds <;> exact ⟨_, rfl⟩
  | some v =>
    rcases hb with hb | ⟨hsz, h64⟩
    · rw [hto] at hb; simp at hb
    · have h2 := (getFan_valid i s hv).2.2
      have hlen : i.toNat < s.core.externalTempTimeout_ms.length := by
        rw [hsz.1, TCA_COUNT_eq, EMC_COUNT_eq]; omega
      simp only [writeAt, hlen, if_true, Option.map_some']
      cases json.fanSpeedThresholds <;> exact ⟨_, rfl⟩

/-- What `jsonFanConfig` leaves in the state for an entry on a valid fan, whenever
it returns: the timeout slot of the fan holds the value of the timeout member, if
there is one, and nothing else of the members changed; the hardware is the one
after the channel selection and the `setLUT` calls of the loop over
`fanSpeedThresholds`, if there is one. -/
theorem jsonFanConfig_result (json : FanConfig) (i : Int) (s : State)
    (hfan : json.fan = some i) (hv : validFan s i) (s1 : State)
    (h : jsonFanConfig json s = some s1) :
    s1.core =
        (match json.externalTemperatureTimeoutSeconds with
          | some v =>
            { s.core with
              externalTempTimeout_ms := s.core.externalTempTimeout_ms.set i.toNat (asU8 (some v)) }
          | none => s.core) ∧
      s1.hw =
        (match json.fanSpeedThresholds with
          | some array =>
            setThresholds (fanTca i.toNat) array 0 (s.hw.select (fanTca i.toNat) (fanEmc i.toNat))
          | none => s.hw.select (fanTca i.toNat) (fanEmc i.toNat)) := by
  rw [jsonFanConfig_valid json i s hfan hv] at h
  unfold applyFanConfig at h
  cases hto : json.externalTemperatureTimeoutSeconds with
  | none =>
    rw [hto] at h
    cases hthr : json.fanSpeedThresholds with
    | none =>
      rw [hthr] at h
      simp only [Option.some.injEq] at h
      rw [← h]; exact ⟨rfl, rfl⟩
    | some array =>
      rw [hthr] at h
      simp only [Option.some.injEq] at h
      rw [← h]; exact ⟨rfl, rfl⟩
  | some v =>
    rw [hto] at h
    simp only [writeAt] at h
    split_ifs at h with hlen
    · simp only [Option.map_some'] at h
      cases hthr : json.fanSpeedThresholds with
      | none =>
        rw [hthr] at h
        simp only [Option.some.injEq] at h
        rw [← h]; exact ⟨rfl, rfl⟩
      | some array =>
        rw [hthr] at h
        simp only [Option.some.injEq] at h
        rw [← h]; exact ⟨rfl, rfl⟩
    · simp at h

/-- C17: a config entry on a valid fan with a `fanSpeedThresholds` array of `n`
points, `1 ≤ n ≤ 8`, with temperatures in 0..126 and duty cycles in 0..100, in any
order and with repetitions allowed, with or without a timeout member. In every
result of `jsonFanConfig` the driver has received, after the channel selection,
exactly the calls `setLUT(i, temperature_i, dutyCycle_i)` for `i = 0, .., n - 1` in
that order: curve slot `i` of the fan holds point `i` for `i < n`, and every slot
from `n` on (slots `n..7` and any index of 8 or more) keeps its previous contents;
without a timeout member the members of the object are unchanged. The entry has a
result when it carries no timeout member, on every valid fan; and, with that
member, on every valid fan other than fan 64, whose timeout slot is past the end of
the array. -/
theorem thresholds_in_array_order (json : FanConfig) (i : Int) (points : List (Nat × Nat))
    (s : State) (hv : validFan s i) (hfan : json.fan = some i)
    (hthr : json.fanSpeedThresholds = some (thresholdsOf points))
    (hn1 : 1 ≤ points.length) (hn8 : points.length ≤ 8)
    (hrange : ∀ p ∈ points, p.1 ≤ 126 ∧ p.2 ≤ 100) :
    ((json.externalTemperatureTimeoutSeconds = none ∨ (s.core.WellSized ∧ i ≠ 64)) →
        ∃ s1, jsonFanConfig json s = some s1) ∧
      ∀ s1, jsonFanConfig json s = some s1 →
        s1.hw = setLUTCalls (fanTca i.toNat) 0 points
          (s.hw.select (fanTca i.toNat) (fanEmc i.toNat)) ∧
        (∀ k p, points[k]? = some p → (s1.fanDriver i.toNat).lut k = p) ∧
        (∀ k, points.length ≤ k →
          (s1.fanDriver i.toNat).lut k = (s.fanDriver i.toNat).lut k) ∧
        (json.externalTemperatureTimeoutSeconds = none → s1.core = s.core) := by
  refine ⟨jsonFanConfig_safe json i s hfan hv, ?_⟩
  intro s1 h
  have hsel := select_selected s.hw (fanTca i.toNat) (fanEmc i.toNat) (fanEmc_lt _)
  have hcalls := setThresholds_eq_calls (fanTca i.toNat) points 0
    (s.hw.select (fanTca i.toNat) (fanEmc i.toNat)) (by omega)
    (fun p hp => ⟨by have := (hrange p hp).1; omega, by have := (hrange p hp).2; omega⟩)
  obtain ⟨h1, h2⟩ := setLUTCalls_lut (fanTca i.toNat) (fanEmc i.toNat) points 0
    (s.hw.select (fanTca i.toNat) (fanEmc i.toNat)) hsel
  obtain ⟨hcore, hhw⟩ := jsonFanConfig_result json i s hfan hv s1 h
  simp only [hthr, hcalls] at hhw
  refine ⟨hhw, ?_, ?_, ?_⟩
  · intro k p hp
    simp only [State.fanDriver, hhw]
    exact h1 k p (Nat.zero_le k) (by simpa using hp)
  · intro k hk
    simp only [State.fanDriver, hhw]
    rw [h2 k (Or.inr (by omega))]
    rfl
  · intro hto
    rw [hcore, hto]

theorem thresholds_in_array_order_witness :
    ∃ s1, jsonFanConfig ⟨some 3, some 30, some (thresholdsOf [(50, 100), (20, 10), (50, 30)])⟩
        sampleState = some s1 ∧
      s1.hw = setLUTCalls (fanTca (3 : Int).toNat) 0 [(50, 100), (20, 10), (50, 30)]
        (sampleState.hw.select (fanTca (3 : Int).toNat) (fanEmc (3 : Int).toNat)) ∧
      (∀ k p, [(50, 100), (20, 10), (50, 30)][k]? = some p →
        (s1.fanDriver (3 : Int).toNat).lut k = p) ∧
      (∀ k, [(50, 100), (20, 10), (50, 30)].length ≤ k →
        (s1.fanDriver (3 : Int).toNat).lut k = (sampleState.fanDriver (3 : Int).toNat).lut k) := by
  have h := thresholds_in_array_order
    ⟨some 3, some 30, some (thresholdsOf [(50, 100), (20, 10), (50, 30)])⟩
    3 [(50, 100), (20, 10), (50, 30)] sampleState (by decide) rfl rfl (by decide)
    (by decide) (by decide)
  obtain ⟨s1, h1⟩ := h.1 (Or.inr ⟨by decide, by decide⟩)
  exact ⟨s1, h1, (h.2 s1 h1).1, (h.2 s1 h1).2.1, (h.2 s1 h1).2.2.1⟩

/-- C12: the rate limit of `getTelemetry`, for every state, clock value and
document. If fans were found, the interval is not 0 and the 32-bit difference
`millis() - _lastPublishTelemetry` exceeds the interval, the call writes the
snapshot and sets `_lastPublishTelemetry` to the clock reading, changing no other
member; in every other case it returns the state and the document as they were,
so the timer is reset on a sample only. In particular with an interval of 0, and
with a found-count of 0, every call returns them as they were. And when a call at
`t1` samples, a call at `t2 ≥ t1` with `t2 - t1` below the interval, on the state
the first call returned, returns the state and its document as they were: of the
two calls at most one writes a snapshot. -/
theorem telemetry_rate_limit (clock t1 t2 : Nat) (json json2 : Json) (s : State) :
    ((s.core.fansFound ≠ 0 ∧ s.core.publishTelemetry_ms ≠ 0 ∧
        sub32 (millis clock) s.core.lastPublishTelemetry > s.core.publishTelemetry_ms) →
      (getTelemetry clock json s).2 = Json.arr (snapshot s) ∧
      (getTelemetry clock json s).1.core =
        { s.core with lastPublishTelemetry := millis clock }) ∧
      (¬ (s.core.fansFound ≠ 0 ∧ s.core.publishTelemetry_ms ≠ 0 ∧
          sub32 (millis clock) s.core.lastPublishTelemetry > s.core.publishTelemetry_ms) →
        getTelemetry clock json s = (s, json)) ∧
      (s.core.publishTelemetry_ms = 0 → getTelemetry clock json s = (s, json)) ∧
      (s.core.fansFound = 0 → getTelemetry clock json s = (s, json)) ∧
      (t1 ≤ t2 → t2 - t1 < s.core.publishTelemetry_ms →
        (s.core.fansFound ≠ 0 ∧ s.core.publishTelemetry_ms ≠ 0 ∧
          sub32 (millis t1) s.core.lastPublishTelemetry > s.core.publishTelemetry_ms) →
        getTelemetry t2 json2 (getTelemetry t1 json s).1 = ((getTelemetry t1 json s).1, json2)) := by
  refine ⟨fun h => ⟨(getTelemetry_fires clock json s h).1, (getTelemetry_fires clock json s h).2.1⟩,
    getTelemetry_skips clock json s, ?_, ?_, ?_⟩
  · intro h0
    exact getTelemetry_skips clock json s (fun h => h.2.1 h0)
  · intro h0
    exact getTelemetry_skips clock json s (fun h => h.1 h0)
  · intro h12 hlt hf1
    apply getTelemetry_skips
    rintro ⟨_, _, hgt⟩
    rw [(getTelemetry_fires t1 json s hf1).2.1] at hgt
    simp only [sub32, millis, u32] at hgt
    omega

theorem telemetry_rate_limit_witness :
    (getTelemetry 60001 Json.null telemetryState).2 = Json.arr (snapshot telemetryState) ∧
      (getTelemetry 60001 Json.null telemetryState).1.core =
        { telemetryState.core with lastPublishTelemetry := millis 60001 } ∧
      getTelemetry 120000 Json.null (getTelemetry 60001 Json.null telemetryState).1 =
        ((getTelemetry 60001 Json.null telemetryState).1, Json.null) ∧
      getTelemetry 60000 Json.null telemetryState = (telemetryState, Json.null) ∧
      getTelemetry 60001 Json.null telemetryOffState = (telemetryOffState, Json.null) :=
  ⟨((telemetry_rate_limit 60001 60001 120000 Json.null Json.null telemetryState).1
      (by decide)).1,
    ((telemetry_rate_limit 60001 60001 120000 Json.null Json.null telemetryState).1
      (by decide)).2,
    (telemetry_rate_limit 60001 60001 120000 Json.null Json.null telemetryState).2.2.2.2
      (by decide) (by decide) (by decide),
    (telemetry_rate_limit 60000 60001 120000 Json.null Json.null telemetryState).2.1
      (by decide),
    (telemetry_rate_limit 60001 60001 120000 Json.null Json.null telemetryOffState).2.2.1
      (by decide)⟩

theorem validFan_congr (s t : State) (i : Int) (h : t.found = s.found) (hv : validFan s i) :
    validFan t i := by
  have h1 : t.core.tcasFound = s.core.tcasFound := congrArg (fun f => f.1) h
  have h2 : t.core.emcsFound = s.core.emcsFound := congrArg (fun f => f.2.1) h
  simp only [validFan, muxPresent, slotDetected, h1, h2]
  exact hv

/-- A batch of commands whose last entry is on a valid fan, in a state in which
every array access is within bounds: the batch returns, and it is the last entry
applied to the state the entries before it returned, which has the presence masks
and the found-count of the initial state. -/
theorem commands_then_last (clock : Nat) (s : State) (hb : InBounds s) (pre : List FanCommand)
    (e : FanCommand) :
    ∃ t s1, forEach pre (jsonFanCommand clock) s = some t ∧ InBounds t ∧ t.found = s.found ∧
      jsonFanCommand clock e t = some s1 ∧
      forEach (pre ++ [e]) (jsonFanCommand clock) s = some s1 := by
  obtain ⟨t, ht, hbt, hft⟩ := forEach_returns (jsonFanCommand clock)
    (fun x => InBounds x ∧ x.found = s.found)
    (fun a x hx => by
      obtain ⟨x1, k1, k2⟩ := jsonFanCommand_returns clock a x hx.1
      exact ⟨x1, k1, k2, (jsonFanCommand_found clock a x x1 k1).trans hx.2⟩)
    pre s ⟨hb, rfl⟩
  obtain ⟨s1, h1, _⟩ := jsonFanCommand_returns clock e t hbt
  refine ⟨t, s1, ht, hbt, hft, h1, ?_⟩
  rw [forEach_append, ht, Option.some_bind]
  simp only [forEach, h1]

theorem configs_then_last (s : State) (hb : InBounds s) (pre : List FanConfig) (e : FanConfig) :
    ∃ t s1, forEach pre jsonFanConfig s = some t ∧ InBounds t ∧ t.found = s.found ∧
      jsonFanConfig e t = some s1 ∧ forEach (pre ++ [e]) jsonFanConfig s = some s1 := by
  obtain ⟨t, ht, hbt, hft⟩ := forEach_returns jsonFanConfig
    (fun x => InBounds x ∧ x.found = s.found)
    (fun a x hx => by
      obtain ⟨x1, k1, k2⟩ := jsonFanConfig_returns a x hx.1
      exact ⟨x1, k1, k2, (jsonFanConfig_found a x x1 k1).trans hx.2⟩)
    pre s ⟨hb, rfl⟩
  obtain ⟨s1, h1, _⟩ := jsonFanConfig_returns e t hbt
  refine ⟨t, s1, ht, hbt, hft, h1, ?_⟩
  rw [forEach_append, ht, Option.some_bind]
  simp only [forEach, h1]

/-- With a found-count other than 0, `onConfig` on a document with a `fans` array
is the loop over the array, run from a state that differs from the initial one in
the publish interval at most. -/
theorem onConfig_fans (publish : Option Int) (fans : List FanConfig) (s : State)
    (hfans : s.core.fansFound ≠ 0) :
    ∃ s0, onConfig ⟨publish, some fans⟩ s = forEach fans jsonFanConfig s0 ∧
      s0.found = s.found ∧ (InBounds s → InBounds s0) := by
  cases publish with
  | none => exact ⟨s, by simp only [onConfig, hfans, if_false], rfl, id⟩
  | some v =>
    exact ⟨{ s with core := { s.core with publishTelemetry_ms := u32 (asU32 (some v) * 1000) } },
      by simp only [onConfig, hfans, if_false], rfl, id⟩

/-- C9: a config or command entry whose member `fan` fails the validator (missing,
out of range, mux not found, device not found) returns with the core state and
the driver state unchanged; a batch gives the same core state and driver state as
the batch with the failing entries removed, for `onConfig` and for `onCommand`; and
the entries after a failing one are applied: in a state with a found-count other
than 0 in which every array access is within bounds (fan 64 not discovered), a
batch of any entries, then the failing entry, then an entry on a valid fan,
returns, and the last entry has taken effect: for a command with `dutyCycle = d` in
0..100 the controller of the fan has duty cycle `d` and curve mode enabled iff
`d = 0`; for a config with a timeout member the timeout slot of the fan holds the
value the entry stores, and with `fanSpeedThresholds` the curve slots of the fan
hold the points. -/
theorem invalid_entries_skipped (clock : Nat) (s : State) (config : FanConfig)
    (command : FanCommand) (publish : Option Int) (configs : List FanConfig)
    (commands : List FanCommand) (hconfig : passes s config.fan = false)
    (hcommand : passes s command.fan = false) :
    (∃ s1, jsonFanConfig config s = some s1 ∧ s1.core = s.core ∧ s1.hw = s.hw) ∧
      (∃ s1, jsonFanCommand clock command s = some s1 ∧ s1.core = s.core ∧ s1.hw = s.hw) ∧
      (onConfig ⟨publish, some configs⟩ s).map State.obs =
        (onConfig ⟨publish, some (configs.filter (fun e => passes s e.fan))⟩ s).map State.obs ∧
      (onCommand clock ⟨some commands⟩ s).map State.obs =
        (onCommand clock ⟨some (commands.filter (fun e => passes s e.fan))⟩ s).map State.obs ∧
      (InBounds s → (onConfig ⟨publish, some configs⟩ s).isSome = true ∧
        (onCommand clock ⟨some commands⟩ s).isSome = true) ∧
      (InBounds s → s.core.fansFound ≠ 0 →
        ∀ (e : FanCommand) (i d : Int), e.fan = some i → validFan s i → e.dutyCycle = some d →
          0 ≤ d → d ≤ 100 →
          ∃ s1, onCommand clock ⟨some (commands ++ [command, e])⟩ s = some s1 ∧
            ((s1.fanDriver i.toNat).lutEnabled = true ↔ d = 0) ∧
            ((s1.fanDriver i.toNat).dutyCycle : Int) = d) ∧
      (InBounds s → s.core.fansFound ≠ 0 →
        ∀ (e : FanConfig) (i : Int), e.fan = some i → validFan s i →
          ∃ s1, onConfig ⟨publish, some (configs ++ [config, e])⟩ s = some s1 ∧
            (∀ v, e.externalTemperatureTimeoutSeconds = some v →
              s1.core.externalTempTimeout_ms[i.toNat]? = some (asU8 (some v))) ∧
            (∀ points : List (Nat × Nat), e.fanSpeedThresholds = some (thresholdsOf points) →
              points.length ≤ 8 → (∀ p ∈ points, p.1 ≤ 126 ∧ p.2 ≤ 100) →
              ∀ k p, points[k]? = some p → (s1.fanDriver i.toNat).lut k = p)) := by
  refine ⟨?_, ?_, ?_, ?_, ?_, ?_, ?_⟩
  · obtain ⟨s1, h1, h2⟩ := jsonFanConfig_skip config s (by simpa [passes] using hconfig)
    exact ⟨s1, h1, (obs_eq_iff _ _).mp h2⟩
  · obtain ⟨s1, h1, h2⟩ := jsonFanCommand_skip clock command s (by simpa [passes] using hcommand)
    exact ⟨s1, h1, (obs_eq_iff _ _).mp h2⟩
  · unfold onConfig
    split_ifs
    · rfl
    · cases publish with
      | none =>
        exact forEach_filter jsonFanConfig (fun e => e.fan) jsonFanConfig_obs jsonFanConfig_skip
          jsonFanConfig_masks s configs s s rfl rfl rfl
      | some v =>
        exact forEach_filter jsonFanConfig (fun e => e.fan) jsonFanConfig_obs jsonFanConfig_skip
          jsonFanConfig_masks s configs _ _ rfl rfl rfl
  · unfold onCommand
    split_ifs
    · rfl
    · exact forEach_filter (jsonFanCommand clock) (fun e => e.fan) (jsonFanCommand_obs clock)
        (jsonFanCommand_skip clock) (jsonFanCommand_masks clock) s commands s s rfl rfl rfl
  · intro hb
    constructor
    · by_cases hf : s.core.fansFound = 0
      · simp only [onConfig, hf, if_true, Option.isSome_some]
      · obtain ⟨s0, hon, _, hb0⟩ := onConfig_fans publish configs s hf
        obtain ⟨s1, h1, _⟩ := forEach_returns jsonFanConfig InBounds jsonFanConfig_returns
          configs s0 (hb0 hb)
        rw [hon, h1]
        rfl
    · unfold onCommand
      split_ifs
      · rfl
      · obtain ⟨s1, h1, _⟩ := forEach_returns (jsonFanCommand clock) InBounds
          (jsonFanCommand_returns clock) commands s hb
        simp only [h1, Option.isSome_some]
  · intro hb hfans e i d hfan hv hduty hd0 hd1
    obtain ⟨t, s1, _, _, hft, hlast, hall⟩ :=
      commands_then_last clock s hb (commands ++ [command]) e
    have hlist : commands ++ [command, e] = (commands ++ [command]) ++ [e] := by simp
    refine ⟨s1, ?_, ?_⟩
    · simp only [onCommand, hfans, if_false, hlist, hall]
    · exact jsonFanCommand_dutyCycle clock e i d t hfan hduty (validFan_congr s t i hft hv)
        hd0 hd1 s1 hlast
  · intro hb hfans e i hfan hv
    obtain ⟨s0, hon, hf0, hb0⟩ := onConfig_fans publish (configs ++ [config, e]) s hfans
    obtain ⟨t, s1, _, hbt, hft, hlast, hall⟩ :=
      configs_then_last s0 (hb0 hb) (configs ++ [config]) e
    have hlist : configs ++ [config, e] = (configs ++ [config]) ++ [e] := by simp
    have hvt : validFan t i := validFan_congr s t i (hft.trans hf0) hv
    obtain ⟨hcore, hhw⟩ := jsonFanConfig_result e i t hfan hvt s1 hlast
    refine ⟨s1, ?_, ?_, ?_⟩
    · rw [hon, hlist, hall]
    · intro v hto
      have hlt := validFan_lt t i hbt hvt
      have hlen : i.toNat < t.core.externalTempTimeout_ms.length := by
        rw [hbt.1.1, TCA_COUNT_eq, EMC_COUNT_eq]; exact hlt
      rw [hcore, hto]
      simp [hlen]
    · intro points hthr hn8 hrange k p hp
      have hsel := select_selected t.hw (fanTca i.toNat) (fanEmc i.toNat) (fanEmc_lt _)
      have hcalls := setThresholds_eq_calls (fanTca i.toNat) points 0
        (t.hw.select (fanTca i.toNat) (fanEmc i.toNat)) (by omega)
        (fun q hq => ⟨by have := (hrange q hq).1; omega, by have := (hrange q hq).2; omega⟩)
      obtain ⟨h1, _⟩ := setLUTCalls_lut (fanTca i.toNat) (fanEmc i.toNat) points 0
        (t.hw.select (fanTca i.toNat) (fanEmc i.toNat)) hsel
      simp only [hthr, hcalls] at hhw
      simp only [State.fanDriver, hhw]
      exact h1 k p (Nat.zero_le k) (by simpa using hp)

theorem invalid_entries_skipped_witness :
    (∃ s1, jsonFanConfig ⟨some 5, some 30, none⟩ sampleState = some s1 ∧
        s1.core = sampleState.core ∧ s1.hw = sampleState.hw) ∧
      (∃ s1, jsonFanCommand 7 ⟨none, some 50, some 45⟩ sampleState = some s1 ∧
        s1.core = sampleState.core ∧ s1.hw = sampleState.hw) ∧
      (∃ s1, onCommand 7 ⟨some ([⟨some 65, some 50, none⟩] ++
          [⟨none, some 50, some 45⟩, ⟨some 3, some 100, some 45⟩])⟩ sampleState = some s1 ∧
        ((s1.fanDriver (3 : Int).toNat).lutEnabled = true ↔ (100 : Int) = 0) ∧
        ((s1.fanDriver (3 : Int).toNat).dutyCycle : Int) = 100) ∧
      (∃ s1, onConfig ⟨none, some ([⟨some 9, some 10, none⟩] ++
          [⟨some 5, some 30, none⟩, ⟨some 1, some 30, some (thresholdsOf [(40, 60)])⟩])⟩
          sampleState = some s1 ∧
        s1.core.externalTempTimeout_ms[(1 : Int).toNat]? = some (asU8 (some 30)) ∧
        (s1.fanDriver (1 : Int).toNat).lut 0 = (40, 60)) := by
  have h := invalid_entries_skipped 7 sampleState ⟨some 5, some 30, none⟩
    ⟨none, some 50, some 45⟩ none [⟨some 9, some 10, none⟩] [⟨some 65, some 50, none⟩]
    (by decide) (by decide)
  obtain ⟨s1, h1, h2, h3⟩ := h.2.2.2.2.2.2 ⟨by decide, by decide⟩ (by decide)
    ⟨some 1, some 30, some (thresholdsOf [(40, 60)])⟩ 1 rfl (by decide)
  exact ⟨h.1, h.2.1,
    h.2.2.2.2.2.1 ⟨by decide, by decide⟩ (by decide) ⟨some 3, some 100, some 45⟩ 3 100 rfl
      (by decide) rfl (by decide) (by decide),
    ⟨s1, h1, h2 30 rfl, h3 [(40, 60)] rfl (by decide) (by decide) 0 (40, 60) rfl⟩⟩

end OXRSFan
